import Mathlib

/-!
# sACN per-universe merge engine and source-liveness state machine

The repository holds the generated documentation indexes of the sACN library
(the `docs-build` navigation and search tables).  The merge engine itself
(`sacn_dmx_merger_*`, the receiver's source tracking and the merge receiver) is
documented there by name only, so the engine is modelled here from the
specification, section by section, and the properties are proved about that
model.  The documented API surface (records, callbacks, handle types and their
members) is checked on the index arrays themselves, transcribed as data.
-/

namespace Sacn

/-! ## Data model (spec section 3 and section 6) -/

/-- Modelled from the spec: size of the slot space (`DMX_ADDRESS_COUNT`, named in
`group__s_a_c_n.js` without its value); section 6 gives the 512-slot universe as
the reference size. -/
def DMX_ADDRESS_COUNT : Nat := 512

/-- Modelled from the spec: lowest valid priority; section 6 gives 1-200 as the
valid range shared by the universe priority and the per-address priorities. -/
def PRIORITY_MIN : Nat := 1

/-- Modelled from the spec: highest valid priority (section 6, 1-200). -/
def PRIORITY_MAX : Nat := 200

/-- Modelled from the spec: the per-address-priority sentinel meaning that the slot
is not sourced by PAP; section 6 places it outside the valid range 1-200, and it
is taken to be the value just below that range. -/
def PAP_UNSOURCED : Nat := 0

/-- Modelled from the spec: highest level value of a slot; the spec asks for levels
to be constrained to their numeric range (section 4.2), which for DMX-style
levels is one octet. -/
def LEVEL_MAX : Nat := 255

/-- Modelled from the spec: the footprint record (`SacnRecvUniverseSubrange`:
`start_address`, `address_count`), a contiguous subrange of the slot space. -/
structure Footprint where
  start_address : Nat
  address_count : Nat
deriving DecidableEq, Repr

/-- Modelled from the spec: the per-source record owned by the registry (section 3,
Source; the members that `SacnDmxMergerSource` and `SacnLostSource` document by
name).  The handle is the opaque integer of `sacn_dmx_merger_source_t` and
`sacn_remote_source_t`, distinct from the identity `cid`; slots are numbered by
natural numbers.  `stale` is the flag the liveness sweeper sets on a registry entry
(section 2, "evicting or flagging sources"); `seq` is the sequence number of the
last applied update (section 4.5). -/
structure Source where
  handle : Nat
  cid : Nat
  name : String
  levels : Nat → Option Nat
  pap : Nat → Nat
  universe_priority : Nat
  using_pap : Bool
  last_update : Nat
  terminated : Bool
  stale : Bool
  seq : Nat

/-- Modelled from the spec: the recognised configuration options of a universe
session (section 6).  `source_count_max = none` is the "unbounded" sentinel;
`seq_modulus` is the size of the raw sequence-number space, which the spec leaves
to the wire protocol and which is therefore a parameter here. -/
structure Config where
  source_count_max : Option Nat
  use_pap : Bool
  footprint : Footprint
  sampling_duration : Nat
  stale_interval : Nat
  expired_wait : Nat
  default_level : Nat
  seq_modulus : Nat

/-- Modelled from the spec: one slot of the merged snapshot (section 3,
MergedSnapshot: per-slot output level and per-slot owner or none; the members
`levels` and `owners` of `SacnRecvMergedData`). -/
structure SlotResult where
  slot : Nat
  level : Nat
  owner : Option Nat
deriving DecidableEq, Repr

/-- Modelled from the spec: the merged snapshot (section 3): one entry per slot of
the footprint and the count of currently contributing sources. -/
structure MergedSnapshot where
  slots : List SlotResult
  num_active_sources : Nat
deriving DecidableEq, Repr

/-! ## MergerCore (spec section 4.1) -/

/-- Modelled from the spec: a source takes part in arbitration when it is not
terminated (section 4.1) and not stale (section 4.3: recompute excludes a source
from the moment it is stale). -/
def contributes (src : Source) : Bool :=
  !src.terminated && !src.stale

/-- Modelled from the spec: a source has supplied a level for a slot when it has a
level there and, with PAP active, its PAP value for the slot is not the sentinel:
the sentinel marks the slot as not sourced (section 3), and such a source never
wins the slot (section 8, PAP exclusion). -/
def suppliesLevel (src : Source) (slot : Nat) : Bool :=
  (src.levels slot).isSome && !(src.using_pap && decide (src.pap slot = PAP_UNSOURCED))

/-- Modelled from the spec: candidate sources for a slot are those that are
registered, not terminated, and have supplied a level for that slot (section
4.1), and that the sweeper has not flagged stale (section 4.3). -/
def isCandidate (src : Source) (slot : Nat) : Bool :=
  contributes src && suppliesLevel src slot

/-- Modelled from the spec: effective priority of a source for a slot (section
4.1): its per-slot PAP value if `using_pap` is true and the PAP value for that
slot is not the unsourced sentinel; otherwise its universe-level priority. -/
def effectivePriority (src : Source) (slot : Nat) : Nat :=
  if src.using_pap = true ∧ src.pap slot ≠ PAP_UNSOURCED then src.pap slot
  else src.universe_priority

/-- Modelled from the spec: what arbitration looks at for one candidate of one
slot: its handle, its effective priority and its level. -/
structure Candidate where
  handle : Nat
  priority : Nat
  level : Nat
deriving DecidableEq, Repr

/-- Modelled from the spec: the candidate entry of a source for a slot, none when
the source is not a candidate for that slot (section 4.1). -/
def candidateOf (slot : Nat) (src : Source) : Option Candidate :=
  if isCandidate src slot = true then
    match src.levels slot with
    | some l => some ⟨src.handle, effectivePriority src slot, l⟩
    | none => none
  else none

/-- Modelled from the spec: the arbitration order of section 4.1: higher effective
priority wins; ties are broken by the higher level (highest takes precedence);
further ties by the lowest source handle. `better a b` says that `a` is strictly
preferred to `b`. -/
def better (a b : Candidate) : Bool :=
  decide (b.priority < a.priority) ||
    (decide (a.priority = b.priority) &&
      (decide (b.level < a.level) ||
        (decide (a.level = b.level) && decide (a.handle < b.handle))))

/-- Modelled from the spec: the winner among the candidates of a slot, none when
there is no candidate (section 4.1). -/
def pickWinner : List Candidate → Option Candidate
  | [] => none
  | c :: cs =>
    match pickWinner cs with
    | none => some c
    | some w => if better c w = true then some c else some w

/-- Modelled from the spec: the candidates of a slot, in registry order. -/
def candidates (reg : List Source) (slot : Nat) : List Candidate :=
  reg.filterMap (candidateOf slot)

/-- Modelled from the spec: per-slot arbitration (section 4.1): the winner's
handle and level, or owner none and the configured default level when the slot
has no candidate. -/
def mergeSlot (cfg : Config) (reg : List Source) (slot : Nat) : SlotResult :=
  match pickWinner (candidates reg slot) with
  | some w => ⟨slot, w.level, some w.handle⟩
  | none => ⟨slot, cfg.default_level, none⟩

/-- Modelled from the spec: the slots of a footprint, in increasing order. -/
def footprintSlots (fp : Footprint) : List Nat :=
  List.range' fp.start_address fp.address_count

/-- Modelled from the spec: `recompute(registry) -> MergedSnapshot` (section 4.1),
the full snapshot over the universe's footprint; the count is the number of
sources that currently take part in arbitration. -/
def recompute (cfg : Config) (reg : List Source) : MergedSnapshot :=
  { slots := (footprintSlots cfg.footprint).map (mergeSlot cfg reg)
    num_active_sources := (reg.filter contributes).length }

/-! ## SourceRegistry (spec section 4.2) -/

/-- Modelled from the spec: the named runtime failures of the session API (section
6: capacity exceeded, invalid handle, out-of-range update) and the discarding of
an update whose sequence number does not advance (section 4.5). -/
inductive Reason where
  | capacity_exceeded
  | invalid_handle
  | out_of_range
  | out_of_sequence
deriving DecidableEq, Repr

/-- Modelled from the spec: whether a handle names an entry of the registry. -/
def hasHandle (reg : List Source) (h : Nat) : Bool :=
  reg.any (fun s => decide (s.handle = h))

/-- Modelled from the spec: rewrite the registry entry of one handle, leaving
every other entry as it is. -/
def modify (reg : List Source) (h : Nat) (f : Source → Source) : List Source :=
  reg.map (fun s => if s.handle = h then f s else s)

/-- Modelled from the spec: the registry is at its configured maximum (section
4.2); never with the unbounded sentinel. -/
def atCapacity (max : Option Nat) (reg : List Source) : Bool :=
  match max with
  | none => false
  | some m => decide (m ≤ reg.length)

/-- Modelled from the spec: the entry of a newly added source: no level supplied
yet, no PAP, liveness clock started at admission (section 4.4). -/
def newSource (h : Nat) (cid : Nat) (name : String) (seq now : Nat) : Source :=
  { handle := h, cid := cid, name := name, levels := fun _ => none,
    pap := fun _ => PAP_UNSOURCED, universe_priority := PRIORITY_MIN, using_pap := false,
    last_update := now, terminated := false, stale := false, seq := seq }

/-- Modelled from the spec: `add_source(identity, caps) -> Nat | CapacityExceeded`
(section 4.2), issuing the handle `h`.  Capacity is enforced whether the sampling
period is open or closed (section 4.4, invariant 3), so the cap that applies
during sampling is the configured maximum. -/
def add_source (max : Option Nat) (reg : List Source) (h : Nat) (cid : Nat)
    (name : String) (seq now : Nat) : Except Reason (List Source) :=
  if atCapacity max reg = true then Except.error Reason.capacity_exceeded
  else Except.ok (reg ++ [newSource h cid name seq now])

/-- Modelled from the spec: `remove_source(handle)` (section 4.2). -/
def remove_source (reg : List Source) (h : Nat) : Except Reason (List Source) :=
  if hasHandle reg h = true then Except.ok (reg.filter (fun s => !decide (s.handle = h)))
  else Except.error Reason.invalid_handle

/-- Modelled from the spec: a slot range lies within the universe's active
footprint (section 4.2). -/
def rangeInFootprint (fp : Footprint) (start : Nat) (n : Nat) : Bool :=
  decide (fp.start_address ≤ start) && decide (start + n ≤ fp.start_address + fp.address_count)

/-- Modelled from the spec: a priority is in the valid range (section 6). -/
def priorityValid (p : Nat) : Bool :=
  decide (PRIORITY_MIN ≤ p) && decide (p ≤ PRIORITY_MAX)

/-- Modelled from the spec: a per-address priority is valid when it is the
unsourced sentinel or a valid priority (section 6). -/
def papValid (p : Nat) : Bool :=
  decide (p = PAP_UNSOURCED) || priorityValid p

/-- Modelled from the spec: write the values `vals` into the slots `start`,
`start + 1`, ... of a per-slot array, keeping every other slot. -/
def writeRange {α : Type} (old : Nat → α) (start : Nat) (vals : List α) : Nat → α :=
  fun i =>
    if start ≤ i then
      match vals.get? (i - start) with
      | some v => v
      | none => old i
    else old i

/-- Modelled from the spec: `update_levels(handle, levels, range)` (section 4.2):
validates the range against the footprint and the level values against their
numeric range, rejecting out-of-range writes. -/
def update_levels (fp : Footprint) (reg : List Source) (h : Nat) (start : Nat)
    (vals : List Nat) : Except Reason (List Source) :=
  if hasHandle reg h = false then Except.error Reason.invalid_handle
  else if (rangeInFootprint fp start vals.length && vals.all (fun v => decide (v ≤ LEVEL_MAX)))
      = false then
    Except.error Reason.out_of_range
  else Except.ok (modify reg h (fun s =>
    { s with levels := writeRange s.levels start (vals.map some) }))

/-- Modelled from the spec: `update_priority(handle, value)` (section 4.2); an
out-of-range priority is rejected (sections 4.2 and 6). -/
def update_priority (reg : List Source) (h : Nat) (p : Nat) : Except Reason (List Source) :=
  if hasHandle reg h = false then Except.error Reason.invalid_handle
  else if priorityValid p = false then Except.error Reason.out_of_range
  else Except.ok (modify reg h (fun s => { s with universe_priority := p }))

/-- Modelled from the spec: `update_pap(handle, pap_levels | clear)` (section 4.2):
`some vals` writes per-address priorities for the slots from `start` on and marks
the source as using PAP, `none` clears them. -/
def update_pap (fp : Footprint) (reg : List Source) (h : Nat) (start : Nat)
    (pap : Option (List Nat)) : Except Reason (List Source) :=
  if hasHandle reg h = false then Except.error Reason.invalid_handle
  else
    match pap with
    | none => Except.ok (modify reg h (fun s =>
        { s with using_pap := false, pap := fun _ => PAP_UNSOURCED }))
    | some vals =>
      if (rangeInFootprint fp start vals.length && vals.all papValid) = false then
        Except.error Reason.out_of_range
      else Except.ok (modify reg h (fun s =>
        { s with using_pap := true, pap := writeRange s.pap start vals }))

/-- Modelled from the spec: `mark_terminated(handle)` (section 4.2): flags the
source as no longer contributing and leaves it addressable until eviction. -/
def mark_terminated (reg : List Source) (h : Nat) : Except Reason (List Source) :=
  if hasHandle reg h = true then Except.ok (modify reg h (fun s => { s with terminated := true }))
  else Except.error Reason.invalid_handle

/-- Modelled from the spec: `touch(handle, timestamp)` (section 4.2): updates the
liveness timestamp; a source that has just been heard from is Active again
(section 4.3: it is stale only while no update is received). -/
def touch (reg : List Source) (h : Nat) (now : Nat) : Except Reason (List Source) :=
  if hasHandle reg h = true then
    Except.ok (modify reg h (fun s => { s with last_update := now, stale := false }))
  else Except.error Reason.invalid_handle

/-- Modelled from the spec: record the sequence number of an applied update
(section 4.5). -/
def record_seq (reg : List Source) (h : Nat) (seq : Nat) : Except Reason (List Source) :=
  if hasHandle reg h = true then Except.ok (modify reg h (fun s => { s with seq := seq }))
  else Except.error Reason.invalid_handle

/-! ## UniverseSession, SamplingPeriodGate and LivenessSweeper (spec sections 4.3 to 4.5) -/

/-- Modelled from the spec: the lifecycle events surfaced to the consumer (sections
4.5 and 6).  A sources-lost event carries the handle, the identity (cid and name)
and the reason, `terminated` true for explicit termination and false for a
timeout, as the members of `SacnLostSource` do. -/
inductive Event where
  | sampling_started
  | sampling_ended
  | source_limit_exceeded
  | source_lost (handle : Nat) (cid : Nat) (name : String) (terminated : Bool)
deriving DecidableEq, Repr

/-- Modelled from the spec: one per-source update as the transport layer delivers
it (section 1): raw sequence number, universe priority, the slot range with its
levels, and the per-address priorities when the source sends them. -/
structure Update where
  seq : Nat
  priority : Nat
  start_address : Nat
  levels : List Nat
  pap : Option (List Nat)
deriving DecidableEq, Repr

/-- Modelled from the spec: the state of one universe (section 3): configuration
with the active footprint, registry of sources, merged snapshot, sampling-period
state, and the next handle to issue (handles are never reused). -/
structure Session where
  cfg : Config
  registry : List Source
  snapshot : MergedSnapshot
  sampling_open : Bool
  sampling_start : Nat
  next_handle : Nat

/-- Modelled from the spec: the answer of a session operation, `Ack` or
`Rejected(reason)` (section 4.5). -/
inductive Result where
  | ack
  | rejected (reason : Reason)
deriving DecidableEq, Repr

/-- Modelled from the spec: what a session operation yields: its answer, the next
state and the events it enqueues, oldest first. -/
structure Outcome where
  result : Result
  session : Session
  events : List Event

/-- Modelled from the spec: a footprint is a non-empty range of the slot space
1 .. `DMX_ADDRESS_COUNT` (section 6). -/
def footprintValid (fp : Footprint) : Bool :=
  decide (1 ≤ fp.start_address) && decide (1 ≤ fp.address_count) &&
    decide (fp.start_address + fp.address_count ≤ DMX_ADDRESS_COUNT + 1)

/-- Modelled from the spec: configuration errors (section 7): invalid ranges and
zero capacities. -/
def configValid (cfg : Config) : Bool :=
  footprintValid cfg.footprint && decide (cfg.source_count_max ≠ some 0) &&
    decide (0 < cfg.seq_modulus)

/-- Modelled from the spec: session creation (sections 3, 4.4 and 7): fails on an
invalid configuration without creating anything; otherwise the registry is
empty, the snapshot is the recomputed one, and the sampling period opens. -/
def create (cfg : Config) (now : Nat) : Option (Session × List Event) :=
  if configValid cfg = true then
    some ({ cfg := cfg, registry := [], snapshot := recompute cfg [], sampling_open := true,
            sampling_start := now, next_handle := 0 }, [Event.sampling_started])
  else none

/-- Modelled from the spec: the rollover-aware comparison of raw sequence numbers
(section 4.5): `b` is ahead of `a` when the forward distance from `a` to `b`,
taken modulo the size `m` of the sequence space, is non-zero and less than half
of the space; so a large negative-looking difference is a rollover forward. -/
def seqAhead (m a b : Nat) : Bool :=
  decide (0 < (b % m + m - a % m) % m) && decide (2 * ((b % m + m - a % m) % m) < m)

/-- Modelled from the spec: the registry operations a data-carrying update is
routed to (sections 4.2 and 4.5): `update_levels`, `update_priority`,
`update_pap` when PAP is honoured by the configuration, `record_seq`, and the
implicit `touch`. -/
def applyUpdate (cfg : Config) (reg : List Source) (h : Nat) (u : Update) (now : Nat) :
    Except Reason (List Source) := do
  let r1 ← update_levels cfg.footprint reg h u.start_address u.levels
  let r2 ← update_priority r1 h u.priority
  let r3 ← if cfg.use_pap = true then update_pap cfg.footprint r2 h u.start_address u.pap
           else Except.ok r2
  let r4 ← record_seq r3 h u.seq
  touch r4 h now

/-- Modelled from the spec: the outcome of an operation that changed the registry:
the snapshot is recomputed (sections 2 and 4.5). -/
def commit (s : Session) (reg : List Source) (next : Nat) (evs : List Event) : Outcome :=
  { result := Result.ack
    session := { s with registry := reg, snapshot := recompute s.cfg reg, next_handle := next }
    events := evs }

/-- Modelled from the spec: the outcome of a rejected operation: the state is left
as it was (section 7). -/
def reject (s : Session) (r : Reason) (evs : List Event) : Outcome :=
  { result := Result.rejected r, session := s, events := evs }

/-- Modelled from the spec: the registry entry with a given identity. -/
def findByCid (reg : List Source) (cid : Nat) : Option Source :=
  reg.find? (fun s => decide (s.cid = cid))

/-- Modelled from the spec: `ingest(source_identity, update) -> Ack | Rejected(reason)`
(section 4.5).  An unknown identity is added first (capacity check, limit-exceeded
event on rejection); an update of a known source is discarded unless its sequence
number is ahead of the last applied one; the update is then routed to the
registry and the snapshot recomputed.  A rejected update changes nothing. -/
def ingest (s : Session) (cid : Nat) (name : String) (u : Update) (now : Nat) : Outcome :=
  match findByCid s.registry cid with
  | none =>
    match add_source s.cfg.source_count_max s.registry s.next_handle cid name u.seq now with
    | Except.error r => reject s r [Event.source_limit_exceeded]
    | Except.ok r0 =>
      match applyUpdate s.cfg r0 s.next_handle u now with
      | Except.error r => reject s r []
      | Except.ok reg => commit s reg (s.next_handle + 1) []
  | some src =>
    if seqAhead s.cfg.seq_modulus src.seq u.seq = true then
      match applyUpdate s.cfg s.registry src.handle u now with
      | Except.error r => reject s r []
      | Except.ok reg => commit s reg s.next_handle []
    else reject s Reason.out_of_sequence []

/-- Modelled from the spec: the session's `remove_source(handle)`; the next
snapshot no longer has the source (section 8, scenario B). -/
def removeSource (s : Session) (h : Nat) : Outcome :=
  match remove_source s.registry h with
  | Except.error r => reject s r []
  | Except.ok reg => commit s reg s.next_handle []

/-- Modelled from the spec: explicit termination signalled by the transport layer
(section 4.3): the source is flagged and leaves arbitration immediately
(invariant 4); the sweeper reports and evicts it. -/
def markTerminated (s : Session) (h : Nat) : Outcome :=
  match mark_terminated s.registry h with
  | Except.error r => reject s r []
  | Except.ok reg => commit s reg s.next_handle []

/-- Modelled from the spec: `change_footprint(new_range)` (sections 3 and 4.5):
resets the registry, forces recomputation and reopens the sampling period. -/
def changeFootprint (s : Session) (fp : Footprint) (now : Nat) : Outcome :=
  if footprintValid fp = true then
    { result := Result.ack
      session := { s with cfg := { s.cfg with footprint := fp }, registry := [],
                          snapshot := recompute { s.cfg with footprint := fp } [],
                          sampling_open := true, sampling_start := now }
      events := [Event.sampling_started] }
  else reject s Reason.out_of_range []

/-- Modelled from the spec: a source is due to be reported lost at time `t`
(section 4.3): it is terminated (fast path), or no update was received for the
expected-update interval and then for the expired wait. -/
def isLost (cfg : Config) (t : Nat) (src : Source) : Bool :=
  src.terminated || decide (src.last_update + cfg.stale_interval + cfg.expired_wait ≤ t)

/-- Modelled from the spec: no update was received within the expected-update
interval (section 4.3, Active to Stale). -/
def isStale (cfg : Config) (t : Nat) (src : Source) : Bool :=
  decide (src.last_update + cfg.stale_interval ≤ t)

/-- Modelled from the spec: the sweeper's Active to Stale transition on one entry;
it does not notify (section 4.3). -/
def markStale (cfg : Config) (t : Nat) (src : Source) : Source :=
  if isStale cfg t src = true then { src with stale := true } else src

/-- Modelled from the spec: the one-time loss notification of a source, carrying
its handle, identity and reason (section 4.3). -/
def lostEvent (src : Source) : Event :=
  Event.source_lost src.handle src.cid src.name src.terminated

/-- Modelled from the spec: the sampling window expires at time `t` (section 4.4). -/
def samplingExpires (s : Session) (t : Nat) : Bool :=
  s.sampling_open && decide (s.sampling_start + s.cfg.sampling_duration ≤ t)

/-- Modelled from the spec: one run of the liveness sweeper at time `t` (sections
4.3 and 4.4).  An expired sampling window is closed first, with a sampling-ended
event.  While the window is open no source is reported lost or evicted; once it
is closed every source that is due is reported lost once and evicted.  Remaining
sources that missed the expected-update interval are flagged stale, and the
snapshot is recomputed. -/
def sweep (s : Session) (t : Nat) : Outcome :=
  let stillOpen := s.sampling_open && !samplingExpires s t
  let lost := if stillOpen = true then [] else s.registry.filter (isLost s.cfg t)
  let kept := if stillOpen = true then s.registry
              else s.registry.filter (fun x => !isLost s.cfg t x)
  let reg := kept.map (markStale s.cfg t)
  { result := Result.ack
    session := { s with registry := reg, snapshot := recompute s.cfg reg,
                        sampling_open := stillOpen }
    events := (if samplingExpires s t = true then [Event.sampling_ended] else [])
                ++ lost.map lostEvent }

/-- Modelled from the spec: the operations that drive a universe session: the
ingestion path, explicit removal and termination, the timer-driven sweep, and a
footprint change. -/
inductive Op where
  | ingest (cid : Nat) (name : String) (u : Update) (now : Nat)
  | remove_source (h : Nat)
  | mark_terminated (h : Nat)
  | sweep (t : Nat)
  | change_footprint (fp : Footprint) (now : Nat)
deriving DecidableEq, Repr

/-- Modelled from the spec: one operation applied to a session. -/
def step (s : Session) : Op → Outcome
  | Op.ingest cid name u now => ingest s cid name u now
  | Op.remove_source h => removeSource s h
  | Op.mark_terminated h => markTerminated s h
  | Op.sweep t => sweep s t
  | Op.change_footprint fp now => changeFootprint s fp now

/-- Modelled from the spec: a run of operations, all serialised on the one
universe (section 5): the final state and the events of the whole run in the
order they were enqueued. -/
def run (s : Session) : List Op → Session × List Event
  | [] => (s, [])
  | op :: ops =>
    let o := step s op
    let r := run o.session ops
    (r.1, o.events ++ r.2)

/-- Modelled from the spec: the states a session can be in: those reached from a
successful creation by a run of operations. -/
def Reachable (s : Session) : Prop :=
  ∃ cfg now s0 evs ops, create cfg now = some (s0, evs) ∧ (run s0 ops).1 = s

/-! ## The effect of an applied update, in closed form -/

/-- Modelled from the spec: the checks that the registry operations of `applyUpdate`
make on an update (section 4.2), collected in one predicate: slot range within the
footprint, levels and priority in their numeric ranges, and the same for the
per-address priorities when PAP is honoured. -/
def updateValid (cfg : Config) (u : Update) : Bool :=
  (rangeInFootprint cfg.footprint u.start_address u.levels.length &&
      u.levels.all (fun v => decide (v ≤ LEVEL_MAX))) &&
    priorityValid u.priority &&
    (!cfg.use_pap ||
      match u.pap with
      | none => true
      | some vals => rangeInFootprint cfg.footprint u.start_address vals.length &&
          vals.all papValid)

/-- Modelled from the spec: the per-address-priority part of an applied update
(`update_pap`, section 4.2), on one registry entry. -/
def appliedPap (cfg : Config) (u : Update) (s : Source) : Source :=
  if cfg.use_pap = true then
    match u.pap with
    | none => { s with using_pap := false, pap := fun _ => PAP_UNSOURCED }
    | some vals => { s with using_pap := true, pap := writeRange s.pap u.start_address vals }
  else s

/-- Modelled from the spec: the registry entry of a source after an update has been
applied to it: what `update_levels`, `update_priority`, `update_pap`, `record_seq`
and `touch` do to the entry, in that order. -/
def appliedTo (cfg : Config) (u : Update) (now : Nat) (s : Source) : Source :=
  { appliedPap cfg u
      { s with levels := writeRange s.levels u.start_address (u.levels.map some),
               universe_priority := u.priority } with
    seq := u.seq, last_update := now, stale := false }

/-- Modelled from the spec: the structural invariants of a universe session (section 3):
the stored snapshot is the recomputed one, handles are unique per registry and
were all issued before the next handle, and the source count is within the
configured maximum. -/
structure WellFormed (s : Session) : Prop where
  snapshot_eq : s.snapshot = recompute s.cfg s.registry
  handles_nodup : (s.registry.map Source.handle).Nodup
  handles_fresh : ∀ x ∈ s.registry, x.handle < s.next_handle
  within_capacity : ∀ m, s.cfg.source_count_max = some m → s.registry.length ≤ m

/-- Modelled from the spec: an event is the loss notification of the source with
handle `h` (section 4.3). -/
def isLossOf (h : Nat) : Event → Bool
  | Event.source_lost h' _ _ _ => decide (h' = h)
  | _ => false

/-- Modelled from the spec: an operation that neither addresses the source with handle
`h` and identity `cid` (no update from it, no explicit removal or termination of
it) nor resets the registry; a run of such operations is one in which the source
has simply stopped updating (section 8, Liveness). -/
def leavesAlone (h cid : Nat) : Op → Bool
  | Op.ingest c _ _ _ => decide (c ≠ cid)
  | Op.remove_source h' => decide (h' ≠ h)
  | Op.mark_terminated h' => decide (h' ≠ h)
  | Op.sweep _ => true
  | Op.change_footprint _ _ => false

/-! ## Worked scenarios (spec section 8) -/

/-- Configuration of the worked scenarios: a footprint of two slots starting at slot
1, at most four sources, PAP honoured, one-octet sequence numbers. -/
def scenarioConfig : Config :=
  { source_count_max := some 4, use_pap := true, footprint := ⟨1, 2⟩,
    sampling_duration := 1500, stale_interval := 2500, expired_wait := 1000,
    default_level := 0, seq_modulus := 256 }

/-- The session created from `scenarioConfig` at time 0. -/
def scenarioSession : Session :=
  { cfg := scenarioConfig, registry := [], snapshot := recompute scenarioConfig [],
    sampling_open := true, sampling_start := 0, next_handle := 0 }

/-- An update of slot 1 alone, without per-address priorities. -/
def slotOneUpdate (seq priority level : Nat) : Update :=
  { seq := seq, priority := priority, start_address := 1, levels := [level], pap := none }

/-- Scenario A: source X (priority 100, level 50) and source Y (priority 150, level
10) both target slot 1.  X receives handle 0 and Y handle 1. -/
def scenarioA : Session :=
  (run scenarioSession
    [Op.ingest 1 "X" (slotOneUpdate 0 100 50) 0, Op.ingest 2 "Y" (slotOneUpdate 0 150 10) 0]).1

/-- Scenario B: source X (priority 100, level 200) and source Y (priority 100, level
50) on slot 1.  X receives handle 0 and Y handle 1. -/
def scenarioB : Session :=
  (run scenarioSession
    [Op.ingest 1 "X" (slotOneUpdate 0 100 200) 0, Op.ingest 2 "Y" (slotOneUpdate 0 100 50) 0]).1

/-- A run in which the higher-priority source goes stale: X (priority 200, level 50)
is last heard at time 0, Y (priority 100, level 10) at time 2000, and the sweeper
runs at time 2600, after X missed the expected-update interval of 2500. -/
def staleScenario : Session :=
  (run scenarioSession
    [Op.ingest 1 "X" (slotOneUpdate 0 200 50) 0, Op.ingest 2 "Y" (slotOneUpdate 0 100 10) 2000,
     Op.sweep 2600]).1

/-- A run in which X and Y tie on slot 1 in both priority (100) and level (50). -/
def tieScenario : Session :=
  (run scenarioSession
    [Op.ingest 1 "X" (slotOneUpdate 0 100 50) 0, Op.ingest 2 "Y" (slotOneUpdate 0 100 50) 0]).1

/-- A registry entry for source X (handle 0) with PAP active, every slot unsourced by
PAP, universe priority 150 and level 10 on slot 1. -/
def unsourcedX : Source :=
  { newSource 0 1 "X" 0 0 with
    levels := fun i => if i = 1 then some 10 else none
    universe_priority := 150
    using_pap := true }

/-- A registry entry for source Y (handle 1) with universe priority 100 and level 50
on slot 1. -/
def weakY : Source :=
  { newSource 1 2 "Y" 0 0 with
    levels := fun i => if i = 1 then some 50 else none
    universe_priority := 100 }

/-- The source X of `staleScenario`, the first entry of its registry. -/
def staleX : Source :=
  staleScenario.registry.headD (newSource 0 0 "" 0 0)

/-- Scenario C: a universe configured with at most one source; X is admitted at time 0
and the sweep at time 1500 closes the sampling period. -/
def scenarioC : Session :=
  (run { scenarioSession with cfg := { scenarioConfig with source_count_max := some 1 } }
    [Op.ingest 1 "X" (slotOneUpdate 0 100 50) 0, Op.sweep 1500]).1

/-- Modelled from the spec: an operation is an update sent by the source of identity
`cid` (section 4.5). -/
def updatesSource (cid : Nat) : Op → Bool
  | Op.ingest c _ _ _ => decide (c = cid)
  | _ => false

/-- A session whose sources time out quickly: expected-update interval 100 and expired
wait 100, with a sampling period of 1500 opened at time 0. -/
def samplingSession : Session :=
  { scenarioSession with
    cfg := { scenarioConfig with stale_interval := 100, expired_wait := 100 } }

/-- Source X joins `samplingSession` at time 0 and then goes silent; the sweeper runs at
times 500 and 1000, inside the sampling period. -/
def silentRun : List Op :=
  [Op.ingest 1 "X" (slotOneUpdate 0 100 50) 0, Op.sweep 500, Op.sweep 1000]

/-- An update for slots 2 and 3, which leaves the footprint of the scenarios (slots 1
and 2). -/
def offFootprintUpdate : Update :=
  { seq := 1, priority := 150, start_address := 2, levels := [10, 20], pap := none }

/-! ## The documentation indexes (docs-build)

The navigation index arrays (`group__*.js`, `annotated_dup.js`) and the search index arrays
(`search/*.js`) of the documentation build, transcribed entry by entry.  Each
version directory is a namespace (`v2_0_1` for `2.0.1`, and so on); every
definition keeps the name of the JavaScript variable of its file. -/

/-- One entry `[name, url, third]` of a navigation index array: the third component is
`null` (`leaf`), the name of a lazily loaded child index (`link`), or the list of the
entry's child entries (`node`).  The url is `null` for some entries. -/
inductive Nav where
  | leaf (name : String) (url : Option String)
  | link (name : String) (url : Option String) (index : String)
  | node (name : String) (url : Option String) (children : List Nav)

/-- One target `[url, flag, scope]` of a search index entry. -/
structure SearchTarget where
  url : String
  flag : Nat
  scope : String
deriving DecidableEq, Repr

/-- One entry `[key, [name, target, ...]]` of a `searchData` array. -/
structure SearchEntry where
  key : String
  name : String
  targets : List SearchTarget
deriving DecidableEq, Repr

namespace v2_0_1

/-- The array of `2.0.1/group__sacn__merge__receiver.js`. -/
def group__sacn__merge__receiver : List Nav :=
  [
    Nav.node "SacnRecvMergedData" (some "struct_sacn_recv_merged_data.html")
      [
        Nav.leaf "levels" (some "struct_sacn_recv_merged_data.html#a538119b446f2e353678608bd05ad4db2"),
        Nav.leaf "num_active_sources" (some "struct_sacn_recv_merged_data.html#a6f445f896ce37297dbcd575006fdcb6c"),
        Nav.leaf "owners" (some "struct_sacn_recv_merged_data.html#ade95d8642c07e44ecacc13f358ede54d"),
        Nav.leaf "slot_range" (some "struct_sacn_recv_merged_data.html#ad634e09aa77487d44087c02a9143ee17"),
        Nav.leaf "universe_id" (some "struct_sacn_recv_merged_data.html#a7e0de4d0f4e4bbd14771257febdf7248") ],
    Nav.node "SacnMergeReceiverCallbacks" (some "struct_sacn_merge_receiver_callbacks.html")
      [
        Nav.leaf "callback_context" (some "struct_sacn_merge_receiver_callbacks.html#a67b5953b36108e04f24abe803bc1fe44"),
        Nav.leaf "source_limit_exceeded" (some "struct_sacn_merge_receiver_callbacks.html#a29e01e068c71bd55dd31d6aeb5483992"),
        Nav.leaf "universe_data" (some "struct_sacn_merge_receiver_callbacks.html#a1a4295429c025c42d5a54b646f03f62b"),
        Nav.leaf "universe_non_dmx" (some "struct_sacn_merge_receiver_callbacks.html#ace7f60e7140c695d729d045abca2ba73") ],
    Nav.node "SacnMergeReceiverConfig" (some "struct_sacn_merge_receiver_config.html")
      [
        Nav.leaf "callbacks" (some "struct_sacn_merge_receiver_config.html#ac1381db71af830c6635c5d2b338217ba"),
        Nav.leaf "footprint" (some "struct_sacn_merge_receiver_config.html#a3fa13922bd1ee44412886d8e562582c8"),
        Nav.leaf "ip_supported" (some "struct_sacn_merge_receiver_config.html#ab619351af6b7a5abcb23e38bdc09e984"),
        Nav.leaf "source_count_max" (some "struct_sacn_merge_receiver_config.html#aa56795d5b57bff4910ce11baac4003ba"),
        Nav.leaf "universe_id" (some "struct_sacn_merge_receiver_config.html#a7e0de4d0f4e4bbd14771257febdf7248"),
        Nav.leaf "use_pap" (some "struct_sacn_merge_receiver_config.html#af4536f740a72ae5788afacd0db91da30") ],
    Nav.node "SacnMergeReceiverNetintList" (some "struct_sacn_merge_receiver_netint_list.html")
      [
        Nav.leaf "handle" (some "struct_sacn_merge_receiver_netint_list.html#aba7e88ef8eda8612d97729978383ba05"),
        Nav.leaf "netints" (some "struct_sacn_merge_receiver_netint_list.html#add0da5313d4b1d06a67bda5508b848e1"),
        Nav.leaf "num_netints" (some "struct_sacn_merge_receiver_netint_list.html#a6ddc029bb8aba3ead075508554592445") ],
    Nav.leaf "SACN_MERGE_RECEIVER_CONFIG_DEFAULT_INIT" (some "group__sacn__merge__receiver.html#gaeb89255ebd3592d97fe76ed6203913ae"),
    Nav.leaf "SACN_MERGE_RECEIVER_INVALID" (some "group__sacn__merge__receiver.html#gae86374c92bace3a7d2bef9656da6048a"),
    Nav.leaf "sacn_merge_receiver_t" (some "group__sacn__merge__receiver.html#gab674497f3bceb2d6ebf4b932b26bfe61"),
    Nav.leaf "SacnMergeReceiverCallbacks" (some "group__sacn__merge__receiver.html#ga92cb80327e80976e7b004bf9819bca0a"),
    Nav.leaf "SacnMergeReceiverConfig" (some "group__sacn__merge__receiver.html#ga05a8525a8ee5280ab3b6e0583ae01ae8"),
    Nav.leaf "SacnMergeReceiverMergedDataCallback" (some "group__sacn__merge__receiver.html#ga3b87b4a0324b476a926c86a18eab3a1d"),
    Nav.leaf "SacnMergeReceiverNetintList" (some "group__sacn__merge__receiver.html#ga2003a3a906229f10aaf77ad600ea1ad1"),
    Nav.leaf "SacnMergeReceiverNonDmxCallback" (some "group__sacn__merge__receiver.html#ga274346790ea25827de515b93f6df2c2b"),
    Nav.leaf "SacnMergeReceiverSourceLimitExceededCallback" (some "group__sacn__merge__receiver.html#ga47ccc08a4f5812e26ecf694fa0cb0ff0"),
    Nav.leaf "SacnRecvMergedData" (some "group__sacn__merge__receiver.html#gafb05eeea1bbac03fd2058d197e2c5846"),
    Nav.leaf "sacn_merge_receiver_change_footprint" (some "group__sacn__merge__receiver.html#ga05a2a94b9c4346efa7918c7fe3031a80"),
    Nav.leaf "sacn_merge_receiver_change_universe" (some "group__sacn__merge__receiver.html#ga821122037b6cd927facd821c11cce970"),
    Nav.leaf "sacn_merge_receiver_change_universe_and_footprint" (some "group__sacn__merge__receiver.html#ga99f34c7a019f2f4f5f62220a505c6e47"),
    Nav.leaf "sacn_merge_receiver_config_init" (some "group__sacn__merge__receiver.html#gab0d6a624f1d44008625335112788eb37"),
    Nav.leaf "sacn_merge_receiver_create" (some "group__sacn__merge__receiver.html#ga91ca26eea8b78eeb2b25bb003e8aa208"),
    Nav.leaf "sacn_merge_receiver_destroy" (some "group__sacn__merge__receiver.html#ga02c0879618435049e7a9bd25dbe58850"),
    Nav.leaf "sacn_merge_receiver_get_footprint" (some "group__sacn__merge__receiver.html#ga32dfa392c47b9f7a443e9bd563e1a974"),
    Nav.leaf "sacn_merge_receiver_get_network_interfaces" (some "group__sacn__merge__receiver.html#ga01cecd351da958dc2fc7b55088559de8"),
    Nav.leaf "sacn_merge_receiver_get_universe" (some "group__sacn__merge__receiver.html#ga7345c390c8b94221b481c3cd1ca37de7"),
    Nav.leaf "sacn_merge_receiver_reset_networking" (some "group__sacn__merge__receiver.html#ga00e28a2333ce8cd38b0eb3e58ac5f375"),
    Nav.leaf "sacn_merge_receiver_reset_networking_per_receiver" (some "group__sacn__merge__receiver.html#ga0db3ceb5a812f02e2e4daa52b5797523") ]

end v2_0_1

namespace v2_0_2

/-- The array of `2.0.2/group__sacn__merge__receiver__cpp.js`. -/
def group__sacn__merge__receiver__cpp : List Nav :=
  [
    Nav.node "MergeReceiver" (some "classsacn_1_1_merge_receiver.html")
      [
        Nav.leaf "Handle" (some "classsacn_1_1_merge_receiver.html#a4a5bdec680598648c6dbfae0422ef922"),
        Nav.leaf "MergeReceiver" (some "classsacn_1_1_merge_receiver.html#abffd6ce55e98154f496e0d341728769b"),
        Nav.leaf "MergeReceiver" (some "classsacn_1_1_merge_receiver.html#ad3e150350cbde08d2a6cd57573e9ae89"),
        Nav.leaf "MergeReceiver" (some "classsacn_1_1_merge_receiver.html#acd894017c62b549662194bd84a9f4a15"),
        Nav.leaf "ChangeFootprint" (some "classsacn_1_1_merge_receiver.html#a6d46635ac84bcb47ff0d01bcafe4ef91"),
        Nav.leaf "ChangeUniverse" (some "classsacn_1_1_merge_receiver.html#aa94ae64c11fbb22db3e21fba1e85cc64"),
        Nav.leaf "ChangeUniverseAndFootprint" (some "classsacn_1_1_merge_receiver.html#ac097835505ac503b525bcaa566cf506d"),
        Nav.leaf "GetFootprint" (some "classsacn_1_1_merge_receiver.html#aaa4d2448f1e1f8b23c095742738df97c"),
        Nav.leaf "GetNetworkInterfaces" (some "classsacn_1_1_merge_receiver.html#a227c8165a2af9b39ac6d53cbea18d121"),
        Nav.leaf "GetSource" (some "classsacn_1_1_merge_receiver.html#aae0754f40a65bc30573808504455cfe5"),
        Nav.leaf "GetUniverse" (some "classsacn_1_1_merge_receiver.html#a3d205f22d3d18f81585fd8d07ea21647"),
        Nav.leaf "handle" (some "classsacn_1_1_merge_receiver.html#aa4a2884ccfef0338bcb1985f86ae89b7"),
        Nav.leaf "operator=" (some "classsacn_1_1_merge_receiver.html#af2404624e492d4bbedd10461caf85353"),
        Nav.leaf "operator=" (some "classsacn_1_1_merge_receiver.html#a7778785bf8c7ee8aaf1708c6c188cced"),
        Nav.leaf "Shutdown" (some "classsacn_1_1_merge_receiver.html#ac5f038c2b480cf9ef5e19e3eba8dbaf9"),
        Nav.leaf "Startup" (some "classsacn_1_1_merge_receiver.html#ab8a65d7188fcd0074fd757a450a79100"),
        Nav.leaf "Startup" (some "classsacn_1_1_merge_receiver.html#abb65535d2f1ed30a79014d81eb7f6807") ],
    Nav.node "NotifyHandler" (some "classsacn_1_1_merge_receiver_1_1_notify_handler.html")
      [
        Nav.leaf "~NotifyHandler" (some "classsacn_1_1_merge_receiver_1_1_notify_handler.html#a9e07a73282d628b72531a124236be7da"),
        Nav.leaf "HandleMergedData" (some "classsacn_1_1_merge_receiver_1_1_notify_handler.html#a0d46e56c609d6edd9806994bb81190fc"),
        Nav.leaf "HandleNonDmxData" (some "classsacn_1_1_merge_receiver_1_1_notify_handler.html#ad516f76e02d5606d65074ad213f206a2"),
        Nav.leaf "HandleSourceLimitExceeded" (some "classsacn_1_1_merge_receiver_1_1_notify_handler.html#ab517496e89eb88b7ee7fa383558f725b") ],
    Nav.node "Settings" (some "structsacn_1_1_merge_receiver_1_1_settings.html")
      [
        Nav.leaf "Settings" (some "structsacn_1_1_merge_receiver_1_1_settings.html#a408c38e2ece7d6a8dda04484f006e8bb"),
        Nav.leaf "Settings" (some "structsacn_1_1_merge_receiver_1_1_settings.html#a83831072af761dc03118f8474d28536f"),
        Nav.leaf "IsValid" (some "structsacn_1_1_merge_receiver_1_1_settings.html#ac532c4b500b1a85ea22217f2c65a70ed"),
        Nav.leaf "footprint" (some "structsacn_1_1_merge_receiver_1_1_settings.html#a3fa13922bd1ee44412886d8e562582c8"),
        Nav.leaf "ip_supported" (some "structsacn_1_1_merge_receiver_1_1_settings.html#ab619351af6b7a5abcb23e38bdc09e984"),
        Nav.leaf "source_count_max" (some "structsacn_1_1_merge_receiver_1_1_settings.html#aa56795d5b57bff4910ce11baac4003ba"),
        Nav.leaf "universe_id" (some "structsacn_1_1_merge_receiver_1_1_settings.html#a7e0de4d0f4e4bbd14771257febdf7248"),
        Nav.leaf "use_pap" (some "structsacn_1_1_merge_receiver_1_1_settings.html#af4536f740a72ae5788afacd0db91da30") ],
    Nav.node "NetintList" (some "structsacn_1_1_merge_receiver_1_1_netint_list.html")
      [
        Nav.leaf "NetintList" (some "structsacn_1_1_merge_receiver_1_1_netint_list.html#aab5d1e8b9c2879521f59b7a50388e1a3"),
        Nav.leaf "NetintList" (some "structsacn_1_1_merge_receiver_1_1_netint_list.html#a93563df2f1849147e16b043b35eec5f8"),
        Nav.leaf "handle" (some "structsacn_1_1_merge_receiver_1_1_netint_list.html#aba7e88ef8eda8612d97729978383ba05"),
        Nav.leaf "netints" (some "structsacn_1_1_merge_receiver_1_1_netint_list.html#a2a0cd7263bacb4663085d28599867b12") ],
    Nav.node "Source" (some "structsacn_1_1_merge_receiver_1_1_source.html")
      [
        Nav.leaf "addr" (some "structsacn_1_1_merge_receiver_1_1_source.html#a6089008b110eefe551612f1d3d9073bc"),
        Nav.leaf "cid" (some "structsacn_1_1_merge_receiver_1_1_source.html#ab74b3ddda3c95279107d0059dd7ee9f3"),
        Nav.leaf "handle" (some "structsacn_1_1_merge_receiver_1_1_source.html#abd2d36f012ca716885c43720824b4a75"),
        Nav.leaf "name" (some "structsacn_1_1_merge_receiver_1_1_source.html#a9b45b3e13bd9167aab02e17e08916231") ] ]

/-- The array of `2.0.2/group__sacn__receiver.js`. -/
def group__sacn__receiver : List Nav :=
  [
    Nav.node "SacnRecvUniverseSubrange" (some "struct_sacn_recv_universe_subrange.html")
      [
        Nav.leaf "address_count" (some "struct_sacn_recv_universe_subrange.html#a827b7214573943430871533037d0f5b9"),
        Nav.leaf "start_address" (some "struct_sacn_recv_universe_subrange.html#ace16bae043b38ea02cb084b12bcbf646") ],
    Nav.node "SacnRecvUniverseData" (some "struct_sacn_recv_universe_data.html")
      [
        Nav.leaf "is_sampling" (some "struct_sacn_recv_universe_data.html#a7d039abc15e5b41fb9404c941d705648"),
        Nav.leaf "preview" (some "struct_sacn_recv_universe_data.html#a631d1206624dc91b6c574bf919a7699d"),
        Nav.leaf "priority" (some "struct_sacn_recv_universe_data.html#a0ad043071ccc7a261d79a759dc9c6f0c"),
        Nav.leaf "slot_range" (some "struct_sacn_recv_universe_data.html#ad634e09aa77487d44087c02a9143ee17"),
        Nav.leaf "start_code" (some "struct_sacn_recv_universe_data.html#a09df16493b12c991aef309819c8eebab"),
        Nav.leaf "universe_id" (some "struct_sacn_recv_universe_data.html#a7e0de4d0f4e4bbd14771257febdf7248"),
        Nav.leaf "values" (some "struct_sacn_recv_universe_data.html#a92142b0edf6b988306f478760c7a38aa") ],
    Nav.node "SacnRemoteSource" (some "struct_sacn_remote_source.html")
      [
        Nav.leaf "cid" (some "struct_sacn_remote_source.html#a4c3f7d9a58af5033f9acd8c942bf81d9"),
        Nav.leaf "handle" (some "struct_sacn_remote_source.html#abd2d36f012ca716885c43720824b4a75"),
        Nav.leaf "name" (some "struct_sacn_remote_source.html#a7e3669a12853b82f7d2b7488bb174956") ],
    Nav.node "SacnLostSource" (some "struct_sacn_lost_source.html")
      [
        Nav.leaf "cid" (some "struct_sacn_lost_source.html#a4c3f7d9a58af5033f9acd8c942bf81d9"),
        Nav.leaf "handle" (some "struct_sacn_lost_source.html#abd2d36f012ca716885c43720824b4a75"),
        Nav.leaf "name" (some "struct_sacn_lost_source.html#a7e3669a12853b82f7d2b7488bb174956"),
        Nav.leaf "terminated" (some "struct_sacn_lost_source.html#ad1aea42fae01ba0d2917114d189a9d36") ],
    Nav.node "SacnReceiverCallbacks" (some "struct_sacn_receiver_callbacks.html")
      [
        Nav.leaf "context" (some "struct_sacn_receiver_callbacks.html#ae376f130b17d169ee51be68077a89ed0"),
        Nav.leaf "sampling_period_ended" (some "struct_sacn_receiver_callbacks.html#a3c827e69c782db7012f8d20f9a25bf53"),
        Nav.leaf "sampling_period_started" (some "struct_sacn_receiver_callbacks.html#a401d2be24423a263467e2b7b09f68b0b"),
        Nav.leaf "source_limit_exceeded" (some "struct_sacn_receiver_callbacks.html#addfb88eea24f335ebbfc61590a5dffd3"),
        Nav.leaf "source_pap_lost" (some "struct_sacn_receiver_callbacks.html#ae587c65553885a5286a270d7bca267dc"),
        Nav.leaf "sources_lost" (some "struct_sacn_receiver_callbacks.html#a4aa47bcca0d30a2c28463942cac94be5"),
        Nav.leaf "universe_data" (some "struct_sacn_receiver_callbacks.html#a98b4132d20211455c32c7d1d73b1e156") ],
    Nav.node "SacnReceiverConfig" (some "struct_sacn_receiver_config.html")
      [
        Nav.leaf "callbacks" (some "struct_sacn_receiver_config.html#a4beb413a7e2291bf1488fc6472af6aa4"),
        Nav.leaf "flags" (some "struct_sacn_receiver_config.html#ac92588540e8c1d014a08cd8a45462b19"),
        Nav.leaf "footprint" (some "struct_sacn_receiver_config.html#a3fa13922bd1ee44412886d8e562582c8"),
        Nav.leaf "ip_supported" (some "struct_sacn_receiver_config.html#ab619351af6b7a5abcb23e38bdc09e984"),
        Nav.leaf "source_count_max" (some "struct_sacn_receiver_config.html#aa56795d5b57bff4910ce11baac4003ba"),
        Nav.leaf "universe_id" (some "struct_sacn_receiver_config.html#a7e0de4d0f4e4bbd14771257febdf7248") ],
    Nav.node "SacnReceiverNetintList" (some "struct_sacn_receiver_netint_list.html")
      [
        Nav.leaf "handle" (some "struct_sacn_receiver_netint_list.html#a0d237fd6d38af257c8ab2a14a64a76e0"),
        Nav.leaf "netints" (some "struct_sacn_receiver_netint_list.html#add0da5313d4b1d06a67bda5508b848e1"),
        Nav.leaf "num_netints" (some "struct_sacn_receiver_netint_list.html#a6ddc029bb8aba3ead075508554592445") ],
    Nav.leaf "SACN_DEFAULT_EXPIRED_WAIT_MS" (some "group__sacn__receiver.html#ga2f4617269e2d64c85b81556e0c3e8fde"),
    Nav.leaf "SACN_RECEIVER_CONFIG_DEFAULT_INIT" (some "group__sacn__receiver.html#gaaaa17f5e77d094f9348c0efd361cee52"),
    Nav.leaf "SACN_RECEIVER_INFINITE_SOURCES" (some "group__sacn__receiver.html#gadb2ea19692692ca852423d0a9de749ea"),
    Nav.leaf "SACN_RECEIVER_INVALID" (some "group__sacn__receiver.html#ga79dd5d0d62fb4d6120290afeeadb3637"),
    Nav.leaf "SACN_RECEIVER_OPTS_FILTER_PREVIEW_DATA" (some "group__sacn__receiver.html#ga8613a5c435a6120a1d410bead3949087"),
    Nav.leaf "sacn_receiver_t" (some "group__sacn__receiver.html#gafc1e3c92911f567bed81bbd04f3f34f6"),
    Nav.leaf "SacnLostSource" (some "group__sacn__receiver.html#ga7fdeb921a4c00c9821019145683bdda4"),
    Nav.leaf "SacnReceiverCallbacks" (some "group__sacn__receiver.html#ga114584027956aaaccfb9e74e1c311206"),
    Nav.leaf "SacnReceiverConfig" (some "group__sacn__receiver.html#gac54129e22da91ee8f1aaf9b56d771355"),
    Nav.leaf "SacnReceiverNetintList" (some "group__sacn__receiver.html#ga494aa6c2efd3b6a12943191c74946cb8"),
    Nav.leaf "SacnRecvUniverseData" (some "group__sacn__receiver.html#gac0c35d115d0d13af500b68eca8afda57"),
    Nav.leaf "SacnRecvUniverseSubrange" (some "group__sacn__receiver.html#gacd120c5410f4a19fe3faaeacbaaad904"),
    Nav.leaf "SacnRemoteSource" (some "group__sacn__receiver.html#ga3fa6cd794c97a1c6c8330ec6b79aad38"),
    Nav.leaf "SacnSamplingPeriodEndedCallback" (some "group__sacn__receiver.html#gac9ac2e788bf69c6da712dfcd67269e67"),
    Nav.leaf "SacnSamplingPeriodStartedCallback" (some "group__sacn__receiver.html#ga5a47a2560a7aba67637d3a5b7ad22ef5"),
    Nav.leaf "SacnSourceLimitExceededCallback" (some "group__sacn__receiver.html#ga64bfe2ecfceca8b4f50f1a3a0a9c9a07"),
    Nav.leaf "SacnSourcePapLostCallback" (some "group__sacn__receiver.html#ga7608a394e455465e56c789957f3f3214"),
    Nav.leaf "SacnSourcesLostCallback" (some "group__sacn__receiver.html#ga80326cc324898e1faebe2da1339bd0b3"),
    Nav.leaf "SacnUniverseDataCallback" (some "group__sacn__receiver.html#ga1ea1f87c1d1098d6df521cb9d9ccd0b3"),
    Nav.leaf "sacn_receiver_change_footprint" (some "group__sacn__receiver.html#gab5be9e77fa2652f71c93d9886ae826b2"),
    Nav.leaf "sacn_receiver_change_universe" (some "group__sacn__receiver.html#gabb5ec7d4459ac694e5fa0ae97572f388"),
    Nav.leaf "sacn_receiver_change_universe_and_footprint" (some "group__sacn__receiver.html#gaf046362e62f8f4a910a00aaee3006247"),
    Nav.leaf "sacn_receiver_config_init" (some "group__sacn__receiver.html#ga82f2e3740ce865b7aa3e018aa8a229d9"),
    Nav.leaf "sacn_receiver_create" (some "group__sacn__receiver.html#gacc6321deb0647ac0175993be6083683b"),
    Nav.leaf "sacn_receiver_destroy" (some "group__sacn__receiver.html#ga43f99a2447364832c9ab135ac3d8b6ae"),
    Nav.leaf "sacn_receiver_get_expired_wait" (some "group__sacn__receiver.html#gabd632f80d5da75c47c1f08103a42a391"),
    Nav.leaf "sacn_receiver_get_footprint" (some "group__sacn__receiver.html#ga3dadba0fa169d0bfe82d5884004ecaa8"),
    Nav.leaf "sacn_receiver_get_network_interfaces" (some "group__sacn__receiver.html#ga6ce5c1c8e4fafe2f339c6d3084dacfc4"),
    Nav.leaf "sacn_receiver_get_universe" (some "group__sacn__receiver.html#gae77eea445ebb380fb4d47c63c0f3ba32"),
    Nav.leaf "sacn_receiver_reset_networking" (some "group__sacn__receiver.html#ga54fd65585c71e83af35289c3cad0f685"),
    Nav.leaf "sacn_receiver_reset_networking_per_receiver" (some "group__sacn__receiver.html#ga29f330fc880d1c776afb5972514e6ac4"),
    Nav.leaf "sacn_receiver_set_expired_wait" (some "group__sacn__receiver.html#gabea27e71ae23c9176832f883a8ad7f06") ]

/-- The array of `2.0.2/group__sacn__receiver__cpp.js`. -/
def group__sacn__receiver__cpp : List Nav :=
  [
    Nav.node "Receiver" (some "classsacn_1_1_receiver.html")
      [
        Nav.leaf "Handle" (some "classsacn_1_1_receiver.html#a7337fe02f7aa0f984a2da3fe2c7d4524"),
        Nav.leaf "Receiver" (some "classsacn_1_1_receiver.html#a96590ef9bb15aaa2d157193314684c3d"),
        Nav.leaf "Receiver" (some "classsacn_1_1_receiver.html#a896715490bebfc93080500e9014a091d"),
        Nav.leaf "Receiver" (some "classsacn_1_1_receiver.html#a8b226a7db315d39b6fdc4c8e61c3d896"),
        Nav.leaf "ChangeFootprint" (some "classsacn_1_1_receiver.html#a6d46635ac84bcb47ff0d01bcafe4ef91"),
        Nav.leaf "ChangeUniverse" (some "classsacn_1_1_receiver.html#aa94ae64c11fbb22db3e21fba1e85cc64"),
        Nav.leaf "ChangeUniverseAndFootprint" (some "classsacn_1_1_receiver.html#ac097835505ac503b525bcaa566cf506d"),
        Nav.leaf "GetFootprint" (some "classsacn_1_1_receiver.html#aaa4d2448f1e1f8b23c095742738df97c"),
        Nav.leaf "GetNetworkInterfaces" (some "classsacn_1_1_receiver.html#a227c8165a2af9b39ac6d53cbea18d121"),
        Nav.leaf "GetUniverse" (some "classsacn_1_1_receiver.html#a3d205f22d3d18f81585fd8d07ea21647"),
        Nav.leaf "handle" (some "classsacn_1_1_receiver.html#af5825bc604b5bf0316732a4db412e1f8"),
        Nav.leaf "operator=" (some "classsacn_1_1_receiver.html#ad12ee05fea085da2b0fe8d7982d869e5"),
        Nav.leaf "operator=" (some "classsacn_1_1_receiver.html#a9312079cda8a73e44f853bd361239f39"),
        Nav.leaf "Shutdown" (some "classsacn_1_1_receiver.html#ac5f038c2b480cf9ef5e19e3eba8dbaf9"),
        Nav.leaf "Startup" (some "classsacn_1_1_receiver.html#ab8a65d7188fcd0074fd757a450a79100"),
        Nav.leaf "Startup" (some "classsacn_1_1_receiver.html#abb65535d2f1ed30a79014d81eb7f6807") ],
    Nav.node "NotifyHandler" (some "classsacn_1_1_receiver_1_1_notify_handler.html")
      [
        Nav.leaf "~NotifyHandler" (some "classsacn_1_1_receiver_1_1_notify_handler.html#a9e07a73282d628b72531a124236be7da"),
        Nav.leaf "HandleSamplingPeriodEnded" (some "classsacn_1_1_receiver_1_1_notify_handler.html#af02397cc6bf09294666b38883dbdf6a5"),
        Nav.leaf "HandleSamplingPeriodStarted" (some "classsacn_1_1_receiver_1_1_notify_handler.html#a9cd14450c1a43ab482bebaf5a1dcb0cc"),
        Nav.leaf "HandleSourceLimitExceeded" (some "classsacn_1_1_receiver_1_1_notify_handler.html#ab517496e89eb88b7ee7fa383558f725b"),
        Nav.leaf "HandleSourcePapLost" (some "classsacn_1_1_receiver_1_1_notify_handler.html#afc6fd518860704ac4b1f58d5a24f6672"),
        Nav.leaf "HandleSourcesLost" (some "classsacn_1_1_receiver_1_1_notify_handler.html#aeb67059ed834bf3d178bbdc4a931adae"),
        Nav.leaf "HandleUniverseData" (some "classsacn_1_1_receiver_1_1_notify_handler.html#a31ed01381fa689d55d77f298fdf3c2c3") ],
    Nav.node "Settings" (some "structsacn_1_1_receiver_1_1_settings.html")
      [
        Nav.leaf "Settings" (some "structsacn_1_1_receiver_1_1_settings.html#a408c38e2ece7d6a8dda04484f006e8bb"),
        Nav.leaf "Settings" (some "structsacn_1_1_receiver_1_1_settings.html#a83831072af761dc03118f8474d28536f"),
        Nav.leaf "IsValid" (some "structsacn_1_1_receiver_1_1_settings.html#ac532c4b500b1a85ea22217f2c65a70ed"),
        Nav.leaf "flags" (some "structsacn_1_1_receiver_1_1_settings.html#ac92588540e8c1d014a08cd8a45462b19"),
        Nav.leaf "footprint" (some "structsacn_1_1_receiver_1_1_settings.html#a3fa13922bd1ee44412886d8e562582c8"),
        Nav.leaf "ip_supported" (some "structsacn_1_1_receiver_1_1_settings.html#ab619351af6b7a5abcb23e38bdc09e984"),
        Nav.leaf "source_count_max" (some "structsacn_1_1_receiver_1_1_settings.html#aa56795d5b57bff4910ce11baac4003ba"),
        Nav.leaf "universe_id" (some "structsacn_1_1_receiver_1_1_settings.html#a7e0de4d0f4e4bbd14771257febdf7248") ],
    Nav.node "NetintList" (some "structsacn_1_1_receiver_1_1_netint_list.html")
      [
        Nav.leaf "NetintList" (some "structsacn_1_1_receiver_1_1_netint_list.html#aab5d1e8b9c2879521f59b7a50388e1a3"),
        Nav.leaf "NetintList" (some "structsacn_1_1_receiver_1_1_netint_list.html#a38636a756b1d972f2ccd147f6eff840a"),
        Nav.leaf "handle" (some "structsacn_1_1_receiver_1_1_netint_list.html#a0d237fd6d38af257c8ab2a14a64a76e0"),
        Nav.leaf "netints" (some "structsacn_1_1_receiver_1_1_netint_list.html#a2a0cd7263bacb4663085d28599867b12") ] ]

end v2_0_2

namespace v3_0_0

/-- The array of `3.0.0/group__s_a_c_n.js`. -/
def group__s_a_c_n : List Nav :=
  [
    Nav.link "sACN DMX Merger" (some "group__sacn__dmx__merger.html") "group__sacn__dmx__merger",
    Nav.link "sACN Merge Receiver" (some "group__sacn__merge__receiver.html") "group__sacn__merge__receiver",
    Nav.link "sACN Receiver" (some "group__sacn__receiver.html") "group__sacn__receiver",
    Nav.link "sACN Source" (some "group__sacn__source.html") "group__sacn__source",
    Nav.link "sACN Source Detector" (some "group__sacn__source__detector.html") "group__sacn__source__detector",
    Nav.link "sACN Configuration Options" (some "group__sacnopts.html") "group__sacnopts",
    Nav.node "SacnMcastInterface" (some "struct_sacn_mcast_interface.html")
      [
        Nav.leaf "iface" (some "struct_sacn_mcast_interface.html#a9d398e27f9eb3b1ee3b422225196b684"),
        Nav.leaf "status" (some "struct_sacn_mcast_interface.html#a3ed2ca570213574abb27e4d16cab480b") ],
    Nav.node "SacnNetintConfig" (some "struct_sacn_netint_config.html")
      [
        Nav.leaf "netints" (some "struct_sacn_netint_config.html#add0da5313d4b1d06a67bda5508b848e1"),
        Nav.leaf "no_netints" (some "struct_sacn_netint_config.html#a45fc59834ac15fd6d3c71454af1d247a"),
        Nav.leaf "num_netints" (some "struct_sacn_netint_config.html#a6ddc029bb8aba3ead075508554592445") ],
    Nav.leaf "DMX_ADDRESS_COUNT" (some "group__s_a_c_n.html#ga681f92a30c76ae426e2403a328978abb"),
    Nav.leaf "SACN_REMOTE_SOURCE_INVALID" (some "group__s_a_c_n.html#ga4579b31d1f4e1ecff0ecd8214c551956"),
    Nav.leaf "SACN_SOURCE_NAME_MAX_LEN" (some "group__s_a_c_n.html#ga0a68bef69f737e31072b475521d331c8"),
    Nav.leaf "SACN_STARTCODE_DMX" (some "group__s_a_c_n.html#ga2dba81c3bf923ae2dbb0aaa6d8d5fa0a"),
    Nav.leaf "SACN_STARTCODE_PRIORITY" (some "group__s_a_c_n.html#ga92ab22221d9dedb5b22978e6c14c6349"),
    Nav.leaf "SACN_VERSION_BUILD" (some "group__s_a_c_n.html#gab22648c510945c218b806ad28e1e9a86"),
    Nav.leaf "SACN_VERSION_COPYRIGHT" (some "group__s_a_c_n.html#ga5fd2e6c86426807d2eb598c67121723b"),
    Nav.leaf "SACN_VERSION_DATESTR" (some "group__s_a_c_n.html#ga99a95e107267c6f80cc2195f86c11586"),
    Nav.leaf "SACN_VERSION_MAJOR" (some "group__s_a_c_n.html#ga3b04b863e88d1bae02133dfb19667e06"),
    Nav.leaf "SACN_VERSION_MINOR" (some "group__s_a_c_n.html#ga234bcbd2198002c6ee8d3caa670ba0ed"),
    Nav.leaf "SACN_VERSION_PATCH" (some "group__s_a_c_n.html#gae1d8849ebfa2d27cec433e54f7f7308d"),
    Nav.leaf "SACN_VERSION_PRODUCTNAME" (some "group__s_a_c_n.html#ga46b3c38236732e08243f8fe79bcf6c06"),
    Nav.leaf "SACN_VERSION_STRING" (some "group__s_a_c_n.html#ga2ff6980847182dc1ac56ee3660e0a360"),
    Nav.leaf "sacn_remote_source_t" (some "group__s_a_c_n.html#ga31b1febd91134668307803d573ed2f2c"),
    Nav.leaf "SacnMcastInterface" (some "group__s_a_c_n.html#gabf46c3c353abbd956716fecbe24f2ae4"),
    Nav.leaf "SacnNetintConfig" (some "group__s_a_c_n.html#ga3cd2196005e33f66518a0f0baba34147"),
    Nav.node "sacn_ip_support_t" (some "group__s_a_c_n.html#ga02f82b9c734e2d2f70a1106d6480833a")
      [
        Nav.leaf "kSacnIpV4Only" (some "group__s_a_c_n.html#gga02f82b9c734e2d2f70a1106d6480833aa900230541148a1eb50b457dfbf75a3c4"),
        Nav.leaf "kSacnIpV6Only" (some "group__s_a_c_n.html#gga02f82b9c734e2d2f70a1106d6480833aaa7c7cce56d48e45e33bde272cb0be424"),
        Nav.leaf "kSacnIpV4AndIpV6" (some "group__s_a_c_n.html#gga02f82b9c734e2d2f70a1106d6480833aa946f61a87ca52ca76b687484c5cdced2") ],
    Nav.leaf "sacn_deinit" (some "group__s_a_c_n.html#ga7b80ebcafe9eb3240a67785377872f9a"),
    Nav.leaf "sacn_get_remote_source_cid" (some "group__s_a_c_n.html#ga9a71315342a299c22055fe195e6750ef"),
    Nav.leaf "sacn_get_remote_source_handle" (some "group__s_a_c_n.html#ga65d96208fc89676e2dea18d2ded31872"),
    Nav.leaf "sacn_init" (some "group__s_a_c_n.html#ga612160fe1d0f1e4f1fae4d72232fee07") ]

/-- The array of `3.0.0/group__sacn__dmx__merger.js`. -/
def group__sacn__dmx__merger : List Nav :=
  [
    Nav.node "SacnDmxMergerConfig" (some "struct_sacn_dmx_merger_config.html")
      [
        Nav.leaf "levels" (some "struct_sacn_dmx_merger_config.html#a65f1e6db75de6e20f9df99807d14fe19"),
        Nav.leaf "owners" (some "struct_sacn_dmx_merger_config.html#aec37c8bd38cd533fbff8d704cef812d9"),
        Nav.leaf "per_address_priorities" (some "struct_sacn_dmx_merger_config.html#a6b8790b29687764423319cc2b8f24c30"),
        Nav.leaf "per_address_priorities_active" (some "struct_sacn_dmx_merger_config.html#aa844a92b4e32e58dee13b77318f8cb8e"),
        Nav.leaf "source_count_max" (some "struct_sacn_dmx_merger_config.html#aa56795d5b57bff4910ce11baac4003ba"),
        Nav.leaf "universe_priority" (some "struct_sacn_dmx_merger_config.html#ae39fb52602dd51d0696c8973b0d5cd44") ],
    Nav.node "SacnDmxMergerSource" (some "struct_sacn_dmx_merger_source.html")
      [
        Nav.leaf "address_priority" (some "struct_sacn_dmx_merger_source.html#a8e2ad703e06552317b7f47dd0e0ebbea"),
        Nav.leaf "id" (some "struct_sacn_dmx_merger_source.html#a5d30b5a537ddb24760bd71590427ac3e"),
        Nav.leaf "levels" (some "struct_sacn_dmx_merger_source.html#a82f491441fd8ea7e0b36c867797a9ba5"),
        Nav.leaf "universe_priority" (some "struct_sacn_dmx_merger_source.html#aefc54b6cd291e480d6cb7c9b5b98a3f4"),
        Nav.leaf "using_universe_priority" (some "struct_sacn_dmx_merger_source.html#a61802cbe97a2c1aa336df0282b2bb07f"),
        Nav.leaf "valid_level_count" (some "struct_sacn_dmx_merger_source.html#a3695ed7e336fa1e6cf75ee3ccbc4937d") ],
    Nav.leaf "SACN_DMX_MERGER_CONFIG_INIT" (some "group__sacn__dmx__merger.html#ga7431ab2baf3af7e0d1999355c6bcc9d7"),
    Nav.leaf "SACN_DMX_MERGER_INVALID" (some "group__sacn__dmx__merger.html#ga4578a59809c13ece174e8dcf59fce26d"),
    Nav.leaf "SACN_DMX_MERGER_SOURCE_INVALID" (some "group__sacn__dmx__merger.html#ga1ca9e023e2091c5a8a4e5e2ba426f055"),
    Nav.leaf "SACN_DMX_MERGER_SOURCE_IS_VALID" (some "group__sacn__dmx__merger.html#gaec4962a6c5655b357d4c81dc9e7a7b86"),
    Nav.leaf "sacn_dmx_merger_source_t" (some "group__sacn__dmx__merger.html#ga6c4761eedeaaf635ac495265849c07f2"),
    Nav.leaf "sacn_dmx_merger_t" (some "group__sacn__dmx__merger.html#gabee79fb378d5942866adc898cb7da38b"),
    Nav.leaf "SacnDmxMergerConfig" (some "group__sacn__dmx__merger.html#ga9989e37ba8aa7aeb4ef0108ceb4e156c"),
    Nav.leaf "SacnDmxMergerSource" (some "group__sacn__dmx__merger.html#ga5ff553cc00468871978edfe0e675aebd"),
    Nav.leaf "sacn_dmx_merger_add_source" (some "group__sacn__dmx__merger.html#gadf879eb673c0ffe91ade6bcc5af615c3"),
    Nav.leaf "sacn_dmx_merger_create" (some "group__sacn__dmx__merger.html#ga8758dad93531c1a5bbf4643157fe2c72"),
    Nav.leaf "sacn_dmx_merger_destroy" (some "group__sacn__dmx__merger.html#ga539b249ea5d0898efce4ee7371fc91ef"),
    Nav.leaf "sacn_dmx_merger_get_source" (some "group__sacn__dmx__merger.html#ga0811c88edb22c748c8b80bbc49984e67"),
    Nav.leaf "sacn_dmx_merger_remove_pap" (some "group__sacn__dmx__merger.html#gada109b5171e78bc858ab18a7c13931ee"),
    Nav.leaf "sacn_dmx_merger_remove_source" (some "group__sacn__dmx__merger.html#gac6ebd9581fb8c6170d4acf1c24681ad7"),
    Nav.leaf "sacn_dmx_merger_update_levels" (some "group__sacn__dmx__merger.html#ga6ee5e85689e75879fa1db01db0bad8a6"),
    Nav.leaf "sacn_dmx_merger_update_pap" (some "group__sacn__dmx__merger.html#gac28b72fd6849cb6815c0ca58c2d29e65"),
    Nav.leaf "sacn_dmx_merger_update_universe_priority" (some "group__sacn__dmx__merger.html#gab56b1f0e4fe8d5d1dd23695a1a861b3b") ]

/-- The array of `3.0.0/group__sacn__merge__receiver__cpp.js`. -/
def group__sacn__merge__receiver__cpp : List Nav :=
  [
    Nav.node "MergeReceiver" (some "classsacn_1_1_merge_receiver.html")
      [
        Nav.leaf "Handle" (some "classsacn_1_1_merge_receiver.html#a4a5bdec680598648c6dbfae0422ef922"),
        Nav.leaf "MergeReceiver" (some "classsacn_1_1_merge_receiver.html#abffd6ce55e98154f496e0d341728769b"),
        Nav.leaf "MergeReceiver" (some "classsacn_1_1_merge_receiver.html#ad3e150350cbde08d2a6cd57573e9ae89"),
        Nav.leaf "MergeReceiver" (some "classsacn_1_1_merge_receiver.html#acd894017c62b549662194bd84a9f4a15"),
        Nav.leaf "ChangeFootprint" (some "classsacn_1_1_merge_receiver.html#a6d46635ac84bcb47ff0d01bcafe4ef91"),
        Nav.leaf "ChangeUniverse" (some "classsacn_1_1_merge_receiver.html#aa94ae64c11fbb22db3e21fba1e85cc64"),
        Nav.leaf "ChangeUniverseAndFootprint" (some "classsacn_1_1_merge_receiver.html#ac097835505ac503b525bcaa566cf506d"),
        Nav.leaf "GetFootprint" (some "classsacn_1_1_merge_receiver.html#aaa4d2448f1e1f8b23c095742738df97c"),
        Nav.leaf "GetNetworkInterfaces" (some "classsacn_1_1_merge_receiver.html#a227c8165a2af9b39ac6d53cbea18d121"),
        Nav.leaf "GetSource" (some "classsacn_1_1_merge_receiver.html#aae0754f40a65bc30573808504455cfe5"),
        Nav.leaf "GetUniverse" (some "classsacn_1_1_merge_receiver.html#a3d205f22d3d18f81585fd8d07ea21647"),
        Nav.leaf "handle" (some "classsacn_1_1_merge_receiver.html#aa4a2884ccfef0338bcb1985f86ae89b7"),
        Nav.leaf "operator=" (some "classsacn_1_1_merge_receiver.html#af2404624e492d4bbedd10461caf85353"),
        Nav.leaf "operator=" (some "classsacn_1_1_merge_receiver.html#a7778785bf8c7ee8aaf1708c6c188cced"),
        Nav.leaf "Shutdown" (some "classsacn_1_1_merge_receiver.html#ac5f038c2b480cf9ef5e19e3eba8dbaf9"),
        Nav.leaf "Startup" (some "classsacn_1_1_merge_receiver.html#a1fa0e47dc34289f2cffabdfc69c216a2"),
        Nav.leaf "Startup" (some "classsacn_1_1_merge_receiver.html#abb65535d2f1ed30a79014d81eb7f6807") ],
    Nav.node "NotifyHandler" (some "classsacn_1_1_merge_receiver_1_1_notify_handler.html")
      [
        Nav.leaf "~NotifyHandler" (some "classsacn_1_1_merge_receiver_1_1_notify_handler.html#a9e07a73282d628b72531a124236be7da"),
        Nav.leaf "HandleMergedData" (some "classsacn_1_1_merge_receiver_1_1_notify_handler.html#a0d46e56c609d6edd9806994bb81190fc"),
        Nav.leaf "HandleNonDmxData" (some "classsacn_1_1_merge_receiver_1_1_notify_handler.html#a7d7240a815773ac4a959a56d553588b7"),
        Nav.leaf "HandleSamplingPeriodEnded" (some "classsacn_1_1_merge_receiver_1_1_notify_handler.html#af02397cc6bf09294666b38883dbdf6a5"),
        Nav.leaf "HandleSamplingPeriodStarted" (some "classsacn_1_1_merge_receiver_1_1_notify_handler.html#a9cd14450c1a43ab482bebaf5a1dcb0cc"),
        Nav.leaf "HandleSourceLimitExceeded" (some "classsacn_1_1_merge_receiver_1_1_notify_handler.html#ab517496e89eb88b7ee7fa383558f725b"),
        Nav.leaf "HandleSourcePapLost" (some "classsacn_1_1_merge_receiver_1_1_notify_handler.html#afc6fd518860704ac4b1f58d5a24f6672"),
        Nav.leaf "HandleSourcesLost" (some "classsacn_1_1_merge_receiver_1_1_notify_handler.html#ae2d27b76147fba2f4d4ed5219d614246") ],
    Nav.node "Settings" (some "structsacn_1_1_merge_receiver_1_1_settings.html")
      [
        Nav.leaf "Settings" (some "structsacn_1_1_merge_receiver_1_1_settings.html#a408c38e2ece7d6a8dda04484f006e8bb"),
        Nav.leaf "Settings" (some "structsacn_1_1_merge_receiver_1_1_settings.html#a83831072af761dc03118f8474d28536f"),
        Nav.leaf "IsValid" (some "structsacn_1_1_merge_receiver_1_1_settings.html#ac532c4b500b1a85ea22217f2c65a70ed"),
        Nav.leaf "footprint" (some "structsacn_1_1_merge_receiver_1_1_settings.html#a3fa13922bd1ee44412886d8e562582c8"),
        Nav.leaf "ip_supported" (some "structsacn_1_1_merge_receiver_1_1_settings.html#ab619351af6b7a5abcb23e38bdc09e984"),
        Nav.leaf "source_count_max" (some "structsacn_1_1_merge_receiver_1_1_settings.html#aa56795d5b57bff4910ce11baac4003ba"),
        Nav.leaf "universe_id" (some "structsacn_1_1_merge_receiver_1_1_settings.html#a7e0de4d0f4e4bbd14771257febdf7248"),
        Nav.leaf "use_pap" (some "structsacn_1_1_merge_receiver_1_1_settings.html#af4536f740a72ae5788afacd0db91da30") ],
    Nav.node "NetintList" (some "structsacn_1_1_merge_receiver_1_1_netint_list.html")
      [
        Nav.leaf "NetintList" (some "structsacn_1_1_merge_receiver_1_1_netint_list.html#aab5d1e8b9c2879521f59b7a50388e1a3"),
        Nav.leaf "NetintList" (some "structsacn_1_1_merge_receiver_1_1_netint_list.html#a8d90a29c2e9f8926b9b3ff64458392d2"),
        Nav.leaf "NetintList" (some "structsacn_1_1_merge_receiver_1_1_netint_list.html#a7f4b990c2355dccdf25025a56358b6fd"),
        Nav.leaf "handle" (some "structsacn_1_1_merge_receiver_1_1_netint_list.html#aba7e88ef8eda8612d97729978383ba05"),
        Nav.leaf "netints" (some "structsacn_1_1_merge_receiver_1_1_netint_list.html#a2a0cd7263bacb4663085d28599867b12"),
        Nav.leaf "no_netints" (some "structsacn_1_1_merge_receiver_1_1_netint_list.html#a45fc59834ac15fd6d3c71454af1d247a") ],
    Nav.node "Source" (some "structsacn_1_1_merge_receiver_1_1_source.html")
      [
        Nav.leaf "addr" (some "structsacn_1_1_merge_receiver_1_1_source.html#a6089008b110eefe551612f1d3d9073bc"),
        Nav.leaf "cid" (some "structsacn_1_1_merge_receiver_1_1_source.html#ab74b3ddda3c95279107d0059dd7ee9f3"),
        Nav.leaf "handle" (some "structsacn_1_1_merge_receiver_1_1_source.html#abd2d36f012ca716885c43720824b4a75"),
        Nav.leaf "name" (some "structsacn_1_1_merge_receiver_1_1_source.html#a9b45b3e13bd9167aab02e17e08916231"),
        Nav.leaf "per_address_priorities_active" (some "structsacn_1_1_merge_receiver_1_1_source.html#a401cf1a9b9e5bd901e1600ea9abc4350"),
        Nav.leaf "universe_priority" (some "structsacn_1_1_merge_receiver_1_1_source.html#aefc54b6cd291e480d6cb7c9b5b98a3f4") ] ]

/-- The array of `3.0.0/group__sacn__source__cpp.js`. -/
def group__sacn__source__cpp : List Nav :=
  [
    Nav.node "Source" (some "classsacn_1_1_source.html")
      [
        Nav.leaf "Handle" (some "classsacn_1_1_source.html#a3defc9aed71824af85696f0f7e1b9ae4"),
        Nav.node "TickMode" (some "classsacn_1_1_source.html#af36a9f4e41fd0d0e2f1c538486bf57bf")
          [
            Nav.leaf "kProcessLevelsOnly" (some "classsacn_1_1_source.html#af36a9f4e41fd0d0e2f1c538486bf57bfad95af72fafcf05564a73aa4c6ac8b79b"),
            Nav.leaf "kProcessPapOnly" (some "classsacn_1_1_source.html#af36a9f4e41fd0d0e2f1c538486bf57bfa8a07e62c29375b0e7b5c3cdc53158e2d"),
            Nav.leaf "kProcessLevelsAndPap" (some "classsacn_1_1_source.html#af36a9f4e41fd0d0e2f1c538486bf57bfa3be842a0530fef755880cd131a19c6c5") ],
        Nav.leaf "Source" (some "classsacn_1_1_source.html#afcba8c9f647eab467be20bcf54000c21"),
        Nav.leaf "Source" (some "classsacn_1_1_source.html#ade9699a755d9e894dd62439e18869a23"),
        Nav.leaf "Source" (some "classsacn_1_1_source.html#ab3745517fb270270e41c41f0938dc278"),
        Nav.leaf "AddUnicastDestination" (some "classsacn_1_1_source.html#a5d7f1f26d1a6f5dbffca60dd08ac0454"),
        Nav.leaf "AddUniverse" (some "classsacn_1_1_source.html#a62069c900842c7ca322bd7ed4b587800"),
        Nav.leaf "AddUniverse" (some "classsacn_1_1_source.html#acde56409812c209c488836f19cf53662"),
        Nav.leaf "ChangeName" (some "classsacn_1_1_source.html#aa33e199741640a65c41cc19d18b4b6f0"),
        Nav.leaf "ChangePreviewFlag" (some "classsacn_1_1_source.html#a386b243f62f7cc246de825add2af3161"),
        Nav.leaf "ChangePriority" (some "classsacn_1_1_source.html#a250e66ea54b315476f4c201600dd7b5f"),
        Nav.leaf "ChangeSynchronizationUniverse" (some "classsacn_1_1_source.html#a6f73aa9c83e7d7266128cba5d4f70ef2"),
        Nav.leaf "GetNetworkInterfaces" (some "classsacn_1_1_source.html#ab862dc0dd665318204b83182f016731c"),
        Nav.leaf "GetUnicastDestinations" (some "classsacn_1_1_source.html#a80e1d17f72cc96da34ed4e2ed7b5a439"),
        Nav.leaf "GetUniverses" (some "classsacn_1_1_source.html#adc1d03b3f1516e7f545862b9096d834c"),
        Nav.leaf "handle" (some "classsacn_1_1_source.html#a4f8c06497d45385dbb819d1dd4fc7a25"),
        Nav.leaf "operator=" (some "classsacn_1_1_source.html#ace1a98c6e347dddfb9c2b362b93b2a45"),
        Nav.leaf "operator=" (some "classsacn_1_1_source.html#a70ca8a75288ff8b02f7674f8feea7940"),
        Nav.leaf "RemoveUnicastDestination" (some "classsacn_1_1_source.html#a2073e5814e81bf1257c7264a1b984966"),
        Nav.leaf "RemoveUniverse" (some "classsacn_1_1_source.html#aa0293c6689075dd5cb9692f036c8540f"),
        Nav.leaf "SendNow" (some "classsacn_1_1_source.html#a22cf560eca13a3cbc4c8384bad438897"),
        Nav.leaf "SendSynchronization" (some "classsacn_1_1_source.html#aecaeb4e484f6b34e839b705a1395765f"),
        Nav.leaf "Shutdown" (some "classsacn_1_1_source.html#ac5f038c2b480cf9ef5e19e3eba8dbaf9"),
        Nav.leaf "Startup" (some "classsacn_1_1_source.html#ab263565edc9ebf5ffd6e82a18184e4c3"),
        Nav.leaf "UpdateLevels" (some "classsacn_1_1_source.html#acbec36dcb6b7ac017788510763dffef3"),
        Nav.leaf "UpdateLevelsAndForceSync" (some "classsacn_1_1_source.html#ab7249aefa54c1fc4a230439d08fcfddd"),
        Nav.leaf "UpdateLevelsAndPap" (some "classsacn_1_1_source.html#a2d60e097ae578e5f8683fc10b271b126"),
        Nav.leaf "UpdateLevelsAndPapAndForceSync" (some "classsacn_1_1_source.html#ae6ab3c198ab506632e32e186bebe6a56") ],
    Nav.node "Settings" (some "structsacn_1_1_source_1_1_settings.html")
      [
        Nav.leaf "Settings" (some "structsacn_1_1_source_1_1_settings.html#a408c38e2ece7d6a8dda04484f006e8bb"),
        Nav.leaf "Settings" (some "structsacn_1_1_source_1_1_settings.html#a6a01ccea29e11babd7c2ba65931f7dc7"),
        Nav.leaf "IsValid" (some "structsacn_1_1_source_1_1_settings.html#ac532c4b500b1a85ea22217f2c65a70ed"),
        Nav.leaf "cid" (some "structsacn_1_1_source_1_1_settings.html#ab74b3ddda3c95279107d0059dd7ee9f3"),
        Nav.leaf "ip_supported" (some "structsacn_1_1_source_1_1_settings.html#ab619351af6b7a5abcb23e38bdc09e984"),
        Nav.leaf "keep_alive_interval" (some "structsacn_1_1_source_1_1_settings.html#a987c78ebef19e1addb7485ce29ef4dd7"),
        Nav.leaf "manually_process_source" (some "structsacn_1_1_source_1_1_settings.html#a16ca9a84fb49dbc5b40b8b333a239e2d"),
        Nav.leaf "name" (some "structsacn_1_1_source_1_1_settings.html#a9b45b3e13bd9167aab02e17e08916231"),
        Nav.leaf "pap_keep_alive_interval" (some "structsacn_1_1_source_1_1_settings.html#aa0c6c9ee861a74ce7f88cbf8ba7ec99f"),
        Nav.leaf "universe_count_max" (some "structsacn_1_1_source_1_1_settings.html#af4a1d1d970b94a6a07b8c612b8d7ad73") ],
    Nav.node "UniverseSettings" (some "structsacn_1_1_source_1_1_universe_settings.html")
      [
        Nav.leaf "UniverseSettings" (some "structsacn_1_1_source_1_1_universe_settings.html#af00507fb4c88058e9363bb4007ddea6f"),
        Nav.leaf "UniverseSettings" (some "structsacn_1_1_source_1_1_universe_settings.html#aea1e029adb6a6702a0594a0a6fdce16d"),
        Nav.leaf "IsValid" (some "structsacn_1_1_source_1_1_universe_settings.html#ac532c4b500b1a85ea22217f2c65a70ed"),
        Nav.leaf "priority" (some "structsacn_1_1_source_1_1_universe_settings.html#a0ad043071ccc7a261d79a759dc9c6f0c"),
        Nav.leaf "send_preview" (some "structsacn_1_1_source_1_1_universe_settings.html#a5c7913b52f7d575e1cedacbd6601b047"),
        Nav.leaf "send_unicast_only" (some "structsacn_1_1_source_1_1_universe_settings.html#adcf08448ca5544a8be4518fc2d966ef0"),
        Nav.leaf "sync_universe" (some "structsacn_1_1_source_1_1_universe_settings.html#a9c7dff151ba6b32fc343e6aa55147bcc"),
        Nav.leaf "unicast_destinations" (some "structsacn_1_1_source_1_1_universe_settings.html#a91fd2db41d13ddf5440d0d72619d1a2b"),
        Nav.leaf "universe" (some "structsacn_1_1_source_1_1_universe_settings.html#a0cf34824f8777f28b50f62b7870d6f8c") ],
    Nav.node "UniverseNetintList" (some "structsacn_1_1_source_1_1_universe_netint_list.html")
      [
        Nav.leaf "UniverseNetintList" (some "structsacn_1_1_source_1_1_universe_netint_list.html#a73644ddd63df91014c177680f2336e47"),
        Nav.leaf "UniverseNetintList" (some "structsacn_1_1_source_1_1_universe_netint_list.html#ad95505f4cce0aa335224a5680ca309f4"),
        Nav.leaf "UniverseNetintList" (some "structsacn_1_1_source_1_1_universe_netint_list.html#aa0cef0ea55a0e9bc9d8a2c5ecd16ec31"),
        Nav.leaf "handle" (some "structsacn_1_1_source_1_1_universe_netint_list.html#aee044b8551b82b1058427bbb17e74528"),
        Nav.leaf "netints" (some "structsacn_1_1_source_1_1_universe_netint_list.html#a2a0cd7263bacb4663085d28599867b12"),
        Nav.leaf "no_netints" (some "structsacn_1_1_source_1_1_universe_netint_list.html#a45fc59834ac15fd6d3c71454af1d247a"),
        Nav.leaf "universe" (some "structsacn_1_1_source_1_1_universe_netint_list.html#a0cf34824f8777f28b50f62b7870d6f8c") ] ]

/-- The array of `3.0.0/group__sacn__source__detector.js`. -/
def group__sacn__source__detector : List Nav :=
  [
    Nav.node "SacnSourceDetectorCallbacks" (some "struct_sacn_source_detector_callbacks.html")
      [
        Nav.leaf "context" (some "struct_sacn_source_detector_callbacks.html#ae376f130b17d169ee51be68077a89ed0"),
        Nav.leaf "limit_exceeded" (some "struct_sacn_source_detector_callbacks.html#a2a102ec50557c2902e0b43656c0fa33c"),
        Nav.leaf "source_expired" (some "struct_sacn_source_detector_callbacks.html#ad53b703dc988168f5b0b5bff06b2d2ff"),
        Nav.leaf "source_updated" (some "struct_sacn_source_detector_callbacks.html#ae4d714b0bc64241d5632fe77d013fb45") ],
    Nav.node "SacnSourceDetectorConfig" (some "struct_sacn_source_detector_config.html")
      [
        Nav.leaf "callbacks" (some "struct_sacn_source_detector_config.html#ac7495377d16d49972f79cebbd69f7095"),
        Nav.leaf "ip_supported" (some "struct_sacn_source_detector_config.html#ab619351af6b7a5abcb23e38bdc09e984"),
        Nav.leaf "source_count_max" (some "struct_sacn_source_detector_config.html#aa56795d5b57bff4910ce11baac4003ba"),
        Nav.leaf "universes_per_source_max" (some "struct_sacn_source_detector_config.html#a56cecc9bab9fb8d197ce21bbbc036e06") ],
    Nav.leaf "SACN_SOURCE_DETECTOR_CONFIG_DEFAULT_INIT" (some "group__sacn__source__detector.html#ga78fbb7639c835e3b08091fc16e31d6fc"),
    Nav.leaf "SACN_SOURCE_DETECTOR_INFINITE" (some "group__sacn__source__detector.html#ga2a1bee1e4fe7a47ee053c8dbae05fbcb"),
    Nav.leaf "SacnSourceDetectorCallbacks" (some "group__sacn__source__detector.html#gaa539e91ba47bdb365998472761dcede2"),
    Nav.leaf "SacnSourceDetectorConfig" (some "group__sacn__source__detector.html#gacf1948692a93767d849b6df90f75f6a4"),
    Nav.leaf "SacnSourceDetectorLimitExceededCallback" (some "group__sacn__source__detector.html#gadb2603e053f842705b654047e99c0096"),
    Nav.leaf "SacnSourceDetectorSourceExpiredCallback" (some "group__sacn__source__detector.html#ga18cf47c111cd4d23ee36c8aae4c97158"),
    Nav.leaf "SacnSourceDetectorSourceUpdatedCallback" (some "group__sacn__source__detector.html#ga30a59185e89668385ea425238cab8422"),
    Nav.leaf "sacn_source_detector_config_init" (some "group__sacn__source__detector.html#gaaf2f5a453a68df1ed4dcc80e1a94a49a"),
    Nav.leaf "sacn_source_detector_create" (some "group__sacn__source__detector.html#gaa662eb1cc3bb937691dcabc56332952f"),
    Nav.leaf "sacn_source_detector_destroy" (some "group__sacn__source__detector.html#ga42bf1f29fa1a313343b672e33685ba1d"),
    Nav.leaf "sacn_source_detector_get_network_interfaces" (some "group__sacn__source__detector.html#gae0c2cafc1d5d765f272981fc06f5fdc6"),
    Nav.leaf "sacn_source_detector_reset_networking" (some "group__sacn__source__detector.html#ga740a10eb54b67decf41794e298258a21") ]

end v3_0_0

namespace head

/-- The array of `head/group__sacn__merge__receiver.js`. -/
def group__sacn__merge__receiver : List Nav :=
  [
    Nav.node "SacnRecvMergedData" (some "struct_sacn_recv_merged_data.html")
      [
        Nav.leaf "active_sources" (some "struct_sacn_recv_merged_data.html#a067998056b2591fd39a6ab1247edf94b"),
        Nav.leaf "levels" (some "struct_sacn_recv_merged_data.html#a538119b446f2e353678608bd05ad4db2"),
        Nav.leaf "num_active_sources" (some "struct_sacn_recv_merged_data.html#a6f445f896ce37297dbcd575006fdcb6c"),
        Nav.leaf "owners" (some "struct_sacn_recv_merged_data.html#ade95d8642c07e44ecacc13f358ede54d"),
        Nav.leaf "priorities" (some "struct_sacn_recv_merged_data.html#a5c59c7a7fc70b6d32442895898e7d55e"),
        Nav.leaf "slot_range" (some "struct_sacn_recv_merged_data.html#ad634e09aa77487d44087c02a9143ee17"),
        Nav.leaf "universe_id" (some "struct_sacn_recv_merged_data.html#a7e0de4d0f4e4bbd14771257febdf7248") ],
    Nav.node "SacnMergeReceiverCallbacks" (some "struct_sacn_merge_receiver_callbacks.html")
      [
        Nav.leaf "callback_context" (some "struct_sacn_merge_receiver_callbacks.html#a67b5953b36108e04f24abe803bc1fe44"),
        Nav.leaf "sampling_period_ended" (some "struct_sacn_merge_receiver_callbacks.html#ab5b543dcbe601f5b9ae53cdb1564fa3d"),
        Nav.leaf "sampling_period_started" (some "struct_sacn_merge_receiver_callbacks.html#a25de9ebaf3bbe659df822828f4011b42"),
        Nav.leaf "source_limit_exceeded" (some "struct_sacn_merge_receiver_callbacks.html#a29e01e068c71bd55dd31d6aeb5483992"),
        Nav.leaf "source_pap_lost" (some "struct_sacn_merge_receiver_callbacks.html#a78c717807daa436372d67d4c2a43a354"),
        Nav.leaf "sources_lost" (some "struct_sacn_merge_receiver_callbacks.html#ad26d911447fbf0732edb4c48e6cdd043"),
        Nav.leaf "universe_data" (some "struct_sacn_merge_receiver_callbacks.html#a1a4295429c025c42d5a54b646f03f62b"),
        Nav.leaf "universe_non_dmx" (some "struct_sacn_merge_receiver_callbacks.html#ace7f60e7140c695d729d045abca2ba73") ],
    Nav.node "SacnMergeReceiverConfig" (some "struct_sacn_merge_receiver_config.html")
      [
        Nav.leaf "callbacks" (some "struct_sacn_merge_receiver_config.html#ac1381db71af830c6635c5d2b338217ba"),
        Nav.leaf "footprint" (some "struct_sacn_merge_receiver_config.html#a3fa13922bd1ee44412886d8e562582c8"),
        Nav.leaf "ip_supported" (some "struct_sacn_merge_receiver_config.html#ab619351af6b7a5abcb23e38bdc09e984"),
        Nav.leaf "source_count_max" (some "struct_sacn_merge_receiver_config.html#aa56795d5b57bff4910ce11baac4003ba"),
        Nav.leaf "universe_id" (some "struct_sacn_merge_receiver_config.html#a7e0de4d0f4e4bbd14771257febdf7248"),
        Nav.leaf "use_pap" (some "struct_sacn_merge_receiver_config.html#af4536f740a72ae5788afacd0db91da30") ],
    Nav.node "SacnMergeReceiverNetintList" (some "struct_sacn_merge_receiver_netint_list.html")
      [
        Nav.leaf "handle" (some "struct_sacn_merge_receiver_netint_list.html#aba7e88ef8eda8612d97729978383ba05"),
        Nav.leaf "netints" (some "struct_sacn_merge_receiver_netint_list.html#add0da5313d4b1d06a67bda5508b848e1"),
        Nav.leaf "no_netints" (some "struct_sacn_merge_receiver_netint_list.html#a45fc59834ac15fd6d3c71454af1d247a"),
        Nav.leaf "num_netints" (some "struct_sacn_merge_receiver_netint_list.html#a6ddc029bb8aba3ead075508554592445") ],
    Nav.node "SacnMergeReceiverSource" (some "struct_sacn_merge_receiver_source.html")
      [
        Nav.leaf "addr" (some "struct_sacn_merge_receiver_source.html#a730cebe0970ed6300a5f832363e65852"),
        Nav.leaf "cid" (some "struct_sacn_merge_receiver_source.html#a4c3f7d9a58af5033f9acd8c942bf81d9"),
        Nav.leaf "handle" (some "struct_sacn_merge_receiver_source.html#abd2d36f012ca716885c43720824b4a75"),
        Nav.leaf "name" (some "struct_sacn_merge_receiver_source.html#a7e3669a12853b82f7d2b7488bb174956"),
        Nav.leaf "per_address_priorities_active" (some "struct_sacn_merge_receiver_source.html#a401cf1a9b9e5bd901e1600ea9abc4350"),
        Nav.leaf "universe_priority" (some "struct_sacn_merge_receiver_source.html#aefc54b6cd291e480d6cb7c9b5b98a3f4") ],
    Nav.leaf "SACN_MERGE_RECEIVER_CONFIG_DEFAULT_INIT" (some "group__sacn__merge__receiver.html#gaeb89255ebd3592d97fe76ed6203913ae"),
    Nav.leaf "SACN_MERGE_RECEIVER_INVALID" (some "group__sacn__merge__receiver.html#gae86374c92bace3a7d2bef9656da6048a"),
    Nav.leaf "sacn_merge_receiver_t" (some "group__sacn__merge__receiver.html#gab674497f3bceb2d6ebf4b932b26bfe61"),
    Nav.leaf "SacnMergeReceiverCallbacks" (some "group__sacn__merge__receiver.html#ga92cb80327e80976e7b004bf9819bca0a"),
    Nav.leaf "SacnMergeReceiverConfig" (some "group__sacn__merge__receiver.html#ga05a8525a8ee5280ab3b6e0583ae01ae8"),
    Nav.leaf "SacnMergeReceiverMergedDataCallback" (some "group__sacn__merge__receiver.html#ga3b87b4a0324b476a926c86a18eab3a1d"),
    Nav.leaf "SacnMergeReceiverNetintList" (some "group__sacn__merge__receiver.html#ga2003a3a906229f10aaf77ad600ea1ad1"),
    Nav.leaf "SacnMergeReceiverNonDmxCallback" (some "group__sacn__merge__receiver.html#ga274346790ea25827de515b93f6df2c2b"),
    Nav.leaf "SacnMergeReceiverSamplingPeriodEndedCallback" (some "group__sacn__merge__receiver.html#ga361d2c730abd2b490d99017f6ebb3739"),
    Nav.leaf "SacnMergeReceiverSamplingPeriodStartedCallback" (some "group__sacn__merge__receiver.html#ga6bca38b03e63aa5a2e272449d23662ce"),
    Nav.leaf "SacnMergeReceiverSource" (some "group__sacn__merge__receiver.html#gac417e4563acfbf4bdfe8f2490c7e88c9"),
    Nav.leaf "SacnMergeReceiverSourceLimitExceededCallback" (some "group__sacn__merge__receiver.html#ga47ccc08a4f5812e26ecf694fa0cb0ff0"),
    Nav.leaf "SacnMergeReceiverSourcePapLostCallback" (some "group__sacn__merge__receiver.html#ga3791403f2e07bd8df2364339f22d5b08"),
    Nav.leaf "SacnMergeReceiverSourcesLostCallback" (some "group__sacn__merge__receiver.html#ga28f0d4119155beb794d94ef052ffe0c3"),
    Nav.leaf "SacnRecvMergedData" (some "group__sacn__merge__receiver.html#gafb05eeea1bbac03fd2058d197e2c5846"),
    Nav.leaf "sacn_merge_receiver_change_footprint" (some "group__sacn__merge__receiver.html#ga05a2a94b9c4346efa7918c7fe3031a80"),
    Nav.leaf "sacn_merge_receiver_change_universe" (some "group__sacn__merge__receiver.html#ga821122037b6cd927facd821c11cce970"),
    Nav.leaf "sacn_merge_receiver_change_universe_and_footprint" (some "group__sacn__merge__receiver.html#ga99f34c7a019f2f4f5f62220a505c6e47"),
    Nav.leaf "sacn_merge_receiver_config_init" (some "group__sacn__merge__receiver.html#gab0d6a624f1d44008625335112788eb37"),
    Nav.leaf "sacn_merge_receiver_create" (some "group__sacn__merge__receiver.html#ga91ca26eea8b78eeb2b25bb003e8aa208"),
    Nav.leaf "sacn_merge_receiver_destroy" (some "group__sacn__merge__receiver.html#ga02c0879618435049e7a9bd25dbe58850"),
    Nav.leaf "sacn_merge_receiver_get_footprint" (some "group__sacn__merge__receiver.html#ga32dfa392c47b9f7a443e9bd563e1a974"),
    Nav.leaf "sacn_merge_receiver_get_network_interfaces" (some "group__sacn__merge__receiver.html#ga01cecd351da958dc2fc7b55088559de8"),
    Nav.leaf "sacn_merge_receiver_get_source" (some "group__sacn__merge__receiver.html#ga807515578955a36b0a33de53a1d5bd9c"),
    Nav.leaf "sacn_merge_receiver_get_universe" (some "group__sacn__merge__receiver.html#ga7345c390c8b94221b481c3cd1ca37de7"),
    Nav.leaf "sacn_merge_receiver_reset_networking" (some "group__sacn__merge__receiver.html#ga00e28a2333ce8cd38b0eb3e58ac5f375"),
    Nav.leaf "sacn_merge_receiver_reset_networking_per_receiver" (some "group__sacn__merge__receiver.html#ga0db3ceb5a812f02e2e4daa52b5797523") ]

end head

namespace v2_0_1.search.classes_11

/-- The array of `2.0.1/search/classes_11.js`. -/
def searchData : List SearchEntry :=
  [
    SearchEntry.mk "random_5faccess_5fiterator_5ftag_2981" "random_access_iterator_tag"
      [ SearchTarget.mk "https://en.cppreference.com/w/cpp/iterator/iterator_tags.html" 1 "std" ],
    SearchEntry.mk "random_5fdevice_2982" "random_device"
      [ SearchTarget.mk "https://en.cppreference.com/w/cpp/numeric/random/random_device.html" 1 "std" ],
    SearchEntry.mk "range_5ferror_2983" "range_error"
      [ SearchTarget.mk "https://en.cppreference.com/w/cpp/error/range_error.html" 1 "std" ],
    SearchEntry.mk "rank_2984" "rank"
      [ SearchTarget.mk "https://en.cppreference.com/w/cpp/types/rank.html" 1 "std" ],
    SearchEntry.mk "ranlux24_2985" "ranlux24"
      [ SearchTarget.mk "https://en.cppreference.com/w/cpp/numeric/random/discard_block_engine.html" 1 "std" ],
    SearchEntry.mk "ranlux24_5fbase_2986" "ranlux24_base"
      [ SearchTarget.mk "https://en.cppreference.com/w/cpp/numeric/random/subtract_with_carry_engine.html" 1 "std" ],
    SearchEntry.mk "ranlux48_2987" "ranlux48"
      [ SearchTarget.mk "https://en.cppreference.com/w/cpp/numeric/random/discard_block_engine.html" 1 "std" ],
    SearchEntry.mk "ranlux48_5fbase_2988" "ranlux48_base"
      [ SearchTarget.mk "https://en.cppreference.com/w/cpp/numeric/random/subtract_with_carry_engine.html" 1 "std" ],
    SearchEntry.mk "ratio_2989" "ratio"
      [ SearchTarget.mk "https://en.cppreference.com/w/cpp/numeric/ratio/ratio.html" 1 "std" ],
    SearchEntry.mk "ratio_5fadd_2990" "ratio_add"
      [ SearchTarget.mk "https://en.cppreference.com/w/cpp/numeric/ratio/ratio_add.html" 1 "std" ],
    SearchEntry.mk "ratio_5fdivide_2991" "ratio_divide"
      [ SearchTarget.mk "https://en.cppreference.com/w/cpp/numeric/ratio/ratio_divide.html" 1 "std" ],
    SearchEntry.mk "ratio_5fequal_2992" "ratio_equal"
      [ SearchTarget.mk "https://en.cppreference.com/w/cpp/numeric/ratio/ratio_equal.html" 1 "std" ],
    SearchEntry.mk "ratio_5fgreater_2993" "ratio_greater"
      [ SearchTarget.mk "https://en.cppreference.com/w/cpp/numeric/ratio/ratio_greater.html" 1 "std" ],
    SearchEntry.mk "ratio_5fgreater_5fequal_2994" "ratio_greater_equal"
      [ SearchTarget.mk "https://en.cppreference.com/w/cpp/numeric/ratio/ratio_greater_equal.html" 1 "std" ],
    SearchEntry.mk "ratio_5fless_2995" "ratio_less"
      [ SearchTarget.mk "https://en.cppreference.com/w/cpp/numeric/ratio/ratio_less.html" 1 "std" ],
    SearchEntry.mk "ratio_5fless_5fequal_2996" "ratio_less_equal"
      [ SearchTarget.mk "https://en.cppreference.com/w/cpp/numeric/ratio/ratio_less_equal.html" 1 "std" ],
    SearchEntry.mk "ratio_5fmultiply_2997" "ratio_multiply"
      [ SearchTarget.mk "https://en.cppreference.com/w/cpp/numeric/ratio/ratio_multiply.html" 1 "std" ],
    SearchEntry.mk "ratio_5fnot_5fequal_2998" "ratio_not_equal"
      [ SearchTarget.mk "https://en.cppreference.com/w/cpp/numeric/ratio/ratio_not_equal.html" 1 "std" ],
    SearchEntry.mk "ratio_5fsubtract_2999" "ratio_subtract"
      [ SearchTarget.mk "https://en.cppreference.com/w/cpp/numeric/ratio/ratio_subtract.html" 1 "std" ],
    SearchEntry.mk "raw_5fstorage_5fiterator_3000" "raw_storage_iterator"
      [ SearchTarget.mk "https://en.cppreference.com/w/cpp/memory/raw_storage_iterator.html" 1 "std" ],
    SearchEntry.mk "readguard_3001" "ReadGuard"
      [ SearchTarget.mk "https://etclabs.github.io/EtcPalDocs/0.4.1/classetcpal_1_1_read_guard.html" 1 "etcpal" ],
    SearchEntry.mk "receiver_3002" "Receiver"
      [ SearchTarget.mk "../classsacn_1_1_receiver.html" 1 "sacn" ],
    SearchEntry.mk "receiverhandletype_3003" "ReceiverHandleType"
      [ SearchTarget.mk "../classsacn_1_1detail_1_1_receiver_handle_type.html" 1 "sacn::detail" ],
    SearchEntry.mk "recursive_5fmutex_3004" "recursive_mutex"
      [ SearchTarget.mk "https://en.cppreference.com/w/cpp/thread/recursive_mutex.html" 1 "std" ],
    SearchEntry.mk "recursive_5ftimed_5fmutex_3005" "recursive_timed_mutex"
      [ SearchTarget.mk "https://en.cppreference.com/w/cpp/thread/recursive_timed_mutex.html" 1 "std" ],
    SearchEntry.mk "recursivemutex_3006" "RecursiveMutex"
      [ SearchTarget.mk "https://etclabs.github.io/EtcPalDocs/0.4.1/classetcpal_1_1_recursive_mutex.html" 1 "etcpal" ],
    SearchEntry.mk "recursivemutexguard_3007" "RecursiveMutexGuard"
      [ SearchTarget.mk "https://etclabs.github.io/EtcPalDocs/0.4.1/classetcpal_1_1_recursive_mutex_guard.html" 1 "etcpal" ],
    SearchEntry.mk "reference_3008" "reference"
      [ SearchTarget.mk "https://en.cppreference.com/w/cpp/utility/bitset/reference.html" 1 "std::bitset" ],
    SearchEntry.mk "reference_5fwrapper_3009" "reference_wrapper"
      [ SearchTarget.mk "https://en.cppreference.com/w/cpp/utility/functional/reference_wrapper.html" 1 "std" ],
    SearchEntry.mk "regex_3010" "regex"
      [ SearchTarget.mk "https://en.cppreference.com/w/cpp/regex/basic_regex.html" 1 "std" ],
    SearchEntry.mk "regex_5ferror_3011" "regex_error"
      [ SearchTarget.mk "https://en.cppreference.com/w/cpp/regex/regex_error.html" 1 "std" ],
    SearchEntry.mk "regex_5fiterator_3012" "regex_iterator"
      [ SearchTarget.mk "https://en.cppreference.com/w/cpp/regex/regex_iterator.html" 1 "std" ],
    SearchEntry.mk "regex_5ftoken_5fiterator_3013" "regex_token_iterator"
      [ SearchTarget.mk "https://en.cppreference.com/w/cpp/regex/regex_token_iterator.html" 1 "std" ],
    SearchEntry.mk "regex_5ftraits_3014" "regex_traits"
      [ SearchTarget.mk "https://en.cppreference.com/w/cpp/regex/regex_traits.html" 1 "std" ],
    SearchEntry.mk "remove_5fall_5fextents_3015" "remove_all_extents"
      [ SearchTarget.mk "https://en.cppreference.com/w/cpp/types/remove_all_extents.html" 1 "std" ],
    SearchEntry.mk "remove_5fconst_3016" "remove_const"
      [ SearchTarget.mk "https://en.cppreference.com/w/cpp/types/remove_cv.html" 1 "std" ],
    SearchEntry.mk "remove_5fcv_3017" "remove_cv"
      [ SearchTarget.mk "https://en.cppreference.com/w/cpp/types/remove_cv.html" 1 "std" ],
    SearchEntry.mk "remove_5fextent_3018" "remove_extent"
      [ SearchTarget.mk "https://en.cppreference.com/w/cpp/types/remove_extent.html" 1 "std" ],
    SearchEntry.mk "remove_5fpointer_3019" "remove_pointer"
      [ SearchTarget.mk "https://en.cppreference.com/w/cpp/types/remove_pointer.html" 1 "std" ],
    SearchEntry.mk "remove_5freference_3020" "remove_reference"
      [ SearchTarget.mk "https://en.cppreference.com/w/cpp/types/remove_reference.html" 1 "std" ],
    SearchEntry.mk "remove_5fvolatile_3021" "remove_volatile"
      [ SearchTarget.mk "https://en.cppreference.com/w/cpp/types/remove_cv.html" 1 "std" ],
    SearchEntry.mk "result_5fof_3022" "result_of"
      [ SearchTarget.mk "https://en.cppreference.com/w/cpp/types/result_of.html" 1 "std" ],
    SearchEntry.mk "reverse_5fiterator_3023" "reverse_iterator"
      [ SearchTarget.mk "https://en.cppreference.com/w/cpp/iterator/reverse_iterator.html" 1 "std" ],
    SearchEntry.mk "runtime_5ferror_3024" "runtime_error"
      [ SearchTarget.mk "https://en.cppreference.com/w/cpp/error/runtime_error.html" 1 "std" ],
    SearchEntry.mk "rwlock_3025" "RwLock"
      [ SearchTarget.mk "https://etclabs.github.io/EtcPalDocs/0.4.1/classetcpal_1_1_rw_lock.html" 1 "etcpal" ] ]

end v2_0_1.search.classes_11

namespace v2_0_1.search.classes_e

/-- The array of `2.0.1/search/classes_e.js`. -/
def searchData : List SearchEntry :=
  [
    SearchEntry.mk "ofstream_2946" "ofstream"
      [ SearchTarget.mk "https://en.cppreference.com/w/cpp/io/basic_ofstream.html" 1 "std" ],
    SearchEntry.mk "once_5fflag_2947" "once_flag"
      [ SearchTarget.mk "https://en.cppreference.com/w/cpp/thread/once_flag.html" 1 "std" ],
    SearchEntry.mk "opaqueid_2948" "OpaqueId"
      [ SearchTarget.mk "https://etclabs.github.io/EtcPalDocs/0.4.1/classetcpal_1_1_opaque_id.html" 1 "etcpal" ],
    SearchEntry.mk "opaqueid_3c_20detail_3a_3admxmergerhandletype_2c_20sacn_5fdmx_5fmerger_5ft_2c_20sacn_5fdmx_5fmerger_5finvalid_20_3e_2949" "OpaqueId&lt; detail::DmxMergerHandleType, sacn_dmx_merger_t, SACN_DMX_MERGER_INVALID &gt;"
      [ SearchTarget.mk "https://etclabs.github.io/EtcPalDocs/0.4.1/classetcpal_1_1_opaque_id.html" 1 "etcpal" ],
    SearchEntry.mk "opaqueid_3c_20detail_3a_3amergereceiverhandletype_2c_20sacn_5fmerge_5freceiver_5ft_2c_20sacn_5fmerge_5freceiver_5finvalid_20_3e_2950" "OpaqueId&lt; detail::MergeReceiverHandleType, sacn_merge_receiver_t, SACN_MERGE_RECEIVER_INVALID &gt;"
      [ SearchTarget.mk "https://etclabs.github.io/EtcPalDocs/0.4.1/classetcpal_1_1_opaque_id.html" 1 "etcpal" ],
    SearchEntry.mk "opaqueid_3c_20detail_3a_3areceiverhandletype_2c_20sacn_5freceiver_5ft_2c_20sacn_5freceiver_5finvalid_20_3e_2951" "OpaqueId&lt; detail::ReceiverHandleType, sacn_receiver_t, SACN_RECEIVER_INVALID &gt;"
      [ SearchTarget.mk "https://etclabs.github.io/EtcPalDocs/0.4.1/classetcpal_1_1_opaque_id.html" 1 "etcpal" ],
    SearchEntry.mk "opaqueid_3c_20detail_3a_3asourcehandletype_2c_20sacn_5fsource_5ft_2c_20sacn_5fsource_5finvalid_20_3e_2952" "OpaqueId&lt; detail::SourceHandleType, sacn_source_t, SACN_SOURCE_INVALID &gt;"
      [ SearchTarget.mk "https://etclabs.github.io/EtcPalDocs/0.4.1/classetcpal_1_1_opaque_id.html" 1 "etcpal" ],
    SearchEntry.mk "optional_2953" "optional"
      [ SearchTarget.mk "https://en.cppreference.com/w/cpp/experimental/optional.html" 1 "std::experimental" ],
    SearchEntry.mk "ostream_2954" "ostream"
      [ SearchTarget.mk "https://en.cppreference.com/w/cpp/io/basic_ostream.html" 1 "std" ],
    SearchEntry.mk "ostream_5fiterator_2955" "ostream_iterator"
      [ SearchTarget.mk "https://en.cppreference.com/w/cpp/iterator/ostream_iterator.html" 1 "std" ],
    SearchEntry.mk "ostreambuf_5fiterator_2956" "ostreambuf_iterator"
      [ SearchTarget.mk "https://en.cppreference.com/w/cpp/iterator/ostreambuf_iterator.html" 1 "std" ],
    SearchEntry.mk "ostringstream_2957" "ostringstream"
      [ SearchTarget.mk "https://en.cppreference.com/w/cpp/io/basic_ostringstream.html" 1 "std" ],
    SearchEntry.mk "ostrstream_2958" "ostrstream"
      [ SearchTarget.mk "https://en.cppreference.com/w/cpp/io/ostrstream.html" 1 "std" ],
    SearchEntry.mk "out_5fof_5frange_2959" "out_of_range"
      [ SearchTarget.mk "https://en.cppreference.com/w/cpp/error/out_of_range.html" 1 "std" ],
    SearchEntry.mk "output_5fiterator_5ftag_2960" "output_iterator_tag"
      [ SearchTarget.mk "https://en.cppreference.com/w/cpp/iterator/iterator_tags.html" 1 "std" ],
    SearchEntry.mk "overflow_5ferror_2961" "overflow_error"
      [ SearchTarget.mk "https://en.cppreference.com/w/cpp/error/overflow_error.html" 1 "std" ],
    SearchEntry.mk "owner_5fless_2962" "owner_less"
      [ SearchTarget.mk "https://en.cppreference.com/w/cpp/memory/owner_less.html" 1 "std" ] ]

end v2_0_1.search.classes_e

namespace v2_0_2.search.classes_16

/-- The array of `2.0.2/search/classes_16.js`. -/
def searchData : List SearchEntry :=
  [
    SearchEntry.mk "wbuffer_5fconvert_3198" "wbuffer_convert"
      [ SearchTarget.mk "https://en.cppreference.com/w/cpp/locale/wbuffer_convert.html" 1 "std" ],
    SearchEntry.mk "wcerr_3199" "wcerr"
      [ SearchTarget.mk "https://en.cppreference.com/w/cpp/io/basic_ostream.html" 1 "std" ],
    SearchEntry.mk "wcin_3200" "wcin"
      [ SearchTarget.mk "https://en.cppreference.com/w/cpp/io/basic_istream.html" 1 "std" ],
    SearchEntry.mk "wclog_3201" "wclog"
      [ SearchTarget.mk "https://en.cppreference.com/w/cpp/io/basic_ostream.html" 1 "std" ],
    SearchEntry.mk "wcmatch_3202" "wcmatch"
      [ SearchTarget.mk "https://en.cppreference.com/w/cpp/regex/match_results.html" 1 "std" ],
    SearchEntry.mk "wcout_3203" "wcout"
      [ SearchTarget.mk "https://en.cppreference.com/w/cpp/io/basic_ostream.html" 1 "std" ],
    SearchEntry.mk "wcregex_5fiterator_3204" "wcregex_iterator"
      [ SearchTarget.mk "https://en.cppreference.com/w/cpp/regex/regex_iterator.html" 1 "std" ],
    SearchEntry.mk "wcregex_5ftoken_5fiterator_3205" "wcregex_token_iterator"
      [ SearchTarget.mk "https://en.cppreference.com/w/cpp/regex/regex_token_iterator.html" 1 "std" ],
    SearchEntry.mk "wcsub_5fmatch_3206" "wcsub_match"
      [ SearchTarget.mk "https://en.cppreference.com/w/cpp/regex/sub_match.html" 1 "std" ],
    SearchEntry.mk "weak_5fptr_3207" "weak_ptr"
      [ SearchTarget.mk "https://en.cppreference.com/w/cpp/memory/weak_ptr.html" 1 "std" ],
    SearchEntry.mk "weibull_5fdistribution_3208" "weibull_distribution"
      [ SearchTarget.mk "https://en.cppreference.com/w/cpp/numeric/random/weibull_distribution.html" 1 "std" ],
    SearchEntry.mk "wfilebuf_3209" "wfilebuf"
      [ SearchTarget.mk "https://en.cppreference.com/w/cpp/io/basic_filebuf.html" 1 "std" ],
    SearchEntry.mk "wfstream_3210" "wfstream"
      [ SearchTarget.mk "https://en.cppreference.com/w/cpp/io/basic_fstream.html" 1 "std" ],
    SearchEntry.mk "wifstream_3211" "wifstream"
      [ SearchTarget.mk "https://en.cppreference.com/w/cpp/io/basic_ifstream.html" 1 "std" ],
    SearchEntry.mk "wiostream_3212" "wiostream"
      [ SearchTarget.mk "https://en.cppreference.com/w/cpp/io/basic_iostream.html" 1 "std" ],
    SearchEntry.mk "wistream_3213" "wistream"
      [ SearchTarget.mk "https://en.cppreference.com/w/cpp/io/basic_istream.html" 1 "std" ],
    SearchEntry.mk "wistringstream_3214" "wistringstream"
      [ SearchTarget.mk "https://en.cppreference.com/w/cpp/io/basic_istringstream.html" 1 "std" ],
    SearchEntry.mk "wofstream_3215" "wofstream"
      [ SearchTarget.mk "https://en.cppreference.com/w/cpp/io/basic_ofstream.html" 1 "std" ],
    SearchEntry.mk "wostream_3216" "wostream"
      [ SearchTarget.mk "https://en.cppreference.com/w/cpp/io/basic_ostream.html" 1 "std" ],
    SearchEntry.mk "wostringstream_3217" "wostringstream"
      [ SearchTarget.mk "https://en.cppreference.com/w/cpp/io/basic_ostringstream.html" 1 "std" ],
    SearchEntry.mk "wregex_3218" "wregex"
      [ SearchTarget.mk "https://en.cppreference.com/w/cpp/regex/basic_regex.html" 1 "std" ],
    SearchEntry.mk "writeguard_3219" "WriteGuard"
      [ SearchTarget.mk "https://etclabs.github.io/EtcPalDocs/head/classetcpal_1_1_write_guard.html" 1 "etcpal" ],
    SearchEntry.mk "wsmatch_3220" "wsmatch"
      [ SearchTarget.mk "https://en.cppreference.com/w/cpp/regex/match_results.html" 1 "std" ],
    SearchEntry.mk "wsregex_5fiterator_3221" "wsregex_iterator"
      [ SearchTarget.mk "https://en.cppreference.com/w/cpp/regex/regex_iterator.html" 1 "std" ],
    SearchEntry.mk "wsregex_5ftoken_5fiterator_3222" "wsregex_token_iterator"
      [ SearchTarget.mk "https://en.cppreference.com/w/cpp/regex/regex_token_iterator.html" 1 "std" ],
    SearchEntry.mk "wssub_5fmatch_3223" "wssub_match"
      [ SearchTarget.mk "https://en.cppreference.com/w/cpp/regex/sub_match.html" 1 "std" ],
    SearchEntry.mk "wstreambuf_3224" "wstreambuf"
      [ SearchTarget.mk "https://en.cppreference.com/w/cpp/io/basic_streambuf.html" 1 "std" ],
    SearchEntry.mk "wstreampos_3225" "wstreampos"
      [ SearchTarget.mk "https://en.cppreference.com/w/cpp/io/fpos.html" 1 "std" ],
    SearchEntry.mk "wstring_3226" "wstring"
      [ SearchTarget.mk "https://en.cppreference.com/w/cpp/string/basic_string.html" 1 "std" ],
    SearchEntry.mk "wstring_5fconvert_3227" "wstring_convert"
      [ SearchTarget.mk "https://en.cppreference.com/w/cpp/locale/wstring_convert.html" 1 "std" ],
    SearchEntry.mk "wstringbuf_3228" "wstringbuf"
      [ SearchTarget.mk "https://en.cppreference.com/w/cpp/io/basic_stringbuf.html" 1 "std" ],
    SearchEntry.mk "wstringstream_3229" "wstringstream"
      [ SearchTarget.mk "https://en.cppreference.com/w/cpp/io/basic_stringstream.html" 1 "std" ] ]

end v2_0_2.search.classes_16

namespace v2_0_2.search.classes_4

/-- The array of `2.0.2/search/classes_4.js`. -/
def searchData : List SearchEntry :=
  [
    SearchEntry.mk "enable_5fif_2752" "enable_if"
      [ SearchTarget.mk "https://en.cppreference.com/w/cpp/types/enable_if.html" 1 "std" ],
    SearchEntry.mk "enable_5fshared_5ffrom_5fthis_2753" "enable_shared_from_this"
      [ SearchTarget.mk "https://en.cppreference.com/w/cpp/memory/enable_shared_from_this.html" 1 "std" ],
    SearchEntry.mk "equal_5fto_2754" "equal_to"
      [ SearchTarget.mk "https://en.cppreference.com/w/cpp/utility/functional/equal_to.html" 1 "std" ],
    SearchEntry.mk "errc_2755" "errc"
      [ SearchTarget.mk "https://en.cppreference.com/w/cpp/error/errc.html" 1 "std" ],
    SearchEntry.mk "error_2756" "Error"
      [ SearchTarget.mk "https://etclabs.github.io/EtcPalDocs/head/classetcpal_1_1_error.html" 1 "etcpal" ],
    SearchEntry.mk "error_5fcategory_2757" "error_category"
      [ SearchTarget.mk "https://en.cppreference.com/w/cpp/error/error_category.html" 1 "std" ],
    SearchEntry.mk "error_5fcode_2758" "error_code"
      [ SearchTarget.mk "https://en.cppreference.com/w/cpp/error/error_code.html" 1 "std" ],
    SearchEntry.mk "error_5fcondition_2759" "error_condition"
      [ SearchTarget.mk "https://en.cppreference.com/w/cpp/error/error_condition.html" 1 "std" ],
    SearchEntry.mk "etcpaladdrinfo_2760" "EtcPalAddrinfo"
      [ SearchTarget.mk "https://etclabs.github.io/EtcPalDocs/head/struct_etc_pal_addrinfo.html" 1 "" ],
    SearchEntry.mk "etcpalcmsghdr_2761" "EtcPalCMsgHdr"
      [ SearchTarget.mk "https://etclabs.github.io/EtcPalDocs/head/struct_etc_pal_c_msg_hdr.html" 1 "" ],
    SearchEntry.mk "etcpalgroupreq_2762" "EtcPalGroupReq"
      [ SearchTarget.mk "https://etclabs.github.io/EtcPalDocs/head/struct_etc_pal_group_req.html" 1 "" ],
    SearchEntry.mk "etcpalipaddr_2763" "EtcPalIpAddr"
      [ SearchTarget.mk "https://etclabs.github.io/EtcPalDocs/head/struct_etc_pal_ip_addr.html" 1 "" ],
    SearchEntry.mk "etcpallinger_2764" "EtcPalLinger"
      [ SearchTarget.mk "https://etclabs.github.io/EtcPalDocs/head/struct_etc_pal_linger.html" 1 "" ],
    SearchEntry.mk "etcpallogparams_2765" "EtcPalLogParams"
      [ SearchTarget.mk "https://etclabs.github.io/EtcPalDocs/head/struct_etc_pal_log_params.html" 1 "" ],
    SearchEntry.mk "etcpallogstrings_2766" "EtcPalLogStrings"
      [ SearchTarget.mk "https://etclabs.github.io/EtcPalDocs/head/struct_etc_pal_log_strings.html" 1 "" ],
    SearchEntry.mk "etcpallogtimestamp_2767" "EtcPalLogTimestamp"
      [ SearchTarget.mk "https://etclabs.github.io/EtcPalDocs/head/struct_etc_pal_log_timestamp.html" 1 "" ],
    SearchEntry.mk "etcpalmacaddr_2768" "EtcPalMacAddr"
      [ SearchTarget.mk "https://etclabs.github.io/EtcPalDocs/head/struct_etc_pal_mac_addr.html" 1 "" ],
    SearchEntry.mk "etcpalmcastnetintid_2769" "EtcPalMcastNetintId"
      [ SearchTarget.mk "https://etclabs.github.io/EtcPalDocs/head/struct_etc_pal_mcast_netint_id.html" 1 "" ],
    SearchEntry.mk "etcpalmreq_2770" "EtcPalMreq"
      [ SearchTarget.mk "https://etclabs.github.io/EtcPalDocs/head/struct_etc_pal_mreq.html" 1 "" ],
    SearchEntry.mk "etcpalmsghdr_2771" "EtcPalMsgHdr"
      [ SearchTarget.mk "https://etclabs.github.io/EtcPalDocs/head/struct_etc_pal_msg_hdr.html" 1 "" ],
    SearchEntry.mk "etcpalnetintinfo_2772" "EtcPalNetintInfo"
      [ SearchTarget.mk "https://etclabs.github.io/EtcPalDocs/head/struct_etc_pal_netint_info.html" 1 "" ],
    SearchEntry.mk "etcpalpktinfo_2773" "EtcPalPktInfo"
      [ SearchTarget.mk "https://etclabs.github.io/EtcPalDocs/head/struct_etc_pal_pkt_info.html" 1 "" ],
    SearchEntry.mk "etcpalpollevent_2774" "EtcPalPollEvent"
      [ SearchTarget.mk "https://etclabs.github.io/EtcPalDocs/head/struct_etc_pal_poll_event.html" 1 "" ],
    SearchEntry.mk "etcpalrbiter_2775" "EtcPalRbIter"
      [ SearchTarget.mk "https://etclabs.github.io/EtcPalDocs/head/struct_etc_pal_rb_iter.html" 1 "" ],
    SearchEntry.mk "etcpalrbnode_2776" "EtcPalRbNode"
      [ SearchTarget.mk "https://etclabs.github.io/EtcPalDocs/head/struct_etc_pal_rb_node.html" 1 "" ],
    SearchEntry.mk "etcpalrbtree_2777" "EtcPalRbTree"
      [ SearchTarget.mk "https://etclabs.github.io/EtcPalDocs/head/struct_etc_pal_rb_tree.html" 1 "" ],
    SearchEntry.mk "etcpalsockaddr_2778" "EtcPalSockAddr"
      [ SearchTarget.mk "https://etclabs.github.io/EtcPalDocs/head/struct_etc_pal_sock_addr.html" 1 "" ],
    SearchEntry.mk "etcpalsyslogparams_2779" "EtcPalSyslogParams"
      [ SearchTarget.mk "https://etclabs.github.io/EtcPalDocs/head/struct_etc_pal_syslog_params.html" 1 "" ],
    SearchEntry.mk "etcpalthreadparams_2780" "EtcPalThreadParams"
      [ SearchTarget.mk "https://etclabs.github.io/EtcPalDocs/head/struct_etc_pal_thread_params.html" 1 "" ],
    SearchEntry.mk "etcpaltimer_2781" "EtcPalTimer"
      [ SearchTarget.mk "https://etclabs.github.io/EtcPalDocs/head/struct_etc_pal_timer.html" 1 "" ],
    SearchEntry.mk "etcpaluuid_2782" "EtcPalUuid"
      [ SearchTarget.mk "https://etclabs.github.io/EtcPalDocs/head/struct_etc_pal_uuid.html" 1 "" ],
    SearchEntry.mk "event_5fcallback_2783" "event_callback"
      [ SearchTarget.mk "https://en.cppreference.com/w/cpp/io/ios_base/event_callback.html" 1 "basic_fstream::event_callback",
        SearchTarget.mk "https://en.cppreference.com/w/cpp/io/ios_base/event_callback.html" 1 "basic_ifstream::event_callback",
        SearchTarget.mk "https://en.cppreference.com/w/cpp/io/ios_base/event_callback.html" 1 "basic_ios::event_callback",
        SearchTarget.mk "https://en.cppreference.com/w/cpp/io/ios_base/event_callback.html" 1 "basic_iostream::event_callback",
        SearchTarget.mk "https://en.cppreference.com/w/cpp/io/ios_base/event_callback.html" 1 "basic_istream::event_callback",
        SearchTarget.mk "https://en.cppreference.com/w/cpp/io/ios_base/event_callback.html" 1 "basic_istringstream::event_callback",
        SearchTarget.mk "https://en.cppreference.com/w/cpp/io/ios_base/event_callback.html" 1 "basic_ofstream::event_callback",
        SearchTarget.mk "https://en.cppreference.com/w/cpp/io/ios_base/event_callback.html" 1 "basic_ostream::event_callback",
        SearchTarget.mk "https://en.cppreference.com/w/cpp/io/ios_base/event_callback.html" 1 "basic_ostringstream::event_callback",
        SearchTarget.mk "https://en.cppreference.com/w/cpp/io/ios_base/event_callback.html" 1 "basic_stringstream::event_callback",
        SearchTarget.mk "https://en.cppreference.com/w/cpp/io/ios_base/event_callback.html" 1 "fstream::event_callback",
        SearchTarget.mk "https://en.cppreference.com/w/cpp/io/ios_base/event_callback.html" 1 "ifstream::event_callback",
        SearchTarget.mk "https://en.cppreference.com/w/cpp/io/ios_base/event_callback.html" 1 "ios_base::event_callback",
        SearchTarget.mk "https://en.cppreference.com/w/cpp/io/ios_base/event_callback.html" 1 "iostream::event_callback",
        SearchTarget.mk "https://en.cppreference.com/w/cpp/io/ios_base/event_callback.html" 1 "istream::event_callback",
        SearchTarget.mk "https://en.cppreference.com/w/cpp/io/ios_base/event_callback.html" 1 "istringstream::event_callback",
        SearchTarget.mk "https://en.cppreference.com/w/cpp/io/ios_base/event_callback.html" 1 "istrstream::event_callback",
        SearchTarget.mk "https://en.cppreference.com/w/cpp/io/ios_base/event_callback.html" 1 "ofstream::event_callback",
        SearchTarget.mk "https://en.cppreference.com/w/cpp/io/ios_base/event_callback.html" 1 "ostream::event_callback",
        SearchTarget.mk "https://en.cppreference.com/w/cpp/io/ios_base/event_callback.html" 1 "ostringstream::event_callback",
        SearchTarget.mk "https://en.cppreference.com/w/cpp/io/ios_base/event_callback.html" 1 "ostrstream::event_callback",
        SearchTarget.mk "https://en.cppreference.com/w/cpp/io/ios_base/event_callback.html" 1 "stringstream::event_callback",
        SearchTarget.mk "https://en.cppreference.com/w/cpp/io/ios_base/event_callback.html" 1 "strstream::event_callback",
        SearchTarget.mk "https://en.cppreference.com/w/cpp/io/ios_base/event_callback.html" 1 "wfstream::event_callback",
        SearchTarget.mk "https://en.cppreference.com/w/cpp/io/ios_base/event_callback.html" 1 "wifstream::event_callback",
        SearchTarget.mk "https://en.cppreference.com/w/cpp/io/ios_base/event_callback.html" 1 "wiostream::event_callback",
        SearchTarget.mk "https://en.cppreference.com/w/cpp/io/ios_base/event_callback.html" 1 "wistream::event_callback",
        SearchTarget.mk "https://en.cppreference.com/w/cpp/io/ios_base/event_callback.html" 1 "wistringstream::event_callback",
        SearchTarget.mk "https://en.cppreference.com/w/cpp/io/ios_base/event_callback.html" 1 "wofstream::event_callback",
        SearchTarget.mk "https://en.cppreference.com/w/cpp/io/ios_base/event_callback.html" 1 "wostream::event_callback",
        SearchTarget.mk "https://en.cppreference.com/w/cpp/io/ios_base/event_callback.html" 1 "wostringstream::event_callback",
        SearchTarget.mk "https://en.cppreference.com/w/cpp/io/ios_base/event_callback.html" 1 "wstringstream::event_callback" ],
    SearchEntry.mk "eventgroup_2784" "EventGroup"
      [ SearchTarget.mk "https://etclabs.github.io/EtcPalDocs/head/classetcpal_1_1_event_group.html" 1 "etcpal" ],
    SearchEntry.mk "exa_2785" "exa"
      [ SearchTarget.mk "https://en.cppreference.com/w/cpp/numeric/ratio/ratio.html" 1 "std" ],
    SearchEntry.mk "exception_2786" "exception"
      [ SearchTarget.mk "https://en.cppreference.com/w/cpp/error/exception.html" 1 "std" ],
    SearchEntry.mk "exception_5fptr_2787" "exception_ptr"
      [ SearchTarget.mk "https://en.cppreference.com/w/cpp/error/exception_ptr.html" 1 "std" ],
    SearchEntry.mk "expected_2788" "Expected"
      [ SearchTarget.mk "https://etclabs.github.io/EtcPalDocs/head/classetcpal_1_1_expected.html" 1 "etcpal" ],
    SearchEntry.mk "exponential_5fdistribution_2789" "exponential_distribution"
      [ SearchTarget.mk "https://en.cppreference.com/w/cpp/numeric/random/exponential_distribution.html" 1 "std" ],
    SearchEntry.mk "extent_2790" "extent"
      [ SearchTarget.mk "https://en.cppreference.com/w/cpp/types/extent.html" 1 "std" ],
    SearchEntry.mk "extern_5ftype_2791" "extern_type"
      [ SearchTarget.mk "https://en.cppreference.com/w/cpp/locale/codecvt.html" 1 "codecvt::extern_type",
        SearchTarget.mk "https://en.cppreference.com/w/cpp/locale/codecvt.html" 1 "codecvt_byname::extern_type",
        SearchTarget.mk "https://en.cppreference.com/w/cpp/locale/codecvt.html" 1 "codecvt_utf16::extern_type",
        SearchTarget.mk "https://en.cppreference.com/w/cpp/locale/codecvt.html" 1 "codecvt_utf8::extern_type",
        SearchTarget.mk "https://en.cppreference.com/w/cpp/locale/codecvt.html" 1 "codecvt_utf8_utf16::extern_type" ],
    SearchEntry.mk "extreme_5fvalue_5fdistribution_2792" "extreme_value_distribution"
      [ SearchTarget.mk "https://en.cppreference.com/w/cpp/numeric/random/extreme_value_distribution.html" 1 "std" ] ]

end v2_0_2.search.classes_4

namespace v2_0_2.search.classes_e

/-- The array of `2.0.2/search/classes_e.js`. -/
def searchData : List SearchEntry :=
  [
    SearchEntry.mk "ofstream_2993" "ofstream"
      [ SearchTarget.mk "https://en.cppreference.com/w/cpp/io/basic_ofstream.html" 1 "std" ],
    SearchEntry.mk "once_5fflag_2994" "once_flag"
      [ SearchTarget.mk "https://en.cppreference.com/w/cpp/thread/once_flag.html" 1 "std" ],
    SearchEntry.mk "opaqueid_2995" "OpaqueId"
      [ SearchTarget.mk "https://etclabs.github.io/EtcPalDocs/head/classetcpal_1_1_opaque_id.html" 1 "etcpal" ],
    SearchEntry.mk "opaqueid_3c_20detail_3a_3admxmergerhandletype_2c_20sacn_5fdmx_5fmerger_5ft_2c_20sacn_5fdmx_5fmerger_5finvalid_20_3e_2996" "OpaqueId&lt; detail::DmxMergerHandleType, sacn_dmx_merger_t, SACN_DMX_MERGER_INVALID &gt;"
      [ SearchTarget.mk "https://etclabs.github.io/EtcPalDocs/head/classetcpal_1_1_opaque_id.html" 1 "etcpal" ],
    SearchEntry.mk "opaqueid_3c_20detail_3a_3amergereceiverhandletype_2c_20sacn_5fmerge_5freceiver_5ft_2c_20sacn_5fmerge_5freceiver_5finvalid_20_3e_2997" "OpaqueId&lt; detail::MergeReceiverHandleType, sacn_merge_receiver_t, SACN_MERGE_RECEIVER_INVALID &gt;"
      [ SearchTarget.mk "https://etclabs.github.io/EtcPalDocs/head/classetcpal_1_1_opaque_id.html" 1 "etcpal" ],
    SearchEntry.mk "opaqueid_3c_20detail_3a_3areceiverhandletype_2c_20sacn_5freceiver_5ft_2c_20sacn_5freceiver_5finvalid_20_3e_2998" "OpaqueId&lt; detail::ReceiverHandleType, sacn_receiver_t, SACN_RECEIVER_INVALID &gt;"
      [ SearchTarget.mk "https://etclabs.github.io/EtcPalDocs/head/classetcpal_1_1_opaque_id.html" 1 "etcpal" ],
    SearchEntry.mk "opaqueid_3c_20detail_3a_3asourcehandletype_2c_20sacn_5fsource_5ft_2c_20sacn_5fsource_5finvalid_20_3e_2999" "OpaqueId&lt; detail::SourceHandleType, sacn_source_t, SACN_SOURCE_INVALID &gt;"
      [ SearchTarget.mk "https://etclabs.github.io/EtcPalDocs/head/classetcpal_1_1_opaque_id.html" 1 "etcpal" ],
    SearchEntry.mk "optional_3000" "optional"
      [ SearchTarget.mk "https://en.cppreference.com/w/cpp/experimental/optional.html" 1 "std::experimental" ],
    SearchEntry.mk "ostream_3001" "ostream"
      [ SearchTarget.mk "https://en.cppreference.com/w/cpp/io/basic_ostream.html" 1 "std" ],
    SearchEntry.mk "ostream_5fiterator_3002" "ostream_iterator"
      [ SearchTarget.mk "https://en.cppreference.com/w/cpp/iterator/ostream_iterator.html" 1 "std" ],
    SearchEntry.mk "ostreambuf_5fiterator_3003" "ostreambuf_iterator"
      [ SearchTarget.mk "https://en.cppreference.com/w/cpp/iterator/ostreambuf_iterator.html" 1 "std" ],
    SearchEntry.mk "ostringstream_3004" "ostringstream"
      [ SearchTarget.mk "https://en.cppreference.com/w/cpp/io/basic_ostringstream.html" 1 "std" ],
    SearchEntry.mk "ostrstream_3005" "ostrstream"
      [ SearchTarget.mk "https://en.cppreference.com/w/cpp/io/ostrstream.html" 1 "std" ],
    SearchEntry.mk "out_5fof_5frange_3006" "out_of_range"
      [ SearchTarget.mk "https://en.cppreference.com/w/cpp/error/out_of_range.html" 1 "std" ],
    SearchEntry.mk "output_5fiterator_5ftag_3007" "output_iterator_tag"
      [ SearchTarget.mk "https://en.cppreference.com/w/cpp/iterator/iterator_tags.html" 1 "std" ],
    SearchEntry.mk "overflow_5ferror_3008" "overflow_error"
      [ SearchTarget.mk "https://en.cppreference.com/w/cpp/error/overflow_error.html" 1 "std" ],
    SearchEntry.mk "owner_5fless_3009" "owner_less"
      [ SearchTarget.mk "https://en.cppreference.com/w/cpp/memory/owner_less.html" 1 "std" ] ]

end v2_0_2.search.classes_e

namespace v3_0_0.search.classes_e

/-- The array of `3.0.0/search/classes_e.js`. -/
def searchData : List SearchEntry :=
  [
    SearchEntry.mk "ofstream_3021" "ofstream"
      [ SearchTarget.mk "https://en.cppreference.com/w/cpp/io/basic_ofstream.html" 1 "std" ],
    SearchEntry.mk "once_5fflag_3022" "once_flag"
      [ SearchTarget.mk "https://en.cppreference.com/w/cpp/thread/once_flag.html" 1 "std" ],
    SearchEntry.mk "opaqueid_3023" "OpaqueId"
      [ SearchTarget.mk "https://etclabs.github.io/EtcPalDocs/head/classetcpal_1_1_opaque_id.html" 1 "etcpal" ],
    SearchEntry.mk "opaqueid_3c_20detail_3a_3admxmergerhandletype_2c_20sacn_5fdmx_5fmerger_5ft_2c_20sacn_5fdmx_5fmerger_5finvalid_20_3e_3024" "OpaqueId&lt; detail::DmxMergerHandleType, sacn_dmx_merger_t, SACN_DMX_MERGER_INVALID &gt;"
      [ SearchTarget.mk "https://etclabs.github.io/EtcPalDocs/head/classetcpal_1_1_opaque_id.html" 1 "etcpal" ],
    SearchEntry.mk "opaqueid_3c_20detail_3a_3amergereceiverhandletype_2c_20sacn_5fmerge_5freceiver_5ft_2c_20sacn_5fmerge_5freceiver_5finvalid_20_3e_3025" "OpaqueId&lt; detail::MergeReceiverHandleType, sacn_merge_receiver_t, SACN_MERGE_RECEIVER_INVALID &gt;"
      [ SearchTarget.mk "https://etclabs.github.io/EtcPalDocs/head/classetcpal_1_1_opaque_id.html" 1 "etcpal" ],
    SearchEntry.mk "opaqueid_3c_20detail_3a_3areceiverhandletype_2c_20sacn_5freceiver_5ft_2c_20sacn_5freceiver_5finvalid_20_3e_3026" "OpaqueId&lt; detail::ReceiverHandleType, sacn_receiver_t, SACN_RECEIVER_INVALID &gt;"
      [ SearchTarget.mk "https://etclabs.github.io/EtcPalDocs/head/classetcpal_1_1_opaque_id.html" 1 "etcpal" ],
    SearchEntry.mk "opaqueid_3c_20detail_3a_3asourcehandletype_2c_20sacn_5fsource_5ft_2c_20sacn_5fsource_5finvalid_20_3e_3027" "OpaqueId&lt; detail::SourceHandleType, sacn_source_t, SACN_SOURCE_INVALID &gt;"
      [ SearchTarget.mk "https://etclabs.github.io/EtcPalDocs/head/classetcpal_1_1_opaque_id.html" 1 "etcpal" ],
    SearchEntry.mk "optional_3028" "optional"
      [ SearchTarget.mk "https://en.cppreference.com/w/cpp/experimental/optional.html" 1 "std::experimental" ],
    SearchEntry.mk "ostream_3029" "ostream"
      [ SearchTarget.mk "https://en.cppreference.com/w/cpp/io/basic_ostream.html" 1 "std" ],
    SearchEntry.mk "ostream_5fiterator_3030" "ostream_iterator"
      [ SearchTarget.mk "https://en.cppreference.com/w/cpp/iterator/ostream_iterator.html" 1 "std" ],
    SearchEntry.mk "ostreambuf_5fiterator_3031" "ostreambuf_iterator"
      [ SearchTarget.mk "https://en.cppreference.com/w/cpp/iterator/ostreambuf_iterator.html" 1 "std" ],
    SearchEntry.mk "ostringstream_3032" "ostringstream"
      [ SearchTarget.mk "https://en.cppreference.com/w/cpp/io/basic_ostringstream.html" 1 "std" ],
    SearchEntry.mk "ostrstream_3033" "ostrstream"
      [ SearchTarget.mk "https://en.cppreference.com/w/cpp/io/ostrstream.html" 1 "std" ],
    SearchEntry.mk "out_5fof_5frange_3034" "out_of_range"
      [ SearchTarget.mk "https://en.cppreference.com/w/cpp/error/out_of_range.html" 1 "std" ],
    SearchEntry.mk "output_5fiterator_5ftag_3035" "output_iterator_tag"
      [ SearchTarget.mk "https://en.cppreference.com/w/cpp/iterator/iterator_tags.html" 1 "std" ],
    SearchEntry.mk "overflow_5ferror_3036" "overflow_error"
      [ SearchTarget.mk "https://en.cppreference.com/w/cpp/error/overflow_error.html" 1 "std" ],
    SearchEntry.mk "owner_5fless_3037" "owner_less"
      [ SearchTarget.mk "https://en.cppreference.com/w/cpp/memory/owner_less.html" 1 "std" ] ]

end v3_0_0.search.classes_e

namespace v3_0_0

/-- The array of `3.0.0/annotated_dup.js`. -/
def annotated_dup : List Nav :=
  [
    Nav.node "sacn" (some "namespacesacn.html")
      [
        Nav.node "detail" none
          [
            Nav.leaf "DmxMergerHandleType" (some "classsacn_1_1detail_1_1_dmx_merger_handle_type.html"),
            Nav.leaf "MergeReceiverHandleType" (some "classsacn_1_1detail_1_1_merge_receiver_handle_type.html"),
            Nav.leaf "ReceiverHandleType" (some "classsacn_1_1detail_1_1_receiver_handle_type.html"),
            Nav.leaf "SourceHandleType" (some "classsacn_1_1detail_1_1_source_handle_type.html") ],
        Nav.link "DmxMerger" (some "classsacn_1_1_dmx_merger.html") "classsacn_1_1_dmx_merger",
        Nav.link "MergeReceiver" (some "classsacn_1_1_merge_receiver.html") "classsacn_1_1_merge_receiver",
        Nav.link "Receiver" (some "classsacn_1_1_receiver.html") "classsacn_1_1_receiver",
        Nav.link "Source" (some "classsacn_1_1_source.html") "classsacn_1_1_source",
        Nav.link "SourceDetector" (some "classsacn_1_1_source_detector.html") "classsacn_1_1_source_detector" ],
    Nav.link "SacnDmxMergerConfig" (some "struct_sacn_dmx_merger_config.html") "struct_sacn_dmx_merger_config",
    Nav.link "SacnDmxMergerSource" (some "struct_sacn_dmx_merger_source.html") "struct_sacn_dmx_merger_source",
    Nav.link "SacnLostSource" (some "struct_sacn_lost_source.html") "struct_sacn_lost_source",
    Nav.link "SacnMcastInterface" (some "struct_sacn_mcast_interface.html") "struct_sacn_mcast_interface",
    Nav.link "SacnMergeReceiverCallbacks" (some "struct_sacn_merge_receiver_callbacks.html") "struct_sacn_merge_receiver_callbacks",
    Nav.link "SacnMergeReceiverConfig" (some "struct_sacn_merge_receiver_config.html") "struct_sacn_merge_receiver_config",
    Nav.link "SacnMergeReceiverNetintList" (some "struct_sacn_merge_receiver_netint_list.html") "struct_sacn_merge_receiver_netint_list",
    Nav.link "SacnMergeReceiverSource" (some "struct_sacn_merge_receiver_source.html") "struct_sacn_merge_receiver_source",
    Nav.link "SacnNetintConfig" (some "struct_sacn_netint_config.html") "struct_sacn_netint_config",
    Nav.link "SacnReceiverCallbacks" (some "struct_sacn_receiver_callbacks.html") "struct_sacn_receiver_callbacks",
    Nav.link "SacnReceiverConfig" (some "struct_sacn_receiver_config.html") "struct_sacn_receiver_config",
    Nav.link "SacnReceiverNetintList" (some "struct_sacn_receiver_netint_list.html") "struct_sacn_receiver_netint_list",
    Nav.link "SacnRecvMergedData" (some "struct_sacn_recv_merged_data.html") "struct_sacn_recv_merged_data",
    Nav.link "SacnRecvUniverseData" (some "struct_sacn_recv_universe_data.html") "struct_sacn_recv_universe_data",
    Nav.link "SacnRecvUniverseSubrange" (some "struct_sacn_recv_universe_subrange.html") "struct_sacn_recv_universe_subrange",
    Nav.link "SacnRemoteSource" (some "struct_sacn_remote_source.html") "struct_sacn_remote_source",
    Nav.link "SacnSourceConfig" (some "struct_sacn_source_config.html") "struct_sacn_source_config",
    Nav.link "SacnSourceDetectorCallbacks" (some "struct_sacn_source_detector_callbacks.html") "struct_sacn_source_detector_callbacks",
    Nav.link "SacnSourceDetectorConfig" (some "struct_sacn_source_detector_config.html") "struct_sacn_source_detector_config",
    Nav.link "SacnSourceUniverseConfig" (some "struct_sacn_source_universe_config.html") "struct_sacn_source_universe_config",
    Nav.link "SacnSourceUniverseNetintList" (some "struct_sacn_source_universe_netint_list.html") "struct_sacn_source_universe_netint_list" ]

end v3_0_0

namespace v3_0_0.search.functions_e

/-- The array of `3.0.0/search/functions_e.js`. -/
def searchData : List SearchEntry :=
  [
    SearchEntry.mk "n_4188" "n"
      [ SearchTarget.mk "https://en.cppreference.com/w/cpp/numeric/random/chi_squared_distribution/n.html" 1 "std::chi_squared_distribution::n()",
        SearchTarget.mk "https://en.cppreference.com/w/cpp/numeric/random/fisher_f_distribution/params.html" 1 "std::fisher_f_distribution::n()",
        SearchTarget.mk "https://en.cppreference.com/w/cpp/numeric/random/student_t_distribution/n.html" 1 "std::student_t_distribution::n()" ],
    SearchEntry.mk "name_4189" "name"
      [ SearchTarget.mk "https://etclabs.github.io/EtcPalDocs/head/classetcpal_1_1_thread.html#a33256784969e3347f423f72af1727cbd" 1 "etcpal::Thread::name() const noexcept",
        SearchTarget.mk "https://etclabs.github.io/EtcPalDocs/head/classetcpal_1_1_thread.html#a33256784969e3347f423f72af1727cbd" 1 "etcpal::Thread::name() const noexcept",
        SearchTarget.mk "https://en.cppreference.com/w/cpp/locale/locale/name.html" 1 "std::locale::name()",
        SearchTarget.mk "https://en.cppreference.com/w/cpp/error/error_category/name.html" 1 "std::error_category::name()",
        SearchTarget.mk "https://en.cppreference.com/w/cpp/types/type_info/name.html" 1 "std::type_info::name()",
        SearchTarget.mk "https://en.cppreference.com/w/cpp/types/type_index/name.html" 1 "std::type_index::name()" ],
    SearchEntry.mk "nan_4190" "nan"
      [ SearchTarget.mk "https://en.cppreference.com/w/cpp/numeric/math/nan.html" 1 "std" ],
    SearchEntry.mk "nanf_4191" "nanf"
      [ SearchTarget.mk "https://en.cppreference.com/w/cpp/numeric/math/nan.html" 1 "std" ],
    SearchEntry.mk "nanl_4192" "nanl"
      [ SearchTarget.mk "https://en.cppreference.com/w/cpp/numeric/math/nan.html" 1 "std" ],
    SearchEntry.mk "nanoseconds_4193" "nanoseconds"
      [ SearchTarget.mk "https://en.cppreference.com/w/cpp/chrono/duration/duration.html" 1 "std::chrono::nanoseconds" ],
    SearchEntry.mk "narrow_4194" "narrow"
      [ SearchTarget.mk "https://en.cppreference.com/w/cpp/io/basic_ios/narrow.html" 1 "std::wiostream::narrow()",
        SearchTarget.mk "https://en.cppreference.com/w/cpp/locale/ctype/narrow.html" 1 "std::ctype_byname::narrow()",
        SearchTarget.mk "https://en.cppreference.com/w/cpp/io/basic_ios/narrow.html" 1 "std::ofstream::narrow()",
        SearchTarget.mk "https://en.cppreference.com/w/cpp/io/basic_ios/narrow.html" 1 "std::basic_istringstream::narrow()",
        SearchTarget.mk "https://en.cppreference.com/w/cpp/io/basic_ios/narrow.html" 1 "std::basic_ifstream::narrow()",
        SearchTarget.mk "https://en.cppreference.com/w/cpp/io/basic_ios/narrow.html" 1 "std::istringstream::narrow()",
        SearchTarget.mk "https://en.cppreference.com/w/cpp/locale/ctype/narrow.html" 1 "std::ctype::narrow()",
        SearchTarget.mk "https://en.cppreference.com/w/cpp/io/basic_ios/narrow.html" 1 "std::istream::narrow()",
        SearchTarget.mk "https://en.cppreference.com/w/cpp/io/basic_ios/narrow.html" 1 "std::ostrstream::narrow()",
        SearchTarget.mk "https://en.cppreference.com/w/cpp/io/basic_ios/narrow.html" 1 "std::wfstream::narrow()",
        SearchTarget.mk "https://en.cppreference.com/w/cpp/io/basic_ios/narrow.html" 1 "std::basic_iostream::narrow()",
        SearchTarget.mk "https://en.cppreference.com/w/cpp/io/basic_ios/narrow.html" 1 "std::wofstream::narrow()",
        SearchTarget.mk "https://en.cppreference.com/w/cpp/io/basic_ios/narrow.html" 1 "std::wstringstream::narrow()",
        SearchTarget.mk "https://en.cppreference.com/w/cpp/io/basic_ios/narrow.html" 1 "std::wistringstream::narrow()",
        SearchTarget.mk "https://en.cppreference.com/w/cpp/io/basic_ios/narrow.html" 1 "std::ifstream::narrow()",
        SearchTarget.mk "https://en.cppreference.com/w/cpp/io/basic_ios/narrow.html" 1 "std::istrstream::narrow()",
        SearchTarget.mk "https://en.cppreference.com/w/cpp/io/basic_ios/narrow.html" 1 "std::wostream::narrow()",
        SearchTarget.mk "https://en.cppreference.com/w/cpp/io/basic_ios/narrow.html" 1 "std::fstream::narrow()",
        SearchTarget.mk "https://en.cppreference.com/w/cpp/io/basic_ios/narrow.html" 1 "std::basic_ofstream::narrow()",
        SearchTarget.mk "https://en.cppreference.com/w/cpp/io/basic_ios/narrow.html" 1 "std::basic_ostream::narrow()",
        SearchTarget.mk "https://en.cppreference.com/w/cpp/io/basic_ios/narrow.html" 1 "std::basic_ostringstream::narrow()",
        SearchTarget.mk "https://en.cppreference.com/w/cpp/io/basic_ios/narrow.html" 1 "std::basic_ios::narrow()",
        SearchTarget.mk "https://en.cppreference.com/w/cpp/io/basic_ios/narrow.html" 1 "std::ostringstream::narrow()",
        SearchTarget.mk "https://en.cppreference.com/w/cpp/io/basic_ios/narrow.html" 1 "std::basic_fstream::narrow()",
        SearchTarget.mk "https://en.cppreference.com/w/cpp/io/basic_ios/narrow.html" 1 "std::iostream::narrow()",
        SearchTarget.mk "https://en.cppreference.com/w/cpp/io/basic_ios/narrow.html" 1 "std::wistream::narrow()",
        SearchTarget.mk "https://en.cppreference.com/w/cpp/io/basic_ios/narrow.html" 1 "std::stringstream::narrow()",
        SearchTarget.mk "https://en.cppreference.com/w/cpp/io/basic_ios/narrow.html" 1 "std::ostream::narrow()",
        SearchTarget.mk "https://en.cppreference.com/w/cpp/io/basic_ios/narrow.html" 1 "std::wifstream::narrow()",
        SearchTarget.mk "https://en.cppreference.com/w/cpp/io/basic_ios/narrow.html" 1 "std::basic_istream::narrow()",
        SearchTarget.mk "https://en.cppreference.com/w/cpp/io/basic_ios/narrow.html" 1 "std::strstream::narrow()",
        SearchTarget.mk "https://en.cppreference.com/w/cpp/io/basic_ios/narrow.html" 1 "std::basic_stringstream::narrow()",
        SearchTarget.mk "https://en.cppreference.com/w/cpp/io/basic_ios/narrow.html" 1 "std::wostringstream::narrow()" ],
    SearchEntry.mk "native_5fhandle_4195" "native_handle"
      [ SearchTarget.mk "https://en.cppreference.com/w/cpp/thread/condition_variable_any/native_handle.html" 1 "std::condition_variable_any::native_handle()",
        SearchTarget.mk "https://en.cppreference.com/w/cpp/thread/mutex/native_handle.html" 1 "std::mutex::native_handle()",
        SearchTarget.mk "https://en.cppreference.com/w/cpp/thread/timed_mutex/native_handle.html" 1 "std::timed_mutex::native_handle()",
        SearchTarget.mk "https://en.cppreference.com/w/cpp/thread/thread/native_handle.html" 1 "std::thread::native_handle()",
        SearchTarget.mk "https://en.cppreference.com/w/cpp/thread/recursive_timed_mutex/native_handle.html" 1 "std::recursive_timed_mutex::native_handle()",
        SearchTarget.mk "https://en.cppreference.com/w/cpp/thread/recursive_mutex/native_handle.html" 1 "std::recursive_mutex::native_handle()",
        SearchTarget.mk "https://en.cppreference.com/w/cpp/thread/condition_variable/native_handle.html" 1 "std::condition_variable::native_handle()" ],
    SearchEntry.mk "nearbyint_4196" "nearbyint"
      [ SearchTarget.mk "https://en.cppreference.com/w/cpp/numeric/math/nearbyint.html" 1 "std" ],
    SearchEntry.mk "neg_5fformat_4197" "neg_format"
      [ SearchTarget.mk "https://en.cppreference.com/w/cpp/locale/moneypunct/pos_format.html" 1 "std::moneypunct_byname::neg_format()",
        SearchTarget.mk "https://en.cppreference.com/w/cpp/locale/moneypunct/pos_format.html" 1 "std::moneypunct::neg_format()" ],
    SearchEntry.mk "negative_5fbinomial_5fdistribution_4198" "negative_binomial_distribution"
      [ SearchTarget.mk "https://en.cppreference.com/w/cpp/numeric/random/negative_binomial_distribution/negative_binomial_distribution.html" 1 "std::negative_binomial_distribution" ],
    SearchEntry.mk "negative_5fsign_4199" "negative_sign"
      [ SearchTarget.mk "https://en.cppreference.com/w/cpp/locale/moneypunct/positive_sign.html" 1 "std::moneypunct_byname::negative_sign()",
        SearchTarget.mk "https://en.cppreference.com/w/cpp/locale/moneypunct/positive_sign.html" 1 "std::moneypunct::negative_sign()" ],
    SearchEntry.mk "nested_5fexception_4200" "nested_exception"
      [ SearchTarget.mk "https://en.cppreference.com/w/cpp/error/nested_exception/nested_exception.html" 1 "std::nested_exception" ],
    SearchEntry.mk "nested_5fptr_4201" "nested_ptr"
      [ SearchTarget.mk "https://en.cppreference.com/w/cpp/error/nested_exception/nested_ptr.html" 1 "std::nested_exception" ],
    SearchEntry.mk "netintinfo_4202" "NetintInfo"
      [ SearchTarget.mk "https://etclabs.github.io/EtcPalDocs/head/classetcpal_1_1_netint_info.html#afb73d33ad056cc53ae1b01032ebc05c3" 1 "etcpal::NetintInfo" ],
    SearchEntry.mk "netintlist_4203" "NetintList"
      [ SearchTarget.mk "../structsacn_1_1_merge_receiver_1_1_netint_list.html#a8d90a29c2e9f8926b9b3ff64458392d2" 1 "sacn::MergeReceiver::NetintList::NetintList(sacn_merge_receiver_t merge_receiver_handle, McastMode mcast_mode)",
        SearchTarget.mk "../structsacn_1_1_merge_receiver_1_1_netint_list.html#aab5d1e8b9c2879521f59b7a50388e1a3" 1 "sacn::MergeReceiver::NetintList::NetintList()=default",
        SearchTarget.mk "../structsacn_1_1_merge_receiver_1_1_netint_list.html#a7f4b990c2355dccdf25025a56358b6fd" 1 "sacn::MergeReceiver::NetintList::NetintList(sacn_merge_receiver_t merge_receiver_handle, const std::vector&lt; SacnMcastInterface &gt; &amp;network_interfaces)",
        SearchTarget.mk "../structsacn_1_1_receiver_1_1_netint_list.html#aab5d1e8b9c2879521f59b7a50388e1a3" 1 "sacn::Receiver::NetintList::NetintList()=default",
        SearchTarget.mk "../structsacn_1_1_receiver_1_1_netint_list.html#ac0e52c9547dd642b53ff3f32d79856ec" 1 "sacn::Receiver::NetintList::NetintList(sacn_receiver_t receiver_handle, McastMode mcast_mode)",
        SearchTarget.mk "../structsacn_1_1_receiver_1_1_netint_list.html#a055503469cbefb1d3f658e9c8b55a5ba" 1 "sacn::Receiver::NetintList::NetintList(sacn_receiver_t receiver_handle, const std::vector&lt; SacnMcastInterface &gt; &amp;network_interfaces)" ],
    SearchEntry.mk "netmask_4204" "Netmask"
      [ SearchTarget.mk "https://etclabs.github.io/EtcPalDocs/head/classetcpal_1_1_ip_addr.html#a517378a65c041aa6ee09fc02765a5a97" 1 "etcpal::IpAddr" ],
    SearchEntry.mk "netmaskv4_4205" "NetmaskV4"
      [ SearchTarget.mk "https://etclabs.github.io/EtcPalDocs/head/classetcpal_1_1_ip_addr.html#a0dc66641cafbf7a9f76d26c494bfe189" 1 "etcpal::IpAddr" ],
    SearchEntry.mk "netmaskv6_4206" "NetmaskV6"
      [ SearchTarget.mk "https://etclabs.github.io/EtcPalDocs/head/classetcpal_1_1_ip_addr.html#a69e83da0c99b42fe1be96dede839304d" 1 "etcpal::IpAddr" ],
    SearchEntry.mk "next_4207" "next"
      [ SearchTarget.mk "https://en.cppreference.com/w/cpp/iterator/next.html" 1 "std" ],
    SearchEntry.mk "next_5fpermutation_4208" "next_permutation"
      [ SearchTarget.mk "https://en.cppreference.com/w/cpp/algorithm/next_permutation.html" 1 "std" ],
    SearchEntry.mk "nextafter_4209" "nextafter"
      [ SearchTarget.mk "https://en.cppreference.com/w/cpp/numeric/math/nextafter.html" 1 "std" ],
    SearchEntry.mk "nexttoward_4210" "nexttoward"
      [ SearchTarget.mk "https://en.cppreference.com/w/cpp/numeric/math/nextafter.html" 1 "std" ],
    SearchEntry.mk "noboolalpha_4211" "noboolalpha"
      [ SearchTarget.mk "https://en.cppreference.com/w/cpp/io/manip/boolalpha.html" 1 "std" ],
    SearchEntry.mk "none_4212" "none"
      [ SearchTarget.mk "https://en.cppreference.com/w/cpp/utility/bitset/all_any_none.html" 1 "std::bitset" ],
    SearchEntry.mk "none_5fof_4213" "none_of"
      [ SearchTarget.mk "https://en.cppreference.com/w/cpp/algorithm/all_any_none_of.html" 1 "std" ],
    SearchEntry.mk "normal_5fdistribution_4214" "normal_distribution"
      [ SearchTarget.mk "https://en.cppreference.com/w/cpp/numeric/random/normal_distribution/normal_distribution.html" 1 "std::normal_distribution" ],
    SearchEntry.mk "noshowbase_4215" "noshowbase"
      [ SearchTarget.mk "https://en.cppreference.com/w/cpp/io/manip/showbase.html" 1 "std" ],
    SearchEntry.mk "noshowpoint_4216" "noshowpoint"
      [ SearchTarget.mk "https://en.cppreference.com/w/cpp/io/manip/showpoint.html" 1 "std" ],
    SearchEntry.mk "noshowpos_4217" "noshowpos"
      [ SearchTarget.mk "https://en.cppreference.com/w/cpp/io/manip/showpos.html" 1 "std" ],
    SearchEntry.mk "noskipws_4218" "noskipws"
      [ SearchTarget.mk "https://en.cppreference.com/w/cpp/io/manip/skipws.html" 1 "std" ],
    SearchEntry.mk "not1_4219" "not1"
      [ SearchTarget.mk "https://en.cppreference.com/w/cpp/utility/functional/not1.html" 1 "std" ],
    SearchEntry.mk "not2_4220" "not2"
      [ SearchTarget.mk "https://en.cppreference.com/w/cpp/utility/functional/not2.html" 1 "std" ],
    SearchEntry.mk "not_5feof_4221" "not_eof"
      [ SearchTarget.mk "https://en.cppreference.com/w/cpp/string/char_traits/not_eof.html" 1 "std::char_traits" ],
    SearchEntry.mk "notice_4222" "Notice"
      [ SearchTarget.mk "https://etclabs.github.io/EtcPalDocs/head/classetcpal_1_1_logger.html#af0b5bc31187a46a0e5913c493677ba5d" 1 "etcpal::Logger::Notice(const char *format,...)",
        SearchTarget.mk "https://etclabs.github.io/EtcPalDocs/head/classetcpal_1_1_logger.html#af0b5bc31187a46a0e5913c493677ba5d" 1 "etcpal::Logger::Notice(const char *format,...)" ],
    SearchEntry.mk "notify_4223" "Notify"
      [ SearchTarget.mk "https://etclabs.github.io/EtcPalDocs/head/classetcpal_1_1_signal.html#a6b945888ffd146338605d77f0366141b" 1 "etcpal::Signal" ],
    SearchEntry.mk "notify_5fall_4224" "notify_all"
      [ SearchTarget.mk "https://en.cppreference.com/w/cpp/thread/condition_variable_any/notify_all.html" 1 "std::condition_variable_any::notify_all()",
        SearchTarget.mk "https://en.cppreference.com/w/cpp/thread/condition_variable/notify_all.html" 1 "std::condition_variable::notify_all()" ],
    SearchEntry.mk "notify_5fall_5fat_5fthread_5fexit_4225" "notify_all_at_thread_exit"
      [ SearchTarget.mk "https://en.cppreference.com/w/cpp/thread/notify_all_at_thread_exit.html" 1 "std" ],
    SearchEntry.mk "notify_5fone_4226" "notify_one"
      [ SearchTarget.mk "https://en.cppreference.com/w/cpp/thread/condition_variable/notify_one.html" 1 "std::condition_variable::notify_one()",
        SearchTarget.mk "https://en.cppreference.com/w/cpp/thread/condition_variable_any/notify_one.html" 1 "std::condition_variable_any::notify_one()" ],
    SearchEntry.mk "notifyfromisr_4227" "NotifyFromIsr"
      [ SearchTarget.mk "https://etclabs.github.io/EtcPalDocs/head/classetcpal_1_1_signal.html#ad8b69b07e8a31350db1cd221db678cb3" 1 "etcpal::Signal" ],
    SearchEntry.mk "nounitbuf_4228" "nounitbuf"
      [ SearchTarget.mk "https://en.cppreference.com/w/cpp/io/manip/unitbuf.html" 1 "std" ],
    SearchEntry.mk "nouppercase_4229" "nouppercase"
      [ SearchTarget.mk "https://en.cppreference.com/w/cpp/io/manip/uppercase.html" 1 "std" ],
    SearchEntry.mk "now_4230" "now"
      [ SearchTarget.mk "https://en.cppreference.com/w/cpp/chrono/steady_clock/now.html" 1 "std::chrono::steady_clock::now()",
        SearchTarget.mk "https://en.cppreference.com/w/cpp/chrono/system_clock/now.html" 1 "std::chrono::system_clock::now()",
        SearchTarget.mk "https://en.cppreference.com/w/cpp/chrono/high_resolution_clock/now.html" 1 "std::chrono::high_resolution_clock::now()" ],
    SearchEntry.mk "now_4231" "Now"
      [ SearchTarget.mk "https://etclabs.github.io/EtcPalDocs/head/classetcpal_1_1_time_point.html#ac59e08d917c73620c51f17923428da50" 1 "etcpal::TimePoint" ],
    SearchEntry.mk "nth_5felement_4232" "nth_element"
      [ SearchTarget.mk "https://en.cppreference.com/w/cpp/algorithm/nth_element.html" 1 "std" ],
    SearchEntry.mk "num_5fget_4233" "num_get"
      [ SearchTarget.mk "https://en.cppreference.com/w/cpp/locale/num_get/num_get.html" 1 "std::num_get" ],
    SearchEntry.mk "num_5fput_4234" "num_put"
      [ SearchTarget.mk "https://en.cppreference.com/w/cpp/locale/num_put/num_put.html" 1 "std::num_put" ],
    SearchEntry.mk "numpunct_4235" "numpunct"
      [ SearchTarget.mk "https://en.cppreference.com/w/cpp/locale/numpunct/numpunct.html" 1 "std::numpunct" ],
    SearchEntry.mk "numpunct_5fbyname_4236" "numpunct_byname"
      [ SearchTarget.mk "https://en.cppreference.com/w/cpp/locale/numpunct_byname.html" 1 "std::numpunct_byname" ] ]

end v3_0_0.search.functions_e

namespace head.search.all_6

/-- The array of `head/search/all_6.js`. -/
def searchData : List SearchEntry :=
  [
    SearchEntry.mk "fabs_850" "fabs"
      [ SearchTarget.mk "https://en.cppreference.com/w/cpp/numeric/math/fabs.html" 1 "std" ],
    SearchEntry.mk "facet_851" "facet"
      [ SearchTarget.mk "https://en.cppreference.com/w/cpp/locale/locale/facet/facet.html" 1 "std::locale::facet::facet()",
        SearchTarget.mk "https://en.cppreference.com/w/cpp/locale/locale/facet.html" 1 "locale::facet" ],
    SearchEntry.mk "facility_852" "facility"
      [ SearchTarget.mk "https://etclabs.github.io/EtcPalDocs/head/struct_etc_pal_syslog_params.html#a213afa2e73e0c2102f43d4067e41b90f" 1 "EtcPalSyslogParams" ],
    SearchEntry.mk "fail_853" "fail"
      [ SearchTarget.mk "https://en.cppreference.com/w/cpp/io/basic_ios/fail.html" 1 "std::basic_ofstream::fail()",
        SearchTarget.mk "https://en.cppreference.com/w/cpp/io/basic_ios/fail.html" 1 "std::wistringstream::fail()",
        SearchTarget.mk "https://en.cppreference.com/w/cpp/io/basic_ios/fail.html" 1 "std::wiostream::fail()",
        SearchTarget.mk "https://en.cppreference.com/w/cpp/io/basic_ios/fail.html" 1 "std::ofstream::fail()",
        SearchTarget.mk "https://en.cppreference.com/w/cpp/io/basic_ios/fail.html" 1 "std::basic_istringstream::fail()",
        SearchTarget.mk "https://en.cppreference.com/w/cpp/io/basic_ios/fail.html" 1 "std::basic_ifstream::fail()",
        SearchTarget.mk "https://en.cppreference.com/w/cpp/io/basic_ios/fail.html" 1 "std::istringstream::fail()",
        SearchTarget.mk "https://en.cppreference.com/w/cpp/io/basic_ios/fail.html" 1 "std::istream::fail()",
        SearchTarget.mk "https://en.cppreference.com/w/cpp/io/basic_ios/fail.html" 1 "std::ostrstream::fail()",
        SearchTarget.mk "https://en.cppreference.com/w/cpp/io/basic_ios/fail.html" 1 "std::wfstream::fail()",
        SearchTarget.mk "https://en.cppreference.com/w/cpp/io/basic_ios/fail.html" 1 "std::basic_iostream::fail()",
        SearchTarget.mk "https://en.cppreference.com/w/cpp/io/basic_ios/fail.html" 1 "std::wofstream::fail()",
        SearchTarget.mk "https://en.cppreference.com/w/cpp/io/basic_ios/fail.html" 1 "std::wstringstream::fail()",
        SearchTarget.mk "https://en.cppreference.com/w/cpp/io/basic_ios/fail.html" 1 "std::basic_ostream::fail()",
        SearchTarget.mk "https://en.cppreference.com/w/cpp/io/basic_ios/fail.html" 1 "std::fstream::fail()",
        SearchTarget.mk "https://en.cppreference.com/w/cpp/io/basic_ios/fail.html" 1 "std::wostream::fail()",
        SearchTarget.mk "https://en.cppreference.com/w/cpp/io/basic_ios/fail.html" 1 "std::basic_ostringstream::fail()",
        SearchTarget.mk "https://en.cppreference.com/w/cpp/io/basic_ios/fail.html" 1 "std::basic_ios::fail()",
        SearchTarget.mk "https://en.cppreference.com/w/cpp/io/basic_ios/fail.html" 1 "std::ostringstream::fail()",
        SearchTarget.mk "https://en.cppreference.com/w/cpp/io/basic_ios/fail.html" 1 "std::basic_fstream::fail()",
        SearchTarget.mk "https://en.cppreference.com/w/cpp/io/basic_ios/fail.html" 1 "std::iostream::fail()",
        SearchTarget.mk "https://en.cppreference.com/w/cpp/io/basic_ios/fail.html" 1 "std::wistream::fail()",
        SearchTarget.mk "https://en.cppreference.com/w/cpp/io/basic_ios/fail.html" 1 "std::stringstream::fail()",
        SearchTarget.mk "https://en.cppreference.com/w/cpp/io/basic_ios/fail.html" 1 "std::ostream::fail()",
        SearchTarget.mk "https://en.cppreference.com/w/cpp/io/basic_ios/fail.html" 1 "std::wifstream::fail()",
        SearchTarget.mk "https://en.cppreference.com/w/cpp/io/basic_ios/fail.html" 1 "std::basic_istream::fail()",
        SearchTarget.mk "https://en.cppreference.com/w/cpp/io/basic_ios/fail.html" 1 "std::strstream::fail()",
        SearchTarget.mk "https://en.cppreference.com/w/cpp/io/basic_ios/fail.html" 1 "std::basic_stringstream::fail()",
        SearchTarget.mk "https://en.cppreference.com/w/cpp/io/basic_ios/fail.html" 1 "std::wostringstream::fail()",
        SearchTarget.mk "https://en.cppreference.com/w/cpp/io/basic_ios/fail.html" 1 "std::istrstream::fail()",
        SearchTarget.mk "https://en.cppreference.com/w/cpp/io/basic_ios/fail.html" 1 "std::ifstream::fail()" ],
    SearchEntry.mk "failure_854" "failure"
      [ SearchTarget.mk "https://en.cppreference.com/w/cpp/io/ios_base/failure.html" 1 "std::ostrstream::failure::failure()",
        SearchTarget.mk "https://en.cppreference.com/w/cpp/io/ios_base/failure.html" 1 "std::basic_ostream::failure::failure()",
        SearchTarget.mk "https://en.cppreference.com/w/cpp/io/ios_base/failure.html" 1 "std::wiostream::failure::failure()",
        SearchTarget.mk "https://en.cppreference.com/w/cpp/io/ios_base/failure.html" 1 "std::ofstream::failure::failure()",
        SearchTarget.mk "https://en.cppreference.com/w/cpp/io/ios_base/failure.html" 1 "std::basic_istringstream::failure::failure()",
        SearchTarget.mk "https://en.cppreference.com/w/cpp/io/ios_base/failure.html" 1 "std::basic_ifstream::failure::failure()",
        SearchTarget.mk "https://en.cppreference.com/w/cpp/io/ios_base/failure.html" 1 "std::istringstream::failure::failure()",
        SearchTarget.mk "https://en.cppreference.com/w/cpp/io/ios_base/failure.html" 1 "std::istream::failure::failure()",
        SearchTarget.mk "https://en.cppreference.com/w/cpp/io/ios_base/failure.html" 1 "std::wostringstream::failure::failure()",
        SearchTarget.mk "https://en.cppreference.com/w/cpp/io/ios_base/failure.html" 1 "std::wfstream::failure::failure()",
        SearchTarget.mk "https://en.cppreference.com/w/cpp/io/ios_base/failure.html" 1 "std::basic_iostream::failure::failure()",
        SearchTarget.mk "https://en.cppreference.com/w/cpp/io/ios_base/failure.html" 1 "std::wofstream::failure::failure()",
        SearchTarget.mk "https://en.cppreference.com/w/cpp/io/ios_base/failure.html" 1 "std::wstringstream::failure::failure()",
        SearchTarget.mk "https://en.cppreference.com/w/cpp/io/ios_base/failure.html" 1 "std::wistringstream::failure::failure()",
        SearchTarget.mk "https://en.cppreference.com/w/cpp/io/ios_base/failure.html" 1 "std::ifstream::failure::failure()",
        SearchTarget.mk "https://en.cppreference.com/w/cpp/io/ios_base/failure.html" 1 "std::basic_stringstream::failure::failure()",
        SearchTarget.mk "https://en.cppreference.com/w/cpp/io/ios_base/failure.html" 1 "std::istrstream::failure::failure()",
        SearchTarget.mk "https://en.cppreference.com/w/cpp/io/ios_base/failure.html" 1 "std::strstream::failure::failure()",
        SearchTarget.mk "https://en.cppreference.com/w/cpp/io/ios_base/failure.html" 1 "std::basic_istream::failure::failure()",
        SearchTarget.mk "https://en.cppreference.com/w/cpp/io/ios_base/failure.html" 1 "std::wifstream::failure::failure()",
        SearchTarget.mk "https://en.cppreference.com/w/cpp/io/ios_base/failure.html" 1 "std::ostream::failure::failure()",
        SearchTarget.mk "https://en.cppreference.com/w/cpp/io/ios_base/failure.html" 1 "std::stringstream::failure::failure()",
        SearchTarget.mk "https://en.cppreference.com/w/cpp/io/ios_base/failure.html" 1 "std::wistream::failure::failure()",
        SearchTarget.mk "https://en.cppreference.com/w/cpp/io/ios_base/failure.html" 1 "std::ios_base::failure::failure()",
        SearchTarget.mk "https://en.cppreference.com/w/cpp/io/ios_base/failure.html" 1 "std::iostream::failure::failure()",
        SearchTarget.mk "https://en.cppreference.com/w/cpp/io/ios_base/failure.html" 1 "std::basic_fstream::failure::failure()",
        SearchTarget.mk "https://en.cppreference.com/w/cpp/io/ios_base/failure.html" 1 "std::ostringstream::failure::failure()",
        SearchTarget.mk "https://en.cppreference.com/w/cpp/io/ios_base/failure.html" 1 "std::basic_ios::failure::failure()",
        SearchTarget.mk "https://en.cppreference.com/w/cpp/io/ios_base/failure.html" 1 "std::basic_ostringstream::failure::failure()",
        SearchTarget.mk "https://en.cppreference.com/w/cpp/io/ios_base/failure.html" 1 "std::wostream::failure::failure()",
        SearchTarget.mk "https://en.cppreference.com/w/cpp/io/ios_base/failure.html" 1 "std::fstream::failure::failure()",
        SearchTarget.mk "https://en.cppreference.com/w/cpp/io/ios_base/failure.html" 1 "std::basic_ofstream::failure::failure()",
        SearchTarget.mk "https://en.cppreference.com/w/cpp/io/ios_base/failure.html" 1 "basic_fstream::failure",
        SearchTarget.mk "https://en.cppreference.com/w/cpp/io/ios_base/failure.html" 1 "basic_ifstream::failure",
        SearchTarget.mk "https://en.cppreference.com/w/cpp/io/ios_base/failure.html" 1 "basic_ios::failure",
        SearchTarget.mk "https://en.cppreference.com/w/cpp/io/ios_base/failure.html" 1 "basic_iostream::failure",
        SearchTarget.mk "https://en.cppreference.com/w/cpp/io/ios_base/failure.html" 1 "basic_istream::failure",
        SearchTarget.mk "https://en.cppreference.com/w/cpp/io/ios_base/failure.html" 1 "basic_istringstream::failure",
        SearchTarget.mk "https://en.cppreference.com/w/cpp/io/ios_base/failure.html" 1 "basic_ofstream::failure",
        SearchTarget.mk "https://en.cppreference.com/w/cpp/io/ios_base/failure.html" 1 "basic_ostream::failure",
        SearchTarget.mk "https://en.cppreference.com/w/cpp/io/ios_base/failure.html" 1 "basic_ostringstream::failure",
        SearchTarget.mk "https://en.cppreference.com/w/cpp/io/ios_base/failure.html" 1 "basic_stringstream::failure",
        SearchTarget.mk "https://en.cppreference.com/w/cpp/io/ios_base/failure.html" 1 "fstream::failure",
        SearchTarget.mk "https://en.cppreference.com/w/cpp/io/ios_base/failure.html" 1 "ifstream::failure",
        SearchTarget.mk "https://en.cppreference.com/w/cpp/io/ios_base/failure.html" 1 "ios_base::failure",
        SearchTarget.mk "https://en.cppreference.com/w/cpp/io/ios_base/failure.html" 1 "iostream::failure",
        SearchTarget.mk "https://en.cppreference.com/w/cpp/io/ios_base/failure.html" 1 "istream::failure",
        SearchTarget.mk "https://en.cppreference.com/w/cpp/io/ios_base/failure.html" 1 "istringstream::failure",
        SearchTarget.mk "https://en.cppreference.com/w/cpp/io/ios_base/failure.html" 1 "istrstream::failure",
        SearchTarget.mk "https://en.cppreference.com/w/cpp/io/ios_base/failure.html" 1 "ofstream::failure",
        SearchTarget.mk "https://en.cppreference.com/w/cpp/io/ios_base/failure.html" 1 "ostream::failure",
        SearchTarget.mk "https://en.cppreference.com/w/cpp/io/ios_base/failure.html" 1 "ostringstream::failure",
        SearchTarget.mk "https://en.cppreference.com/w/cpp/io/ios_base/failure.html" 1 "ostrstream::failure",
        SearchTarget.mk "https://en.cppreference.com/w/cpp/io/ios_base/failure.html" 1 "stringstream::failure",
        SearchTarget.mk "https://en.cppreference.com/w/cpp/io/ios_base/failure.html" 1 "strstream::failure",
        SearchTarget.mk "https://en.cppreference.com/w/cpp/io/ios_base/failure.html" 1 "wfstream::failure",
        SearchTarget.mk "https://en.cppreference.com/w/cpp/io/ios_base/failure.html" 1 "wifstream::failure",
        SearchTarget.mk "https://en.cppreference.com/w/cpp/io/ios_base/failure.html" 1 "wiostream::failure",
        SearchTarget.mk "https://en.cppreference.com/w/cpp/io/ios_base/failure.html" 1 "wistream::failure",
        SearchTarget.mk "https://en.cppreference.com/w/cpp/io/ios_base/failure.html" 1 "wistringstream::failure",
        SearchTarget.mk "https://en.cppreference.com/w/cpp/io/ios_base/failure.html" 1 "wofstream::failure",
        SearchTarget.mk "https://en.cppreference.com/w/cpp/io/ios_base/failure.html" 1 "wostream::failure",
        SearchTarget.mk "https://en.cppreference.com/w/cpp/io/ios_base/failure.html" 1 "wostringstream::failure",
        SearchTarget.mk "https://en.cppreference.com/w/cpp/io/ios_base/failure.html" 1 "wstringstream::failure" ],
    SearchEntry.mk "false_5ftype_855" "false_type"
      [ SearchTarget.mk "https://en.cppreference.com/w/cpp/types/integral_constant.html" 1 "std" ],
    SearchEntry.mk "falsename_856" "falsename"
      [ SearchTarget.mk "https://en.cppreference.com/w/cpp/locale/numpunct/truefalsename.html" 1 "std::numpunct::falsename()",
        SearchTarget.mk "https://en.cppreference.com/w/cpp/locale/numpunct/truefalsename.html" 1 "std::numpunct_byname::falsename()" ],
    SearchEntry.mk "fclose_857" "fclose"
      [ SearchTarget.mk "https://en.cppreference.com/w/cpp/io/c/fclose.html" 1 "std" ],
    SearchEntry.mk "fdim_858" "fdim"
      [ SearchTarget.mk "https://en.cppreference.com/w/cpp/numeric/math/fdim.html" 1 "std" ],
    SearchEntry.mk "feclearexcept_859" "feclearexcept"
      [ SearchTarget.mk "https://en.cppreference.com/w/cpp/numeric/fenv/feclearexcept.html" 1 "std" ],
    SearchEntry.mk "fegetenv_860" "fegetenv"
      [ SearchTarget.mk "https://en.cppreference.com/w/cpp/numeric/fenv/feenv.html" 1 "std" ],
    SearchEntry.mk "fegetexceptflag_861" "fegetexceptflag"
      [ SearchTarget.mk "https://en.cppreference.com/w/cpp/numeric/fenv/feexceptflag.html" 1 "std" ],
    SearchEntry.mk "fegetround_862" "fegetround"
      [ SearchTarget.mk "https://en.cppreference.com/w/cpp/numeric/fenv/feround.html" 1 "std" ],
    SearchEntry.mk "feholdexcept_863" "feholdexcept"
      [ SearchTarget.mk "https://en.cppreference.com/w/cpp/numeric/fenv/feholdexcept.html" 1 "std" ],
    SearchEntry.mk "femto_864" "femto"
      [ SearchTarget.mk "https://en.cppreference.com/w/cpp/numeric/ratio/ratio.html" 1 "std" ],
    SearchEntry.mk "feof_865" "feof"
      [ SearchTarget.mk "https://en.cppreference.com/w/cpp/io/c/feof.html" 1 "std" ],
    SearchEntry.mk "feraiseexcept_866" "feraiseexcept"
      [ SearchTarget.mk "https://en.cppreference.com/w/cpp/numeric/fenv/feraiseexcept.html" 1 "std" ],
    SearchEntry.mk "ferror_867" "ferror"
      [ SearchTarget.mk "https://en.cppreference.com/w/cpp/io/c/ferror.html" 1 "std" ],
    SearchEntry.mk "fesetenv_868" "fesetenv"
      [ SearchTarget.mk "https://en.cppreference.com/w/cpp/numeric/fenv/feenv.html" 1 "std" ],
    SearchEntry.mk "fesetexceptflag_869" "fesetexceptflag"
      [ SearchTarget.mk "https://en.cppreference.com/w/cpp/numeric/fenv/feexceptflag.html" 1 "std" ],
    SearchEntry.mk "fesetround_870" "fesetround"
      [ SearchTarget.mk "https://en.cppreference.com/w/cpp/numeric/fenv/feround.html" 1 "std" ],
    SearchEntry.mk "fetch_5fadd_871" "fetch_add"
      [ SearchTarget.mk "https://en.cppreference.com/w/cpp/atomic/atomic/fetch_add.html" 1 "std::atomic" ],
    SearchEntry.mk "fetch_5fand_872" "fetch_and"
      [ SearchTarget.mk "https://en.cppreference.com/w/cpp/atomic/atomic/fetch_and.html" 1 "std::atomic" ],
    SearchEntry.mk "fetch_5for_873" "fetch_or"
      [ SearchTarget.mk "https://en.cppreference.com/w/cpp/atomic/atomic/fetch_or.html" 1 "std::atomic" ],
    SearchEntry.mk "fetch_5fsub_874" "fetch_sub"
      [ SearchTarget.mk "https://en.cppreference.com/w/cpp/atomic/atomic/fetch_sub.html" 1 "std::atomic" ],
    SearchEntry.mk "fetch_5fxor_875" "fetch_xor"
      [ SearchTarget.mk "https://en.cppreference.com/w/cpp/atomic/atomic/fetch_xor.html" 1 "std::atomic" ],
    SearchEntry.mk "fetestexcept_876" "fetestexcept"
      [ SearchTarget.mk "https://en.cppreference.com/w/cpp/numeric/fenv/fetestexcept.html" 1 "std" ],
    SearchEntry.mk "feupdateenv_877" "feupdateenv"
      [ SearchTarget.mk "https://en.cppreference.com/w/cpp/numeric/fenv/feupdateenv.html" 1 "std" ],
    SearchEntry.mk "fflush_878" "fflush"
      [ SearchTarget.mk "https://en.cppreference.com/w/cpp/io/c/fflush.html" 1 "std" ],
    SearchEntry.mk "fgetc_879" "fgetc"
      [ SearchTarget.mk "https://en.cppreference.com/w/cpp/io/c/fgetc.html" 1 "std" ],
    SearchEntry.mk "fgetpos_880" "fgetpos"
      [ SearchTarget.mk "https://en.cppreference.com/w/cpp/io/c/fgetpos.html" 1 "std" ],
    SearchEntry.mk "fgets_881" "fgets"
      [ SearchTarget.mk "https://en.cppreference.com/w/cpp/io/c/fgets.html" 1 "std" ],
    SearchEntry.mk "fgetwc_882" "fgetwc"
      [ SearchTarget.mk "https://en.cppreference.com/w/cpp/io/c/fgetwc.html" 1 "std" ],
    SearchEntry.mk "fgetws_883" "fgetws"
      [ SearchTarget.mk "https://en.cppreference.com/w/cpp/io/c/fgetws.html" 1 "std" ],
    SearchEntry.mk "file_884" "FILE"
      [ SearchTarget.mk "https://en.cppreference.com/w/cpp/io/c.html" 1 "std" ],
    SearchEntry.mk "filebuf_885" "filebuf"
      [ SearchTarget.mk "https://en.cppreference.com/w/cpp/io/basic_filebuf/basic_filebuf.html" 1 "std::filebuf::filebuf()",
        SearchTarget.mk "https://en.cppreference.com/w/cpp/io/basic_filebuf.html" 1 "filebuf" ],
    SearchEntry.mk "fill_886" "fill"
      [ SearchTarget.mk "https://en.cppreference.com/w/cpp/io/basic_ios/fill.html" 1 "std::basic_iostream::fill()",
        SearchTarget.mk "https://en.cppreference.com/w/cpp/io/basic_ios/fill.html" 1 "std::basic_fstream::fill()",
        SearchTarget.mk "https://en.cppreference.com/w/cpp/io/basic_ios/fill.html" 1 "std::wofstream::fill()",
        SearchTarget.mk "https://en.cppreference.com/w/cpp/io/basic_ios/fill.html" 1 "std::wstringstream::fill()",
        SearchTarget.mk "https://en.cppreference.com/w/cpp/io/basic_ios/fill.html" 1 "std::wistringstream::fill()",
        SearchTarget.mk "https://en.cppreference.com/w/cpp/io/basic_ios/fill.html" 1 "std::ifstream::fill()",
        SearchTarget.mk "https://en.cppreference.com/w/cpp/container/array/fill.html" 1 "std::array::fill()",
        SearchTarget.mk "https://en.cppreference.com/w/cpp/io/basic_ios/fill.html" 1 "std::basic_ios::fill()",
        SearchTarget.mk "https://en.cppreference.com/w/cpp/io/basic_ios/fill.html" 1 "std::basic_ostringstream::fill()",
        SearchTarget.mk "https://en.cppreference.com/w/cpp/io/basic_ios/fill.html" 1 "std::wostream::fill()",
        SearchTarget.mk "https://en.cppreference.com/w/cpp/container/dynarray/fill.html" 1 "std::dynarray::fill()",
        SearchTarget.mk "https://en.cppreference.com/w/cpp/io/basic_ios/fill.html" 1 "std::fstream::fill()",
        SearchTarget.mk "https://en.cppreference.com/w/cpp/io/basic_ios/fill.html" 1 "std::basic_ofstream::fill()",
        SearchTarget.mk "https://en.cppreference.com/w/cpp/algorithm/fill.html" 1 "std::fill()",
        SearchTarget.mk "https://en.cppreference.com/w/cpp/io/basic_ios/fill.html" 1 "std::ostrstream::fill()",
        SearchTarget.mk "https://en.cppreference.com/w/cpp/io/basic_ios/fill.html" 1 "std::ostringstream::fill()",
        SearchTarget.mk "https://en.cppreference.com/w/cpp/io/basic_ios/fill.html" 1 "std::iostream::fill()",
        SearchTarget.mk "https://en.cppreference.com/w/cpp/io/basic_ios/fill.html" 1 "std::wistream::fill()",
        SearchTarget.mk "https://en.cppreference.com/w/cpp/io/basic_ios/fill.html" 1 "std::stringstream::fill()",
        SearchTarget.mk "https://en.cppreference.com/w/cpp/io/basic_ios/fill.html" 1 "std::ostream::fill()",
        SearchTarget.mk "https://en.cppreference.com/w/cpp/io/basic_ios/fill.html" 1 "std::wifstream::fill()",
        SearchTarget.mk "https://en.cppreference.com/w/cpp/io/basic_ios/fill.html" 1 "std::basic_istream::fill()",
        SearchTarget.mk "https://en.cppreference.com/w/cpp/io/basic_ios/fill.html" 1 "std::strstream::fill()",
        SearchTarget.mk "https://en.cppreference.com/w/cpp/io/basic_ios/fill.html" 1 "std::basic_stringstream::fill()",
        SearchTarget.mk "https://en.cppreference.com/w/cpp/io/basic_ios/fill.html" 1 "std::wostringstream::fill()",
        SearchTarget.mk "https://en.cppreference.com/w/cpp/io/basic_ios/fill.html" 1 "std::istrstream::fill()",
        SearchTarget.mk "https://en.cppreference.com/w/cpp/io/basic_ios/fill.html" 1 "std::basic_ostream::fill()",
        SearchTarget.mk "https://en.cppreference.com/w/cpp/io/basic_ios/fill.html" 1 "std::wiostream::fill()",
        SearchTarget.mk "https://en.cppreference.com/w/cpp/io/basic_ios/fill.html" 1 "std::wfstream::fill()",
        SearchTarget.mk "https://en.cppreference.com/w/cpp/io/basic_ios/fill.html" 1 "std::istream::fill()",
        SearchTarget.mk "https://en.cppreference.com/w/cpp/io/basic_ios/fill.html" 1 "std::istringstream::fill()",
        SearchTarget.mk "https://en.cppreference.com/w/cpp/io/basic_ios/fill.html" 1 "std::basic_ifstream::fill()",
        SearchTarget.mk "https://en.cppreference.com/w/cpp/io/basic_ios/fill.html" 1 "std::basic_istringstream::fill()",
        SearchTarget.mk "https://en.cppreference.com/w/cpp/io/basic_ios/fill.html" 1 "std::ofstream::fill()" ],
    SearchEntry.mk "fill_5fn_887" "fill_n"
      [ SearchTarget.mk "https://en.cppreference.com/w/cpp/algorithm/fill_n.html" 1 "std" ],
    SearchEntry.mk "find_888" "find"
      [ SearchTarget.mk "https://en.cppreference.com/w/cpp/container/set/find.html" 1 "std::set::find()",
        SearchTarget.mk "https://en.cppreference.com/w/cpp/algorithm/find.html" 1 "std::find()",
        SearchTarget.mk "https://en.cppreference.com/w/cpp/string/char_traits/find.html" 1 "std::char_traits::find()",
        SearchTarget.mk "https://en.cppreference.com/w/cpp/container/multiset/find.html" 1 "std::multiset::find()",
        SearchTarget.mk "https://en.cppreference.com/w/cpp/string/basic_string/find.html" 1 "std::string::find()",
        SearchTarget.mk "https://en.cppreference.com/w/cpp/string/basic_string/find.html" 1 "std::wstring::find()",
        SearchTarget.mk "https://en.cppreference.com/w/cpp/container/unordered_map/find.html" 1 "std::unordered_map::find()",
        SearchTarget.mk "https://en.cppreference.com/w/cpp/container/unordered_multimap/find.html" 1 "std::unordered_multimap::find()",
        SearchTarget.mk "https://en.cppreference.com/w/cpp/string/basic_string/find.html" 1 "std::basic_string::find()",
        SearchTarget.mk "https://en.cppreference.com/w/cpp/container/multimap/find.html" 1 "std::multimap::find()",
        SearchTarget.mk "https://en.cppreference.com/w/cpp/container/unordered_set/find.html" 1 "std::unordered_set::find()",
        SearchTarget.mk "https://en.cppreference.com/w/cpp/container/map/find.html" 1 "std::map::find()",
        SearchTarget.mk "https://en.cppreference.com/w/cpp/string/basic_string/find.html" 1 "std::u32string::find()",
        SearchTarget.mk "https://en.cppreference.com/w/cpp/string/basic_string/find.html" 1 "std::u16string::find()",
        SearchTarget.mk "https://en.cppreference.com/w/cpp/container/unordered_multiset/find.html" 1 "std::unordered_multiset::find()" ],
    SearchEntry.mk "find_5fend_889" "find_end"
      [ SearchTarget.mk "https://en.cppreference.com/w/cpp/algorithm/find_end.html" 1 "std" ],
    SearchEntry.mk "find_5ffirst_5fnot_5fof_890" "find_first_not_of"
      [ SearchTarget.mk "https://en.cppreference.com/w/cpp/string/basic_string/find_first_not_of.html" 1 "std::u32string::find_first_not_of()",
        SearchTarget.mk "https://en.cppreference.com/w/cpp/string/basic_string/find_first_not_of.html" 1 "std::u16string::find_first_not_of()",
        SearchTarget.mk "https://en.cppreference.com/w/cpp/string/basic_string/find_first_not_of.html" 1 "std::wstring::find_first_not_of()",
        SearchTarget.mk "https://en.cppreference.com/w/cpp/string/basic_string/find_first_not_of.html" 1 "std::basic_string::find_first_not_of()",
        SearchTarget.mk "https://en.cppreference.com/w/cpp/string/basic_string/find_first_not_of.html" 1 "std::string::find_first_not_of()" ],
    SearchEntry.mk "find_5ffirst_5fof_891" "find_first_of"
      [ SearchTarget.mk "https://en.cppreference.com/w/cpp/string/basic_string/find_first_of.html" 1 "std::basic_string::find_first_of()",
        SearchTarget.mk "https://en.cppreference.com/w/cpp/algorithm/find_first_of.html" 1 "std::find_first_of()",
        SearchTarget.mk "https://en.cppreference.com/w/cpp/string/basic_string/find_first_of.html" 1 "std::string::find_first_of()",
        SearchTarget.mk "https://en.cppreference.com/w/cpp/string/basic_string/find_first_of.html" 1 "std::wstring::find_first_of()",
        SearchTarget.mk "https://en.cppreference.com/w/cpp/string/basic_string/find_first_of.html" 1 "std::u16string::find_first_of()",
        SearchTarget.mk "https://en.cppreference.com/w/cpp/string/basic_string/find_first_of.html" 1 "std::u32string::find_first_of()" ],
    SearchEntry.mk "find_5fif_892" "find_if"
      [ SearchTarget.mk "https://en.cppreference.com/w/cpp/algorithm/find.html" 1 "std" ],
    SearchEntry.mk "find_5fif_5fnot_893" "find_if_not"
      [ SearchTarget.mk "https://en.cppreference.com/w/cpp/algorithm/find.html" 1 "std" ],
    SearchEntry.mk "find_5flast_5fnot_5fof_894" "find_last_not_of"
      [ SearchTarget.mk "https://en.cppreference.com/w/cpp/string/basic_string/find_last_not_of.html" 1 "std::string::find_last_not_of()",
        SearchTarget.mk "https://en.cppreference.com/w/cpp/string/basic_string/find_last_not_of.html" 1 "std::basic_string::find_last_not_of()",
        SearchTarget.mk "https://en.cppreference.com/w/cpp/string/basic_string/find_last_not_of.html" 1 "std::wstring::find_last_not_of()",
        SearchTarget.mk "https://en.cppreference.com/w/cpp/string/basic_string/find_last_not_of.html" 1 "std::u16string::find_last_not_of()",
        SearchTarget.mk "https://en.cppreference.com/w/cpp/string/basic_string/find_last_not_of.html" 1 "std::u32string::find_last_not_of(T... args)" ],
    SearchEntry.mk "find_5flast_5fof_895" "find_last_of"
      [ SearchTarget.mk "https://en.cppreference.com/w/cpp/string/basic_string/find_last_of.html" 1 "std::u32string::find_last_of()",
        SearchTarget.mk "https://en.cppreference.com/w/cpp/string/basic_string/find_last_of.html" 1 "std::u16string::find_last_of()",
        SearchTarget.mk "https://en.cppreference.com/w/cpp/string/basic_string/find_last_of.html" 1 "std::wstring::find_last_of()",
        SearchTarget.mk "https://en.cppreference.com/w/cpp/string/basic_string/find_last_of.html" 1 "std::basic_string::find_last_of()",
        SearchTarget.mk "https://en.cppreference.com/w/cpp/string/basic_string/find_last_of.html" 1 "std::string::find_last_of()" ],
    SearchEntry.mk "fisher_5ff_5fdistribution_896" "fisher_f_distribution"
      [ SearchTarget.mk "https://en.cppreference.com/w/cpp/numeric/random/fisher_f_distribution/fisher_f_distribution.html" 1 "std::fisher_f_distribution::fisher_f_distribution()",
        SearchTarget.mk "https://en.cppreference.com/w/cpp/numeric/random/fisher_f_distribution.html" 1 "fisher_f_distribution" ],
    SearchEntry.mk "fixed_897" "fixed"
      [ SearchTarget.mk "https://en.cppreference.com/w/cpp/io/manip/fixed.html" 1 "std" ],
    SearchEntry.mk "flags_898" "flags"
      [ SearchTarget.mk "../structsacn_1_1_receiver_1_1_settings.html#ac92588540e8c1d014a08cd8a45462b19" 1 "sacn::Receiver::Settings::flags()",
        SearchTarget.mk "https://en.cppreference.com/w/cpp/io/ios_base/flags.html" 1 "std::wfstream::flags()",
        SearchTarget.mk "https://etclabs.github.io/EtcPalDocs/head/struct_etc_pal_msg_hdr.html#ac8bf36fe0577cba66bccda3a6f7e80a4" 1 "EtcPalMsgHdr::flags()",
        SearchTarget.mk "../struct_sacn_receiver_config.html#ac92588540e8c1d014a08cd8a45462b19" 1 "SacnReceiverConfig::flags()",
        SearchTarget.mk "https://en.cppreference.com/w/cpp/io/ios_base/flags.html" 1 "std::ifstream::flags()",
        SearchTarget.mk "https://en.cppreference.com/w/cpp/io/ios_base/flags.html" 1 "std::wistringstream::flags()",
        SearchTarget.mk "https://en.cppreference.com/w/cpp/io/ios_base/flags.html" 1 "std::wstringstream::flags()",
        SearchTarget.mk "https://en.cppreference.com/w/cpp/io/ios_base/flags.html" 1 "std::wofstream::flags()",
        SearchTarget.mk "https://en.cppreference.com/w/cpp/io/ios_base/flags.html" 1 "std::basic_iostream::flags()",
        SearchTarget.mk "https://en.cppreference.com/w/cpp/io/ios_base/flags.html" 1 "std::ostrstream::flags()",
        SearchTarget.mk "https://en.cppreference.com/w/cpp/io/ios_base/flags.html" 1 "std::wifstream::flags()",
        SearchTarget.mk "https://en.cppreference.com/w/cpp/io/ios_base/flags.html" 1 "std::basic_ofstream::flags()",
        SearchTarget.mk "https://en.cppreference.com/w/cpp/io/ios_base/flags.html" 1 "std::fstream::flags()",
        SearchTarget.mk "https://en.cppreference.com/w/cpp/io/ios_base/flags.html" 1 "std::wostream::flags()",
        SearchTarget.mk "https://en.cppreference.com/w/cpp/io/ios_base/flags.html" 1 "std::basic_ostringstream::flags()",
        SearchTarget.mk "https://en.cppreference.com/w/cpp/regex/basic_regex/flags.html" 1 "std::regex::flags()",
        SearchTarget.mk "https://en.cppreference.com/w/cpp/regex/basic_regex/flags.html" 1 "std::basic_regex::flags()",
        SearchTarget.mk "https://en.cppreference.com/w/cpp/io/ios_base/flags.html" 1 "std::basic_ios::flags()",
        SearchTarget.mk "https://en.cppreference.com/w/cpp/io/ios_base/flags.html" 1 "std::ostringstream::flags()",
        SearchTarget.mk "https://en.cppreference.com/w/cpp/io/ios_base/flags.html" 1 "std::basic_fstream::flags()",
        SearchTarget.mk "https://en.cppreference.com/w/cpp/regex/basic_regex/flags.html" 1 "std::wregex::flags()",
        SearchTarget.mk "https://en.cppreference.com/w/cpp/io/ios_base/flags.html" 1 "std::iostream::flags()",
        SearchTarget.mk "https://en.cppreference.com/w/cpp/io/ios_base/flags.html" 1 "std::ios_base::flags()",
        SearchTarget.mk "https://en.cppreference.com/w/cpp/io/ios_base/flags.html" 1 "std::wistream::flags()",
        SearchTarget.mk "https://en.cppreference.com/w/cpp/io/ios_base/flags.html" 1 "std::stringstream::flags()",
        SearchTarget.mk "https://en.cppreference.com/w/cpp/io/ios_base/flags.html" 1 "std::ostream::flags()",
        SearchTarget.mk "https://en.cppreference.com/w/cpp/io/ios_base/flags.html" 1 "std::istream::flags()",
        SearchTarget.mk "https://en.cppreference.com/w/cpp/io/ios_base/flags.html" 1 "std::basic_istream::flags()",
        SearchTarget.mk "https://en.cppreference.com/w/cpp/io/ios_base/flags.html" 1 "std::strstream::flags()",
        SearchTarget.mk "https://en.cppreference.com/w/cpp/io/ios_base/flags.html" 1 "std::basic_stringstream::flags()",
        SearchTarget.mk "https://en.cppreference.com/w/cpp/io/ios_base/flags.html" 1 "std::wostringstream::flags()",
        SearchTarget.mk "https://en.cppreference.com/w/cpp/io/ios_base/flags.html" 1 "std::istrstream::flags()",
        SearchTarget.mk "https://en.cppreference.com/w/cpp/io/ios_base/flags.html" 1 "std::basic_ostream::flags()",
        SearchTarget.mk "https://en.cppreference.com/w/cpp/io/ios_base/flags.html" 1 "std::wiostream::flags()",
        SearchTarget.mk "https://en.cppreference.com/w/cpp/io/ios_base/flags.html" 1 "std::ofstream::flags()",
        SearchTarget.mk "https://en.cppreference.com/w/cpp/io/ios_base/flags.html" 1 "std::basic_istringstream::flags()",
        SearchTarget.mk "https://en.cppreference.com/w/cpp/io/ios_base/flags.html" 1 "std::basic_ifstream::flags()",
        SearchTarget.mk "https://en.cppreference.com/w/cpp/io/ios_base/flags.html" 1 "std::istringstream::flags()" ],
    SearchEntry.mk "flip_899" "flip"
      [ SearchTarget.mk "https://en.cppreference.com/w/cpp/utility/bitset/flip.html" 1 "std::bitset" ],
    SearchEntry.mk "floor_900" "floor"
      [ SearchTarget.mk "https://en.cppreference.com/w/cpp/numeric/math/floor.html" 1 "std" ],
    SearchEntry.mk "flush_901" "flush"
      [ SearchTarget.mk "https://en.cppreference.com/w/cpp/io/manip/flush.html" 1 "std::flush()",
        SearchTarget.mk "https://en.cppreference.com/w/cpp/io/basic_ostream/flush.html" 1 "std::ostream::flush()",
        SearchTarget.mk "https://en.cppreference.com/w/cpp/io/basic_ostream/flush.html" 1 "std::basic_ostream::flush()",
        SearchTarget.mk "https://en.cppreference.com/w/cpp/io/basic_ostream/flush.html" 1 "std::fstream::flush()",
        SearchTarget.mk "https://en.cppreference.com/w/cpp/io/basic_ostream/flush.html" 1 "std::wostream::flush()",
        SearchTarget.mk "https://en.cppreference.com/w/cpp/io/basic_ostream/flush.html" 1 "std::basic_ostringstream::flush()",
        SearchTarget.mk "https://en.cppreference.com/w/cpp/io/basic_ostream/flush.html" 1 "std::ostringstream::flush()",
        SearchTarget.mk "https://en.cppreference.com/w/cpp/io/basic_ostream/flush.html" 1 "std::basic_fstream::flush()",
        SearchTarget.mk "https://en.cppreference.com/w/cpp/io/basic_ostream/flush.html" 1 "std::iostream::flush()",
        SearchTarget.mk "https://en.cppreference.com/w/cpp/io/basic_ostream/flush.html" 1 "std::stringstream::flush()",
        SearchTarget.mk "https://en.cppreference.com/w/cpp/io/basic_ostream/flush.html" 1 "std::basic_ofstream::flush()",
        SearchTarget.mk "https://en.cppreference.com/w/cpp/io/basic_ostream/flush.html" 1 "std::strstream::flush()",
        SearchTarget.mk "https://en.cppreference.com/w/cpp/io/basic_ostream/flush.html" 1 "std::basic_stringstream::flush()",
        SearchTarget.mk "https://en.cppreference.com/w/cpp/io/basic_ostream/flush.html" 1 "std::wostringstream::flush()",
        SearchTarget.mk "https://en.cppreference.com/w/cpp/io/basic_ostream/flush.html" 1 "std::wiostream::flush()",
        SearchTarget.mk "https://en.cppreference.com/w/cpp/io/basic_ostream/flush.html" 1 "std::ofstream::flush()",
        SearchTarget.mk "https://en.cppreference.com/w/cpp/io/basic_ostream/flush.html" 1 "std::ostrstream::flush()",
        SearchTarget.mk "https://en.cppreference.com/w/cpp/io/basic_ostream/flush.html" 1 "std::wfstream::flush()",
        SearchTarget.mk "https://en.cppreference.com/w/cpp/io/basic_ostream/flush.html" 1 "std::basic_iostream::flush()",
        SearchTarget.mk "https://en.cppreference.com/w/cpp/io/basic_ostream/flush.html" 1 "std::wofstream::flush()",
        SearchTarget.mk "https://en.cppreference.com/w/cpp/io/basic_ostream/flush.html" 1 "std::wstringstream::flush()" ],
    SearchEntry.mk "fma_902" "fma"
      [ SearchTarget.mk "https://en.cppreference.com/w/cpp/numeric/math/fma.html" 1 "std" ],
    SearchEntry.mk "fmax_903" "fmax"
      [ SearchTarget.mk "https://en.cppreference.com/w/cpp/numeric/math/fmax.html" 1 "std" ],
    SearchEntry.mk "fmin_904" "fmin"
      [ SearchTarget.mk "https://en.cppreference.com/w/cpp/numeric/math/fmin.html" 1 "std" ],
    SearchEntry.mk "fmod_905" "fmod"
      [ SearchTarget.mk "https://en.cppreference.com/w/cpp/numeric/math/fmod.html" 1 "std" ],
    SearchEntry.mk "footprint_906" "footprint"
      [ SearchTarget.mk "../structsacn_1_1_receiver_1_1_settings.html#a3fa13922bd1ee44412886d8e562582c8" 1 "sacn::Receiver::Settings::footprint()",
        SearchTarget.mk "../struct_sacn_merge_receiver_config.html#a3fa13922bd1ee44412886d8e562582c8" 1 "SacnMergeReceiverConfig::footprint()",
        SearchTarget.mk "../struct_sacn_receiver_config.html#a3fa13922bd1ee44412886d8e562582c8" 1 "SacnReceiverConfig::footprint()",
        SearchTarget.mk "../structsacn_1_1_merge_receiver_1_1_settings.html#a3fa13922bd1ee44412886d8e562582c8" 1 "sacn::MergeReceiver::Settings::footprint()" ],
    SearchEntry.mk "fopen_907" "fopen"
      [ SearchTarget.mk "https://en.cppreference.com/w/cpp/io/c/fopen.html" 1 "std" ],
    SearchEntry.mk "for_5feach_908" "for_each"
      [ SearchTarget.mk "https://en.cppreference.com/w/cpp/algorithm/for_each.html" 1 "std" ],
    SearchEntry.mk "format_909" "format"
      [ SearchTarget.mk "https://en.cppreference.com/w/cpp/regex/match_results/format.html" 1 "std::match_results::format()",
        SearchTarget.mk "https://en.cppreference.com/w/cpp/regex/match_results/format.html" 1 "std::wsmatch::format()",
        SearchTarget.mk "https://en.cppreference.com/w/cpp/regex/match_results/format.html" 1 "std::smatch::format()",
        SearchTarget.mk "https://en.cppreference.com/w/cpp/regex/match_results/format.html" 1 "std::wcmatch::format()",
        SearchTarget.mk "https://en.cppreference.com/w/cpp/regex/match_results/format.html" 1 "std::cmatch::format()" ],
    SearchEntry.mk "forward_910" "forward"
      [ SearchTarget.mk "https://en.cppreference.com/w/cpp/utility/forward.html" 1 "std" ],
    SearchEntry.mk "forward_5fas_5ftuple_911" "forward_as_tuple"
      [ SearchTarget.mk "https://en.cppreference.com/w/cpp/utility/tuple/forward_as_tuple.html" 1 "std" ],
    SearchEntry.mk "forward_5fiterator_5ftag_912" "forward_iterator_tag"
      [ SearchTarget.mk "https://en.cppreference.com/w/cpp/iterator/iterator_tags.html" 1 "std" ],
    SearchEntry.mk "forward_5flist_913" "forward_list"
      [ SearchTarget.mk "https://en.cppreference.com/w/cpp/container/forward_list/forward_list.html" 1 "std::forward_list::forward_list()",
        SearchTarget.mk "https://en.cppreference.com/w/cpp/container/forward_list.html" 1 "forward_list" ],
    SearchEntry.mk "fpclassify_914" "fpclassify"
      [ SearchTarget.mk "https://en.cppreference.com/w/cpp/numeric/math/fpclassify.html" 1 "std" ],
    SearchEntry.mk "fpos_915" "fpos"
      [ SearchTarget.mk "https://en.cppreference.com/w/cpp/io/fpos.html" 1 "std" ],
    SearchEntry.mk "fpos_5ft_916" "fpos_t"
      [ SearchTarget.mk "https://en.cppreference.com/w/cpp/io/c.html" 1 "std" ],
    SearchEntry.mk "fprintf_917" "fprintf"
      [ SearchTarget.mk "https://en.cppreference.com/w/cpp/io/c/fprintf.html" 1 "std" ],
    SearchEntry.mk "fputc_918" "fputc"
      [ SearchTarget.mk "https://en.cppreference.com/w/cpp/io/c/fputc.html" 1 "std" ],
    SearchEntry.mk "fputs_919" "fputs"
      [ SearchTarget.mk "https://en.cppreference.com/w/cpp/io/c/fputs.html" 1 "std" ],
    SearchEntry.mk "fputwc_920" "fputwc"
      [ SearchTarget.mk "https://en.cppreference.com/w/cpp/io/c/fputwc.html" 1 "std" ],
    SearchEntry.mk "fputws_921" "fputws"
      [ SearchTarget.mk "https://en.cppreference.com/w/cpp/io/c/fputws.html" 1 "std" ],
    SearchEntry.mk "frac_5fdigits_922" "frac_digits"
      [ SearchTarget.mk "https://en.cppreference.com/w/cpp/locale/moneypunct/frac_digits.html" 1 "std::moneypunct::frac_digits()",
        SearchTarget.mk "https://en.cppreference.com/w/cpp/locale/moneypunct/frac_digits.html" 1 "std::moneypunct_byname::frac_digits()" ],
    SearchEntry.mk "fread_923" "fread"
      [ SearchTarget.mk "https://en.cppreference.com/w/cpp/io/c/fread.html" 1 "std" ],
    SearchEntry.mk "free_924" "free"
      [ SearchTarget.mk "https://en.cppreference.com/w/cpp/memory/c/free.html" 1 "std" ],
    SearchEntry.mk "freeze_925" "freeze"
      [ SearchTarget.mk "https://en.cppreference.com/w/cpp/io/ostrstream/freeze.html" 1 "std::ostrstream::freeze()",
        SearchTarget.mk "https://en.cppreference.com/w/cpp/io/strstream/freeze.html" 1 "std::strstream::freeze()",
        SearchTarget.mk "https://en.cppreference.com/w/cpp/io/strstreambuf/freeze.html" 1 "std::strstreambuf::freeze()" ],
    SearchEntry.mk "freopen_926" "freopen"
      [ SearchTarget.mk "https://en.cppreference.com/w/cpp/io/c/freopen.html" 1 "std" ],
    SearchEntry.mk "frexp_927" "frexp"
      [ SearchTarget.mk "https://en.cppreference.com/w/cpp/numeric/math/frexp.html" 1 "std" ],
    SearchEntry.mk "friendly_5fname_928" "friendly_name"
      [ SearchTarget.mk "https://etclabs.github.io/EtcPalDocs/head/struct_etc_pal_netint_info.html#a3fa69022d71df27910811117d3e232fd" 1 "EtcPalNetintInfo::friendly_name()",
        SearchTarget.mk "https://etclabs.github.io/EtcPalDocs/head/classetcpal_1_1_netint_info.html#aa281fe09d5cbce4d97904d48fe54d1fd" 1 "etcpal::NetintInfo::friendly_name()" ],
    SearchEntry.mk "from_5fbytes_929" "from_bytes"
      [ SearchTarget.mk "https://en.cppreference.com/w/cpp/locale/wstring_convert/from_bytes.html" 1 "std::wstring_convert" ],
    SearchEntry.mk "from_5ftime_5ft_930" "from_time_t"
      [ SearchTarget.mk "https://en.cppreference.com/w/cpp/chrono/system_clock/from_time_t.html" 1 "std::chrono::system_clock" ],
    SearchEntry.mk "fromstring_931" "FromString"
      [ SearchTarget.mk "https://etclabs.github.io/EtcPalDocs/head/classetcpal_1_1_mac_addr.html#a32186693c8d1faea349dc007768684b4" 1 "etcpal::MacAddr::FromString(const char *mac_str) noexcept",
        SearchTarget.mk "https://etclabs.github.io/EtcPalDocs/head/classetcpal_1_1_mac_addr.html#a4ddd74c443669ab0d7c1aefac0e13fd7" 1 "etcpal::MacAddr::FromString(const std::string &amp;mac_str) noexcept",
        SearchTarget.mk "https://etclabs.github.io/EtcPalDocs/head/classetcpal_1_1_uuid.html#ab017791f5f66829527591d8bd6bd840f" 1 "etcpal::Uuid::FromString(const char *uuid_str) noexcept",
        SearchTarget.mk "https://etclabs.github.io/EtcPalDocs/head/classetcpal_1_1_uuid.html#a824ab92916f13aacf1899f5019093470" 1 "etcpal::Uuid::FromString(const std::string &amp;uuid_str) noexcept",
        SearchTarget.mk "https://etclabs.github.io/EtcPalDocs/head/classetcpal_1_1_ip_addr.html#a431892e2354d1b617e2dd0278b8a9f30" 1 "etcpal::IpAddr::FromString(const char *ip_str) noexcept",
        SearchTarget.mk "https://etclabs.github.io/EtcPalDocs/head/classetcpal_1_1_ip_addr.html#a5c2b23004b9bdca3df3142b5f4fbd8ac" 1 "etcpal::IpAddr::FromString(const std::string &amp;ip_str) noexcept" ],
    SearchEntry.mk "front_932" "front"
      [ SearchTarget.mk "https://en.cppreference.com/w/cpp/string/basic_string/front.html" 1 "std::u16string::front()",
        SearchTarget.mk "https://en.cppreference.com/w/cpp/container/dynarray/front.html" 1 "std::dynarray::front()",
        SearchTarget.mk "https://en.cppreference.com/w/cpp/container/vector/front.html" 1 "std::vector::front()",
        SearchTarget.mk "https://en.cppreference.com/w/cpp/string/basic_string/front.html" 1 "std::string::front()",
        SearchTarget.mk "https://en.cppreference.com/w/cpp/container/forward_list/front.html" 1 "std::forward_list::front()",
        SearchTarget.mk "https://en.cppreference.com/w/cpp/container/deque/front.html" 1 "std::deque::front()",
        SearchTarget.mk "https://en.cppreference.com/w/cpp/container/queue/front.html" 1 "std::queue::front()",
        SearchTarget.mk "https://en.cppreference.com/w/cpp/string/basic_string/front.html" 1 "std::basic_string::front()",
        SearchTarget.mk "https://en.cppreference.com/w/cpp/string/basic_string/front.html" 1 "std::wstring::front()",
        SearchTarget.mk "https://en.cppreference.com/w/cpp/string/basic_string/front.html" 1 "std::u32string::front()",
        SearchTarget.mk "https://en.cppreference.com/w/cpp/container/list/front.html" 1 "std::list::front()",
        SearchTarget.mk "https://en.cppreference.com/w/cpp/container/array/front.html" 1 "std::array::front()" ],
    SearchEntry.mk "front_5finsert_5fiterator_933" "front_insert_iterator"
      [ SearchTarget.mk "https://en.cppreference.com/w/cpp/iterator/front_insert_iterator.html" 1 "std" ],
    SearchEntry.mk "front_5finserter_934" "front_inserter"
      [ SearchTarget.mk "https://en.cppreference.com/w/cpp/iterator/front_inserter.html" 1 "std" ],
    SearchEntry.mk "fscanf_935" "fscanf"
      [ SearchTarget.mk "https://en.cppreference.com/w/cpp/io/c/fscanf.html" 1 "std" ],
    SearchEntry.mk "fseek_936" "fseek"
      [ SearchTarget.mk "https://en.cppreference.com/w/cpp/io/c/fseek.html" 1 "std" ],
    SearchEntry.mk "fsetpos_937" "fsetpos"
      [ SearchTarget.mk "https://en.cppreference.com/w/cpp/io/c/fsetpos.html" 1 "std" ],
    SearchEntry.mk "fstream_938" "fstream"
      [ SearchTarget.mk "https://en.cppreference.com/w/cpp/io/basic_fstream/basic_fstream.html" 1 "std::fstream::fstream()",
        SearchTarget.mk "https://en.cppreference.com/w/cpp/io/basic_fstream.html" 1 "fstream" ],
    SearchEntry.mk "ftell_939" "ftell"
      [ SearchTarget.mk "https://en.cppreference.com/w/cpp/io/c/ftell.html" 1 "std" ],
    SearchEntry.mk "function_940" "function"
      [ SearchTarget.mk "https://en.cppreference.com/w/cpp/utility/functional/function/function.html" 1 "std::function::function()",
        SearchTarget.mk "https://en.cppreference.com/w/cpp/utility/functional/function.html" 1 "function" ],
    SearchEntry.mk "future_941" "future"
      [ SearchTarget.mk "https://en.cppreference.com/w/cpp/thread/future/future.html" 1 "std::future::future()",
        SearchTarget.mk "https://en.cppreference.com/w/cpp/thread/future.html" 1 "future" ],
    SearchEntry.mk "future_5fcategory_942" "future_category"
      [ SearchTarget.mk "https://en.cppreference.com/w/cpp/thread/future/future_category.html" 1 "std" ],
    SearchEntry.mk "future_5ferror_943" "future_error"
      [ SearchTarget.mk "https://en.cppreference.com/w/cpp/thread/future_error/future_error.html" 1 "std::future_error::future_error()",
        SearchTarget.mk "https://en.cppreference.com/w/cpp/thread/future_error.html" 1 "future_error" ],
    SearchEntry.mk "fwprintf_944" "fwprintf"
      [ SearchTarget.mk "https://en.cppreference.com/w/cpp/io/c/fwprintf.html" 1 "std" ],
    SearchEntry.mk "fwrite_945" "fwrite"
      [ SearchTarget.mk "https://en.cppreference.com/w/cpp/io/c/fwrite.html" 1 "std" ],
    SearchEntry.mk "fwscanf_946" "fwscanf"
      [ SearchTarget.mk "https://en.cppreference.com/w/cpp/io/c/fwscanf.html" 1 "std" ] ]

end head.search.all_6

/-- The name of a navigation entry (its first component). -/
def Nav.name : Nav → String
  | Nav.leaf n _ => n
  | Nav.link n _ _ => n
  | Nav.node n _ _ => n

/-- The child entries of a navigation entry: the third component when it is a list. -/
def Nav.children : Nav → List Nav
  | Nav.node _ _ cs => cs
  | _ => []

/-- The third component of a navigation entry is `null`: the entry documents a single
symbol (a macro, a typedef, a function or a member). -/
def Nav.isLeaf : Nav → Bool
  | Nav.leaf _ _ => true
  | _ => false

/-- The names documented at the top level of an index. -/
def topNames (idx : List Nav) : List String :=
  idx.map Nav.name

/-- The member names an index documents for the record (struct, class or enum) called
`record`: the names of the children of the top-level entries of that name. -/
def membersOf (idx : List Nav) (record : String) : List String :=
  (idx.filter (fun e => decide (e.name = record))).flatMap (fun e => e.children.map Nav.name)

/-- The characters of `s` after the leading run `p`, none when `s` does not start
with `p`. -/
def dropStart : List Char → List Char → Option (List Char)
  | [], s => some s
  | _ :: _, [] => none
  | a :: p, b :: s => if a = b then dropStart p s else none

/-- The characters of `s` before the trailing run `p`, none when `s` does not end
with `p`. -/
def dropEnd (p s : List Char) : Option (List Char) :=
  (dropStart p.reverse s.reverse).map List.reverse

/-- The run `p` occurs somewhere in `s`. -/
def occursIn (p : List Char) : List Char → Bool
  | [] => (dropStart p []).isSome
  | c :: cs => (dropStart p (c :: cs)).isSome || occursIn p cs

/-- The text `p` occurs inside the name `s`. -/
def mentions (s p : String) : Bool :=
  occursIn p.toList s.toList

/-- The stem `X` of a handle type name of the form `sacn_X_t`, none for a name of
another form. -/
def handleStem (name : String) : Option (List Char) :=
  (dropStart "sacn_".toList name.toList).bind (dropEnd "_t".toList)

/-- The name `SACN_X_INVALID` of the invalid sentinel that goes with the handle type of
stem `X`, the stem in upper case. -/
def sentinelFor (stem : List Char) : String :=
  String.mk ("SACN_".toList ++ stem.map Char.toUpper ++ "_INVALID".toList)

/-- The functions an index documents under the name stem `stem`: its top-level single
symbols whose name starts with the stem, the handle typedefs `sacn_X_t` left out. -/
def functionsOf (idx : List Nav) (stem : String) : List String :=
  (idx.filter (fun e => e.isLeaf && (dropStart stem.toList e.name.toList).isSome &&
    (handleStem e.name).isNone)).map Nav.name

/-- The handle typedefs an index documents: its top-level single symbols with a name of
the form `sacn_X_t`. -/
def handleTypedefs (idx : List Nav) : List String :=
  (idx.filter (fun e => e.isLeaf && (handleStem e.name).isSome)).map Nav.name

/-- The pieces of a text between its commas. -/
def splitCommas : List Char → List (List Char)
  | [] => [[]]
  | c :: cs =>
    match splitCommas cs with
    | [] => [[]]
    | piece :: rest => if c = ',' then [] :: piece :: rest else (c :: piece) :: rest

/-- A text without its leading blanks. -/
def dropBlanks : List Char → List Char
  | [] => []
  | c :: cs => if c = ' ' then dropBlanks cs else c :: cs

/-- A text without its leading and trailing blanks. -/
def trimBlanks (s : List Char) : List Char :=
  (dropBlanks (dropBlanks s).reverse).reverse

/-- The template arguments of a search index name of the form
`OpaqueId&lt; A, B, C &gt;` (the angle brackets are HTML-escaped in the index), none
for any other name. -/
def opaqueIdArgs (name : String) : Option (List String) :=
  ((dropStart "OpaqueId&lt;".toList name.toList).bind (dropEnd "&gt;".toList)).map
    (fun inner => (splitCommas inner).map (fun piece => String.mk (trimBlanks piece)))

/-- The group index arrays of the documentation build, all versions. -/
def groupIndexes : List (List Nav) :=
  [ v2_0_1.group__sacn__merge__receiver,
    v2_0_2.group__sacn__merge__receiver__cpp,
    v2_0_2.group__sacn__receiver,
    v2_0_2.group__sacn__receiver__cpp,
    v3_0_0.group__s_a_c_n,
    v3_0_0.group__sacn__dmx__merger,
    v3_0_0.group__sacn__merge__receiver__cpp,
    v3_0_0.group__sacn__source__cpp,
    v3_0_0.group__sacn__source__detector,
    head.group__sacn__merge__receiver ]

/-- The class search index arrays of the documentation build, all versions. -/
def classSearchIndexes : List (List SearchEntry) :=
  [ v2_0_1.search.classes_11.searchData,
    v2_0_1.search.classes_e.searchData,
    v2_0_2.search.classes_16.searchData,
    v2_0_2.search.classes_4.searchData,
    v2_0_2.search.classes_e.searchData,
    v3_0_0.search.classes_e.searchData ]

/-! ## Walking the indexes -/

/-- The url of a navigation entry (its second component), none when it is `null`. -/
def Nav.url : Nav → Option String
  | Nav.leaf _ u => u
  | Nav.link _ u _ => u
  | Nav.node _ u _ => u

/-- The third component of a navigation entry when it is a string: the name of the
lazily loaded child index. -/
def Nav.index : Nav → Option String
  | Nav.link _ _ i => some i
  | _ => none

/-- The third component of a navigation entry is a list of child entries. -/
def Nav.isNode : Nav → Bool
  | Nav.node _ _ _ => true
  | _ => false

mutual
/-- An entry and every entry below it, each with the chain of its ancestors (name and
url, the parent first). -/
def Nav.walk (up : List (String × Option String)) :
    Nav → List (List (String × Option String) × Nav)
  | Nav.leaf n u => [(up, Nav.leaf n u)]
  | Nav.link n u i => [(up, Nav.link n u i)]
  | Nav.node n u cs => (up, Nav.node n u cs) :: walkAll ((n, u) :: up) cs
/-- Every entry of a list of entries at any depth, each with the chain of its
ancestors. -/
def walkAll (up : List (String × Option String)) :
    List Nav → List (List (String × Option String) × Nav)
  | [] => []
  | e :: es => e.walk up ++ walkAll up es
end

/-- The records (structs, classes, enums) an index documents at its top level: the names
of the entries that have a list of children. -/
def recordsOf (idx : List Nav) : List String :=
  (idx.filter Nav.isNode).map Nav.name

/-- A navigation index file: its path below `docs-build`, the name of the variable it
declares, and the array assigned to the variable. -/
structure NavFile where
  path : String
  varName : String
  entries : List Nav

/-- The navigation index files of the documentation build. -/
def navFiles : List NavFile :=
  [ NavFile.mk "2.0.1/group__sacn__merge__receiver.js" "group__sacn__merge__receiver"
      v2_0_1.group__sacn__merge__receiver,
    NavFile.mk "2.0.2/group__sacn__merge__receiver__cpp.js" "group__sacn__merge__receiver__cpp"
      v2_0_2.group__sacn__merge__receiver__cpp,
    NavFile.mk "2.0.2/group__sacn__receiver.js" "group__sacn__receiver"
      v2_0_2.group__sacn__receiver,
    NavFile.mk "2.0.2/group__sacn__receiver__cpp.js" "group__sacn__receiver__cpp"
      v2_0_2.group__sacn__receiver__cpp,
    NavFile.mk "3.0.0/annotated_dup.js" "annotated_dup" v3_0_0.annotated_dup,
    NavFile.mk "3.0.0/group__s_a_c_n.js" "group__s_a_c_n" v3_0_0.group__s_a_c_n,
    NavFile.mk "3.0.0/group__sacn__dmx__merger.js" "group__sacn__dmx__merger"
      v3_0_0.group__sacn__dmx__merger,
    NavFile.mk "3.0.0/group__sacn__merge__receiver__cpp.js" "group__sacn__merge__receiver__cpp"
      v3_0_0.group__sacn__merge__receiver__cpp,
    NavFile.mk "3.0.0/group__sacn__source__cpp.js" "group__sacn__source__cpp"
      v3_0_0.group__sacn__source__cpp,
    NavFile.mk "3.0.0/group__sacn__source__detector.js" "group__sacn__source__detector"
      v3_0_0.group__sacn__source__detector,
    NavFile.mk "head/group__sacn__merge__receiver.js" "group__sacn__merge__receiver"
      head.group__sacn__merge__receiver ]

/-- The search index arrays of the documentation build, all versions, in the order of
their paths. -/
def searchIndexes : List (List SearchEntry) :=
  [ v2_0_1.search.classes_11.searchData,
    v2_0_1.search.classes_e.searchData,
    v2_0_2.search.classes_16.searchData,
    v2_0_2.search.classes_4.searchData,
    v2_0_2.search.classes_e.searchData,
    v3_0_0.search.classes_e.searchData,
    v3_0_0.search.functions_e.searchData,
    head.search.all_6.searchData ]

/-- The file name of a path: the text after its last slash. -/
def baseName (path : String) : List Char :=
  (path.toList.reverse.takeWhile (fun c => c != '/')).reverse

/-- The page part of a url: the text before its first `#`. -/
def pagePart (url : String) : List Char :=
  url.toList.takeWhile (fun c => c != '#')

/-- The anchor of a url: the text after its first `#`, none when there is no `#`. -/
def anchorPart (url : String) : Option (List Char) :=
  match url.toList.dropWhile (fun c => c != '#') with
  | [] => none
  | _ :: rest => some rest

/-- The pieces of a text between its underscores. -/
def splitUnderscores : List Char → List (List Char)
  | [] => [[]]
  | c :: cs =>
    match splitUnderscores cs with
    | [] => [[]]
    | piece :: rest => if c = '_' then [] :: piece :: rest else (c :: piece) :: rest

/-- A word with its first letter in upper case. -/
def upperFirst : List Char → List Char
  | [] => []
  | c :: cs => c.toUpper :: cs

/-- A snake_case name in PascalCase: the underscores dropped, every piece between them
starting with an upper-case letter. -/
def pascalCase (s : List Char) : List Char :=
  (splitUnderscores s).flatMap upperFirst

/-- The handler name that goes with a callback name `c`: `Handle` followed by `c` in
PascalCase. -/
def handlerName (c : String) : String :=
  String.mk ("Handle".toList ++ pascalCase c.toList)

/-- The members of `SacnReceiverCallbacks` in the 2.0.2 receiver index, other than
`context`. -/
def receiverCallbacks : List String :=
  (membersOf v2_0_2.group__sacn__receiver "SacnReceiverCallbacks").filter
    (fun m => decide (m ≠ "context"))

/-- The members of `NotifyHandler` in the 2.0.2 C++ receiver index, other than the
destructor. -/
def receiverHandlers : List String :=
  (membersOf v2_0_2.group__sacn__receiver__cpp "NotifyHandler").filter
    (fun m => decide (m ≠ "~NotifyHandler"))

/-- A search key split at its last underscore into the stem and the run of decimal
digits that ends the key; none when the key does not end in `_` and at least one
digit. -/
def splitKey (key : String) : Option (List Char × List Char) :=
  match key.toList.reverse.dropWhile Char.isDigit with
  | [] => none
  | c :: stem =>
    if c = '_' ∧ key.toList.reverse.takeWhile Char.isDigit ≠ [] then
      some (stem.reverse, (key.toList.reverse.takeWhile Char.isDigit).reverse)
    else none

/-- The stem of a search key: the key with its trailing `_<number>` removed. -/
def keyStem (key : String) : Option (List Char) :=
  (splitKey key).map Prod.fst

/-- The value of a run of decimal digits. -/
def digitsValue (ds : List Char) : Nat :=
  ds.foldl (fun n c => 10 * n + (c.toNat - 48)) 0

/-- The number that ends a search key. -/
def keyNumber (key : String) : Option Nat :=
  (splitKey key).map (fun p => digitsValue p.2)

/-- Byte order on texts: `s` comes before `t` or equals it, comparing character codes
from the left (a proper leading part of a text comes before the text). -/
def bytesLe : List Char → List Char → Bool
  | [], _ => true
  | _ :: _, [] => false
  | a :: s, b :: t => decide (a.toNat < b.toNat) || (decide (a.toNat = b.toNat) && bytesLe s t)

/-- Every text of the list is in byte order before or equal to the next one. -/
def ascending : List (List Char) → Bool
  | [] => true
  | a :: rest =>
    match rest with
    | [] => true
    | b :: _ => bytesLe a b && ascending rest

/-- Every number of the list is followed by its successor. -/
def consecutive : List Nat → Bool
  | [] => true
  | a :: rest =>
    match rest with
    | [] => true
    | b :: _ => decide (b = a + 1) && consecutive rest

/-- The text with the HTML entities `&lt;`, `&gt;` and `&amp;` decoded. -/
def unhtml : List Char → List Char
  | '&' :: 'l' :: 't' :: ';' :: rest => '<' :: unhtml rest
  | '&' :: 'g' :: 't' :: ';' :: rest => '>' :: unhtml rest
  | '&' :: 'a' :: 'm' :: 'p' :: ';' :: rest => '&' :: unhtml rest
  | c :: rest => c :: unhtml rest
  | [] => []

/-- The text with its ASCII upper-case letters in lower case. -/
def lower (s : List Char) : List Char :=
  s.map Char.toLower

/-- The hexadecimal digit of a value below sixteen, in lower case. -/
def hexDigit (n : Nat) : Char :=
  if n < 10 then Char.ofNat (48 + n) else Char.ofNat (87 + n)

/-- The escaped form of one character: itself when it is in `[a-z0-9]`, else `_` and its
two-digit hexadecimal code. -/
def escChar (c : Char) : List Char :=
  if c.isLower || c.isDigit then [c] else ['_', hexDigit (c.toNat / 16), hexDigit (c.toNat % 16)]

/-- The escaped form of a text, character by character. -/
def esc (s : List Char) : List Char :=
  s.flatMap escChar

/-- The key stem computed from a search index name: `esc (lower (unhtml name))`. -/
def stemOfName (name : String) : List Char :=
  esc (lower (unhtml name.toList))

/-- The names of all entries of an index, at any depth, in the order of the file. -/
def allNames (idx : List Nav) : List String :=
  (walkAll [] idx).map (fun r => r.2.name)

/-- The text `p` occurs inside the name `s`, upper and lower case taken as the same. -/
def mentionsAnyCase (s p : String) : Bool :=
  occursIn (lower p.toList) (lower s.toList)

/-! # Theorems -/

/-! ## Lemmas on arbitration -/

theorem better_irrefl (a : Candidate) : better a a = false := by
  simp [better]

theorem not_better_trans {a b c : Candidate} (hab : better a b = false)
    (hcb : better c b = true) : better a c = false := by
  simp only [better, Bool.or_eq_true, Bool.and_eq_true, decide_eq_true_eq,
    Bool.or_eq_false_iff, Bool.and_eq_false_iff, decide_eq_false_iff_not] at *
  omega

theorem better_false_iff (a b : Candidate) :
    better a b = false ↔
      a.priority < b.priority ∨ (a.priority = b.priority ∧
        (a.level < b.level ∨ (a.level = b.level ∧ b.handle ≤ a.handle))) := by
  simp only [better, Bool.or_eq_false_iff, Bool.and_eq_false_iff, decide_eq_false_iff_not]
  omega

theorem pickWinner_eq_none {l : List Candidate} : pickWinner l = none ↔ l = [] := by
  cases l with
  | nil => simp [pickWinner]
  | cons c cs =>
    simp only [pickWinner]
    cases pickWinner cs with
    | none => simp
    | some w => by_cases h : better c w = true <;> simp [h]

theorem pickWinner_mem {l : List Candidate} {w : Candidate} (h : pickWinner l = some w) :
    w ∈ l := by
  induction l generalizing w with
  | nil => simp [pickWinner] at h
  | cons c cs ih =>
    simp only [pickWinner] at h
    cases hcs : pickWinner cs with
    | none =>
      rw [hcs] at h
      simp only [Option.some.injEq] at h
      simp [h]
    | some v =>
      rw [hcs] at h
      dsimp only at h
      by_cases hb : better c v = true
      · rw [if_pos hb] at h
        simp only [Option.some.injEq] at h
        simp [h]
      · rw [if_neg hb] at h
        simp only [Option.some.injEq] at h
        subst h
        exact List.mem_cons_of_mem _ (ih hcs)

theorem pickWinner_max {l : List Candidate} {w : Candidate} (h : pickWinner l = some w) :
    ∀ c ∈ l, better c w = false := by
  induction l generalizing w with
  | nil => simp [pickWinner] at h
  | cons c cs ih =>
    simp only [pickWinner] at h
    cases hcs : pickWinner cs with
    | none =>
      rw [hcs] at h
      simp only [Option.some.injEq] at h
      subst h
      have : cs = [] := pickWinner_eq_none.mp hcs
      subst this
      intro x hx
      simp only [List.mem_singleton] at hx
      subst hx
      exact better_irrefl _
    | some v =>
      rw [hcs] at h
      dsimp only at h
      by_cases hb : better c v = true
      · rw [if_pos hb] at h
        simp only [Option.some.injEq] at h
        subst h
        intro x hx
        rcases List.mem_cons.mp hx with rfl | hx
        · exact better_irrefl _
        · exact not_better_trans (ih hcs x hx) hb
      · rw [if_neg hb] at h
        simp only [Option.some.injEq] at h
        subst h
        intro x hx
        rcases List.mem_cons.mp hx with rfl | hx
        · simpa using hb
        · exact ih hcs x hx

theorem candidateOf_eq_some {slot : Nat} {src : Source} {c : Candidate} :
    candidateOf slot src = some c ↔
      isCandidate src slot = true ∧
        ∃ l, src.levels slot = some l ∧ c = ⟨src.handle, effectivePriority src slot, l⟩ := by
  unfold candidateOf
  by_cases hc : isCandidate src slot = true
  · rw [if_pos hc]
    cases hl : src.levels slot with
    | none => simp [hc]
    | some l =>
      simp only [Option.some.injEq, hc, true_and]
      constructor
      · intro h
        exact ⟨l, rfl, h.symm⟩
      · rintro ⟨l', h1, h2⟩
        cases h1
        exact h2.symm
  · rw [if_neg hc]
    simp [hc]

theorem contributes_iff (src : Source) :
    contributes src = true ↔ src.terminated = false ∧ src.stale = false := by
  simp [contributes]

theorem isCandidate_iff (src : Source) (slot : Nat) :
    isCandidate src slot = true ↔
      src.terminated = false ∧ src.stale = false ∧ suppliesLevel src slot = true := by
  simp [isCandidate, contributes, and_assoc]

theorem isCandidate_level {src : Source} {slot : Nat} (h : isCandidate src slot = true) :
    ∃ l, src.levels slot = some l := by
  obtain ⟨_, _, hs⟩ := (isCandidate_iff src slot).mp h
  simp only [suppliesLevel, Bool.and_eq_true] at hs
  exact Option.isSome_iff_exists.mp hs.1

theorem isCandidate_sourced {src : Source} {slot : Nat} (h : isCandidate src slot = true)
    (hpap : src.using_pap = true) : src.pap slot ≠ PAP_UNSOURCED := by
  obtain ⟨_, _, hs⟩ := (isCandidate_iff src slot).mp h
  simp only [suppliesLevel, hpap, Bool.true_and, Bool.and_eq_true, Bool.not_eq_true',
    decide_eq_false_iff_not] at hs
  exact hs.2

theorem mem_candidates {reg : List Source} {slot : Nat} {c : Candidate} :
    c ∈ candidates reg slot ↔ ∃ src ∈ reg, candidateOf slot src = some c := by
  simp [candidates, List.mem_filterMap]

theorem mergeSlot_slot (cfg : Config) (reg : List Source) (slot : Nat) :
    (mergeSlot cfg reg slot).slot = slot := by
  unfold mergeSlot
  cases pickWinner (candidates reg slot) <;> rfl

theorem mem_recompute {cfg : Config} {reg : List Source} {r : SlotResult} :
    r ∈ (recompute cfg reg).slots ↔
      r.slot ∈ footprintSlots cfg.footprint ∧ r = mergeSlot cfg reg r.slot := by
  simp only [recompute, List.mem_map]
  constructor
  · rintro ⟨i, hi, rfl⟩
    rw [mergeSlot_slot]
    exact ⟨hi, rfl⟩
  · rintro ⟨h1, h2⟩
    exact ⟨r.slot, h1, h2.symm⟩

/-- The two outcomes of per-slot arbitration: no candidate and the default level, or a
winning candidate that no other candidate is preferred to. -/
theorem mergeSlot_cases (cfg : Config) (reg : List Source) (slot : Nat) :
    ((∀ src ∈ reg, isCandidate src slot = false) ∧
        mergeSlot cfg reg slot = ⟨slot, cfg.default_level, none⟩) ∨
      (∃ w ∈ reg, ∃ l, isCandidate w slot = true ∧ w.levels slot = some l ∧
        mergeSlot cfg reg slot = ⟨slot, l, some w.handle⟩ ∧
        ∀ c ∈ reg, isCandidate c slot = true → ∀ lc, c.levels slot = some lc →
          better ⟨c.handle, effectivePriority c slot, lc⟩
            ⟨w.handle, effectivePriority w slot, l⟩ = false) := by
  unfold mergeSlot
  cases hp : pickWinner (candidates reg slot) with
  | none =>
    left
    refine ⟨?_, rfl⟩
    intro src hsrc
    have hnil : candidates reg slot = [] := pickWinner_eq_none.mp hp
    by_contra hcand
    have hcand' : isCandidate src slot = true := by simpa using hcand
    obtain ⟨l, hl⟩ := isCandidate_level hcand'
    have hmem : (⟨src.handle, effectivePriority src slot, l⟩ : Candidate) ∈
        candidates reg slot :=
      mem_candidates.mpr ⟨src, hsrc, candidateOf_eq_some.mpr ⟨hcand', l, hl, rfl⟩⟩
    rw [hnil] at hmem
    exact List.not_mem_nil _ hmem
  | some w =>
    right
    obtain ⟨src, hsrc, hcw⟩ := mem_candidates.mp (pickWinner_mem hp)
    obtain ⟨hcon, l, hl, hw⟩ := candidateOf_eq_some.mp hcw
    subst hw
    refine ⟨src, hsrc, l, hcon, hl, rfl, ?_⟩
    intro c hc hcc lc hlc
    exact pickWinner_max hp _ (mem_candidates.mpr ⟨c, hc, candidateOf_eq_some.mpr
      ⟨hcc, lc, hlc, rfl⟩⟩)

theorem pickWinner_perm {l1 l2 : List Candidate} (h : l1.Perm l2) :
    pickWinner l1 = pickWinner l2 := by
  cases h1 : pickWinner l1 with
  | none =>
    have : l1 = [] := pickWinner_eq_none.mp h1
    subst this
    have : l2 = [] := List.Perm.nil_eq h |>.symm
    subst this
    rfl
  | some w1 =>
    cases h2 : pickWinner l2 with
    | none =>
      have : l2 = [] := pickWinner_eq_none.mp h2
      subst this
      have : l1 = [] := List.Perm.eq_nil h
      subst this
      simp [pickWinner] at h1
    | some w2 =>
      have a := pickWinner_max h2 w1 (h.subset (pickWinner_mem h1))
      have b := pickWinner_max h1 w2 (h.symm.subset (pickWinner_mem h2))
      rw [better_false_iff] at a b
      cases w1
      cases w2
      simp only [Option.some.injEq, Candidate.mk.injEq]
      simp only at a b
      omega

/-! ## MergerCore properties -/

/-- The winner of a slot with candidates: a candidate of the highest effective priority
and, among those, of the highest level, reported as owner together with its level. -/
theorem slot_winner (cfg : Config) (reg : List Source)
    (r : SlotResult) (hr : r ∈ (recompute cfg reg).slots)
    (hc : ∃ src ∈ reg, isCandidate src r.slot = true) :
    ∃ w ∈ reg, isCandidate w r.slot = true ∧ r.owner = some w.handle ∧
      w.levels r.slot = some r.level ∧
      (∀ c ∈ reg, isCandidate c r.slot = true →
        effectivePriority c r.slot ≤ effectivePriority w r.slot) ∧
      ∀ c ∈ reg, isCandidate c r.slot = true →
        effectivePriority c r.slot = effectivePriority w r.slot →
        ∀ l, c.levels r.slot = some l → l ≤ r.level := by
  obtain ⟨_, hrm⟩ := mem_recompute.mp hr
  rcases mergeSlot_cases cfg reg r.slot with ⟨hnone, _⟩ | ⟨w, hw, l, hcon, hl, hm, hmax⟩
  · obtain ⟨src, hsrc, h1⟩ := hc
    rw [hnone src hsrc] at h1
    exact absurd h1 (by decide)
  · rw [hm] at hrm
    have ho : r.owner = some w.handle := by rw [hrm]
    have hlev : r.level = l := by rw [hrm]
    refine ⟨w, hw, hcon, ho, by rw [hl, hlev], ?_, ?_⟩
    · intro c hcreg hcc
      obtain ⟨lc, hlc⟩ := isCandidate_level hcc
      have hb := hmax c hcreg hcc lc hlc
      rw [better_false_iff] at hb
      simp only at hb
      omega
    · intro c hcreg hcc heq lc hlc
      have hb := hmax c hcreg hcc lc hlc
      rw [better_false_iff] at hb
      simp only at hb
      omega

/-- C1 (as amended): for every registry and every slot of the snapshot that has at least
one candidate (registered, not terminated, not flagged stale, has supplied a level for
the slot, which with PAP active asks for a PAP value other than the sentinel), the owner
that `recompute` reports is such a candidate, the reported level is its level, and its
effective priority is at least that of every candidate; the effective priority of a
candidate not using PAP is its universe-level priority, and that of a candidate using
PAP is its PAP value for the slot. -/
theorem recompute_owner_has_highest_priority (cfg : Config) (reg : List Source)
    (r : SlotResult) (hr : r ∈ (recompute cfg reg).slots)
    (hc : ∃ src ∈ reg, src.terminated = false ∧ src.stale = false ∧
      suppliesLevel src r.slot = true) :
    (∃ w ∈ reg, (w.terminated = false ∧ w.stale = false ∧ suppliesLevel w r.slot = true) ∧
      r.owner = some w.handle ∧ w.levels r.slot = some r.level ∧
      ∀ c ∈ reg, c.terminated = false → c.stale = false → suppliesLevel c r.slot = true →
        effectivePriority c r.slot ≤ effectivePriority w r.slot) ∧
    ∀ c ∈ reg, c.terminated = false → c.stale = false → suppliesLevel c r.slot = true →
      (c.using_pap = false → effectivePriority c r.slot = c.universe_priority) ∧
      (c.using_pap = true → effectivePriority c r.slot = c.pap r.slot) := by
  constructor
  · obtain ⟨src, hsrc, h1, h2, h3⟩ := hc
    obtain ⟨w, hw, hwc, ho, hl, hmax, _⟩ :=
      slot_winner cfg reg r hr ⟨src, hsrc, (isCandidate_iff src r.slot).mpr ⟨h1, h2, h3⟩⟩
    exact ⟨w, hw, (isCandidate_iff w r.slot).mp hwc, ho, hl,
      fun c hcreg hct hcs hcl => hmax c hcreg ((isCandidate_iff c r.slot).mpr ⟨hct, hcs, hcl⟩)⟩
  · intro c _ hct hcs hcl
    have hcc : isCandidate c r.slot = true := (isCandidate_iff c r.slot).mpr ⟨hct, hcs, hcl⟩
    constructor
    · intro hp
      simp [effectivePriority, hp]
    · intro hp
      simp [effectivePriority, hp, isCandidate_sourced hcc hp]

/-- Witness for C1, scenario A: X (priority 100, level 50) and Y (priority 150, level 10)
on slot 1 give owner Y (handle 1) and level 10. -/
theorem recompute_owner_has_highest_priority_witness :
    scenarioA.snapshot.slots = [⟨1, 10, some 1⟩, ⟨2, 0, none⟩] ∧
    ∃ w ∈ scenarioA.registry,
      (w.terminated = false ∧ w.stale = false ∧ suppliesLevel w 1 = true) ∧
      (some 1 : Option Nat) = some w.handle ∧ w.levels 1 = some 10 ∧
      ∀ c ∈ scenarioA.registry, c.terminated = false → c.stale = false →
        suppliesLevel c 1 = true → effectivePriority c 1 ≤ effectivePriority w 1 :=
  ⟨by decide,
   (recompute_owner_has_highest_priority scenarioConfig scenarioA.registry ⟨1, 10, some 1⟩
     (by decide) (by decide)).1⟩

/-- C1 (as stated) fails, on two inputs.  In `staleScenario` source X is registered, not
terminated and has a level on slot 1 with priority 200, yet the snapshot reports Y
(handle 1, priority 100) as the owner of slot 1, because X is stale.  In the registry of
`unsourcedX` and `weakY` source X is registered, not terminated, has a level on slot 1
and effective priority 150 (its universe priority, its PAP value being the sentinel),
yet the owner is Y (handle 1, priority 100), because X has left slot 1 unsourced.  In
both, no registered, non-terminated source with a level on the slot whose effective
priority is the highest is the reported owner. -/
theorem excluded_source_outranks_reported_owner :
    ((⟨1, 10, some 1⟩ : SlotResult) ∈
        (recompute staleScenario.cfg staleScenario.registry).slots ∧
      (∃ src ∈ staleScenario.registry, src.terminated = false ∧
        (src.levels 1).isSome = true) ∧
      ¬ ∃ w ∈ staleScenario.registry, w.terminated = false ∧ (w.levels 1).isSome = true ∧
          (some 1 : Option Nat) = some w.handle ∧
          ∀ c ∈ staleScenario.registry, c.terminated = false → (c.levels 1).isSome = true →
            effectivePriority c 1 ≤ effectivePriority w 1) ∧
    ((⟨1, 50, some 1⟩ : SlotResult) ∈ (recompute scenarioConfig [unsourcedX, weakY]).slots ∧
      (∃ src ∈ [unsourcedX, weakY], src.terminated = false ∧ (src.levels 1).isSome = true) ∧
      ¬ ∃ w ∈ [unsourcedX, weakY], w.terminated = false ∧ (w.levels 1).isSome = true ∧
          (some 1 : Option Nat) = some w.handle ∧
          ∀ c ∈ [unsourcedX, weakY], c.terminated = false → (c.levels 1).isSome = true →
            effectivePriority c 1 ≤ effectivePriority w 1) := by
  decide

/-- C2: for every slot of the snapshot with candidates, the owner that `recompute` reports
is a candidate of the highest effective priority, no candidate tied with it on that
priority has a greater level, and the slot's output level is the owner's level
(highest takes precedence). -/
theorem recompute_tie_broken_by_highest_level (cfg : Config) (reg : List Source)
    (r : SlotResult) (hr : r ∈ (recompute cfg reg).slots)
    (hc : ∃ src ∈ reg, isCandidate src r.slot = true) :
    ∃ w ∈ reg, isCandidate w r.slot = true ∧ r.owner = some w.handle ∧
      w.levels r.slot = some r.level ∧
      (∀ c ∈ reg, isCandidate c r.slot = true →
        effectivePriority c r.slot ≤ effectivePriority w r.slot) ∧
      ∀ c ∈ reg, isCandidate c r.slot = true →
        effectivePriority c r.slot = effectivePriority w r.slot →
        ∀ l, c.levels r.slot = some l → l ≤ r.level :=
  slot_winner cfg reg r hr hc

/-- Witness for C2, scenario B: X (priority 100, level 200) and Y (priority 100, level 50)
on slot 1 give owner X (handle 0), level 200; after X is removed the next snapshot gives
owner Y (handle 1), level 50. -/
theorem recompute_tie_broken_by_highest_level_witness :
    scenarioB.snapshot.slots = [⟨1, 200, some 0⟩, ⟨2, 0, none⟩] ∧
    (removeSource scenarioB 0).session.snapshot.slots = [⟨1, 50, some 1⟩, ⟨2, 0, none⟩] ∧
    ∃ w ∈ scenarioB.registry, isCandidate w 1 = true ∧ (some 0 : Option Nat) = some w.handle ∧
      w.levels 1 = some 200 ∧
      (∀ c ∈ scenarioB.registry, isCandidate c 1 = true →
        effectivePriority c 1 ≤ effectivePriority w 1) ∧
      ∀ c ∈ scenarioB.registry, isCandidate c 1 = true →
        effectivePriority c 1 = effectivePriority w 1 →
        ∀ l, c.levels 1 = some l → l ≤ 200 :=
  ⟨by decide, by decide,
   recompute_tie_broken_by_highest_level scenarioConfig scenarioB.registry ⟨1, 200, some 0⟩
     (by decide) (by decide)⟩

theorem eq_of_handle_eq {reg : List Source} (hnd : (reg.map Source.handle).Nodup)
    {a b : Source} (ha : a ∈ reg) (hb : b ∈ reg) (h : a.handle = b.handle) : a = b :=
  List.inj_on_of_nodup_map hnd ha hb h

/-- C3: in every registry (handles distinct) a source that has PAP active and whose PAP
value for a slot is the unsourced sentinel is not the owner of that slot in the snapshot
returned by `recompute`, whatever its universe-level priority. -/
theorem unsourced_pap_never_owner (cfg : Config) (reg : List Source)
    (hnd : (reg.map Source.handle).Nodup) (src : Source) (hsrc : src ∈ reg)
    (r : SlotResult) (hr : r ∈ (recompute cfg reg).slots)
    (hpap : src.using_pap = true) (hun : src.pap r.slot = PAP_UNSOURCED) :
    r.owner ≠ some src.handle := by
  intro ho
  obtain ⟨_, hrm⟩ := mem_recompute.mp hr
  rcases mergeSlot_cases cfg reg r.slot with ⟨_, hm⟩ | ⟨w, hw, l, hcon, _, hm, _⟩
  · rw [hrm, hm] at ho
    exact absurd ho (by simp)
  · rw [hrm, hm] at ho
    have hws : w = src := eq_of_handle_eq hnd hw hsrc (Option.some.inj ho)
    subst hws
    exact isCandidate_sourced hcon hpap hun

/-- Witness for C3: X has PAP active with slot 1 unsourced and the highest universe
priority (150); Y has priority 100.  The snapshot gives slot 1 to Y (handle 1), not to
X (handle 0). -/
theorem unsourced_pap_never_owner_witness :
    unsourcedX.universe_priority = 150 ∧ weakY.universe_priority = 100 ∧
    (recompute scenarioConfig [unsourcedX, weakY]).slots = [⟨1, 50, some 1⟩, ⟨2, 0, none⟩] ∧
    (some 1 : Option Nat) ≠ some unsourcedX.handle :=
  ⟨rfl, rfl, by decide,
   unsourced_pap_never_owner scenarioConfig [unsourcedX, weakY] (by decide) unsourcedX
     (List.mem_cons_self _ _) ⟨1, 50, some 1⟩ (by decide) rfl rfl⟩

/-- C6: `recompute` depends on the contents of the registry only: two registries holding
the same sources, in whatever order they are stored, give the same snapshot, in every
slot's owner and level, also where several candidates tie on priority and level. -/
theorem recompute_deterministic (cfg : Config) (reg1 reg2 : List Source)
    (h : reg1.Perm reg2) : recompute cfg reg1 = recompute cfg reg2 := by
  have hslot : ∀ slot, mergeSlot cfg reg1 slot = mergeSlot cfg reg2 slot := by
    intro slot
    unfold mergeSlot
    rw [pickWinner_perm (show (candidates reg1 slot).Perm (candidates reg2 slot) from
      List.Perm.filterMap _ h)]
  have hcount : (reg1.filter contributes).length = (reg2.filter contributes).length :=
    (List.Perm.filter _ h).length_eq
  unfold recompute
  rw [hcount, show mergeSlot cfg reg1 = mergeSlot cfg reg2 from funext hslot]

/-- Witness for C6: X and Y tie on slot 1 in priority and level; stored in either order
the snapshot is the same, with the lower handle (X, handle 0) as owner. -/
theorem recompute_deterministic_witness :
    (recompute scenarioConfig tieScenario.registry).slots = [⟨1, 50, some 0⟩, ⟨2, 0, none⟩] ∧
    recompute scenarioConfig tieScenario.registry.reverse
      = recompute scenarioConfig tieScenario.registry :=
  ⟨by decide,
   recompute_deterministic scenarioConfig tieScenario.registry.reverse tieScenario.registry
     (List.reverse_perm _)⟩

/-! ## Lemmas on the registry operations -/

theorem mem_modify {reg : List Source} {h : Nat} {f : Source → Source} {y : Source} :
    y ∈ modify reg h f ↔ ∃ x ∈ reg, y = if x.handle = h then f x else x := by
  simp only [modify, List.mem_map]
  constructor
  · rintro ⟨x, hx, rfl⟩
    exact ⟨x, hx, rfl⟩
  · rintro ⟨x, hx, rfl⟩
    exact ⟨x, hx, rfl⟩

theorem map_handle_modify (reg : List Source) (h : Nat) (f : Source → Source)
    (hf : ∀ s, (f s).handle = s.handle) :
    (modify reg h f).map Source.handle = reg.map Source.handle := by
  simp only [modify, List.map_map]
  apply List.map_congr_left
  intro x _
  simp only [Function.comp]
  split
  · exact hf x
  · rfl

theorem length_modify (reg : List Source) (h : Nat) (f : Source → Source) :
    (modify reg h f).length = reg.length := by
  simp [modify]

theorem hasHandle_iff {reg : List Source} {h : Nat} :
    hasHandle reg h = true ↔ h ∈ reg.map Source.handle := by
  simp [hasHandle, List.any_eq_true]

theorem hasHandle_modify (reg : List Source) (h h' : Nat) (f : Source → Source)
    (hf : ∀ s, (f s).handle = s.handle) :
    hasHandle (modify reg h f) h' = hasHandle reg h' := by
  rw [Bool.eq_iff_iff, hasHandle_iff, hasHandle_iff, map_handle_modify reg h f hf]

theorem modify_modify (reg : List Source) (h : Nat) (f g : Source → Source)
    (hf : ∀ s, (f s).handle = s.handle) :
    modify (modify reg h f) h g = modify reg h (fun s => g (f s)) := by
  simp only [modify, List.map_map]
  apply List.map_congr_left
  intro x _
  simp only [Function.comp]
  by_cases hx : x.handle = h
  · simp [hx, hf x]
  · simp [hx]

theorem appliedPap_handle (cfg : Config) (u : Update) (s : Source) :
    (appliedPap cfg u s).handle = s.handle := by
  unfold appliedPap
  split
  · split <;> rfl
  · rfl

theorem update_levels_eq {fp : Footprint} {reg : List Source} {h : Nat} (start : Nat)
    (vals : List Nat) (hh : hasHandle reg h = true) :
    update_levels fp reg h start vals =
      if (rangeInFootprint fp start vals.length &&
          vals.all (fun v => decide (v ≤ LEVEL_MAX))) = true then
        Except.ok (modify reg h (fun s =>
          { s with levels := writeRange s.levels start (vals.map some) }))
      else Except.error Reason.out_of_range := by
  unfold update_levels
  rw [if_neg (by simp [hh])]
  by_cases h1 : (rangeInFootprint fp start vals.length &&
      vals.all (fun v => decide (v ≤ LEVEL_MAX))) = true
  · rw [if_neg (by simp [h1]), if_pos h1]
  · rw [if_pos (by simpa using h1), if_neg h1]

theorem update_priority_eq {reg : List Source} {h : Nat} (p : Nat)
    (hh : hasHandle reg h = true) :
    update_priority reg h p =
      if priorityValid p = true then
        Except.ok (modify reg h (fun s => { s with universe_priority := p }))
      else Except.error Reason.out_of_range := by
  unfold update_priority
  rw [if_neg (by simp [hh])]
  by_cases h1 : priorityValid p = true
  · rw [if_neg (by simp [h1]), if_pos h1]
  · rw [if_pos (by simpa using h1), if_neg h1]

theorem update_pap_eq {fp : Footprint} {reg : List Source} {h : Nat} (start : Nat)
    (pap : Option (List Nat)) (hh : hasHandle reg h = true) :
    update_pap fp reg h start pap =
      match pap with
      | none => Except.ok (modify reg h (fun s =>
          { s with using_pap := false, pap := fun _ => PAP_UNSOURCED }))
      | some vals =>
        if (rangeInFootprint fp start vals.length && vals.all papValid) = true then
          Except.ok (modify reg h (fun s =>
            { s with using_pap := true, pap := writeRange s.pap start vals }))
        else Except.error Reason.out_of_range := by
  unfold update_pap
  rw [if_neg (by simp [hh])]
  cases pap with
  | none => rfl
  | some vals =>
    dsimp only
    by_cases h1 : (rangeInFootprint fp start vals.length && vals.all papValid) = true
    · rw [if_neg (by simp [h1]), if_pos h1]
    · rw [if_pos (by simpa using h1), if_neg h1]

theorem record_seq_eq {reg : List Source} {h : Nat} (seq : Nat) (hh : hasHandle reg h = true) :
    record_seq reg h seq = Except.ok (modify reg h (fun s => { s with seq := seq })) := by
  unfold record_seq
  rw [if_pos hh]

theorem touch_eq {reg : List Source} {h : Nat} (now : Nat) (hh : hasHandle reg h = true) :
    touch reg h now =
      Except.ok (modify reg h (fun s => { s with last_update := now, stale := false })) := by
  unfold touch
  rw [if_pos hh]

theorem applyUpdate_invalid_handle (cfg : Config) (reg : List Source) (h : Nat) (u : Update)
    (now : Nat) (hh : hasHandle reg h = false) :
    applyUpdate cfg reg h u now = Except.error Reason.invalid_handle := by
  unfold applyUpdate update_levels
  rw [if_pos hh]
  rfl

/-- The registry operations an update is routed to succeed exactly on a registered
handle and a valid update, and then rewrite the entry of that handle to `appliedTo`. -/
theorem applyUpdate_eq (cfg : Config) (reg : List Source) (h : Nat) (u : Update) (now : Nat) :
    applyUpdate cfg reg h u now =
      if hasHandle reg h = true then
        if updateValid cfg u = true then Except.ok (modify reg h (appliedTo cfg u now))
        else Except.error Reason.out_of_range
      else Except.error Reason.invalid_handle := by
  by_cases hh : hasHandle reg h = true
  swap
  · rw [if_neg hh]
    exact applyUpdate_invalid_handle cfg reg h u now (by simpa using hh)
  rw [if_pos hh]
  unfold applyUpdate
  rw [update_levels_eq _ _ hh]
  by_cases h1 : (rangeInFootprint cfg.footprint u.start_address u.levels.length &&
      u.levels.all (fun v => decide (v ≤ LEVEL_MAX))) = true
  swap
  · rw [if_neg h1, if_neg (by simp only [updateValid, h1]; simp)]
    rfl
  rw [if_pos h1]
  simp only [bind, Except.bind]
  have hh1 : hasHandle (modify reg h (fun s =>
      { s with levels := writeRange s.levels u.start_address (u.levels.map some) })) h = true := by
    rw [hasHandle_modify _ _ _ _ (by intro _; rfl)]; exact hh
  rw [update_priority_eq _ hh1, modify_modify _ _ _ _ (by intro _; rfl)]
  by_cases h2 : priorityValid u.priority = true
  swap
  · rw [if_neg h2, if_neg (by simp only [updateValid, h1, h2]; simp)]
  rw [if_pos h2]
  dsimp only
  have hh2 : ∀ f : Source → Source, (∀ s, (f s).handle = s.handle) →
      hasHandle (modify reg h f) h = true := by
    intro f hf
    rw [hasHandle_modify _ _ _ _ hf]; exact hh
  by_cases hp : cfg.use_pap = true
  · rw [if_pos hp, update_pap_eq _ _ (hh2 _ (by intro _; rfl)),
      ]
    cases hpap : u.pap with
    | none =>
      dsimp only
      rw [modify_modify _ _ _ _ (by intro _; rfl), record_seq_eq _ (hh2 _ (by intro _; rfl))]
      dsimp only
      rw [modify_modify _ _ _ _ (by intro _; rfl), touch_eq _ (hh2 _ (by intro _; rfl)),
        modify_modify _ _ _ _ (by intro _; rfl),
        if_pos (by simp only [updateValid, h1, h2, hp, hpap]; simp)]
      congr 2
      funext s
      simp only [appliedTo, appliedPap, hp, hpap, if_true]
    | some vals =>
      dsimp only
      by_cases h3 : (rangeInFootprint cfg.footprint u.start_address vals.length &&
          vals.all papValid) = true
      · rw [if_pos h3]
        dsimp only
        rw [modify_modify _ _ _ _ (by intro _; rfl), record_seq_eq _ (hh2 _ (by intro _; rfl))]
        dsimp only
        rw [modify_modify _ _ _ _ (by intro _; rfl), touch_eq _ (hh2 _ (by intro _; rfl)),
          modify_modify _ _ _ _ (by intro _; rfl),
          if_pos (by simp only [updateValid, h1, h2, hp, hpap, h3]; simp)]
        congr 2
        funext s
        simp only [appliedTo, appliedPap, hp, hpap, if_true]
      · rw [if_neg h3, if_neg (by simp only [updateValid, h1, h2, hp, hpap, h3]; simp)]
  · rw [if_neg hp]
    rw [record_seq_eq _ (hh2 _ (by intro _; rfl))]
    dsimp only
    rw [modify_modify _ _ _ _ (by intro _; rfl), touch_eq _ (hh2 _ (by intro _; rfl)),
      modify_modify _ _ _ _ (by intro _; rfl),
      if_pos (by simp only [updateValid, h1, h2, hp]; simp)]
    congr 2
    funext s
    simp only [appliedTo, appliedPap, hp]
    rfl

/-! ## Lemmas on the session operations -/

theorem findByCid_some {reg : List Source} {cid : Nat} {src : Source}
    (h : findByCid reg cid = some src) : src ∈ reg ∧ src.cid = cid := by
  unfold findByCid at h
  refine ⟨List.mem_of_find?_eq_some h, ?_⟩
  simpa using List.find?_some h

theorem hasHandle_of_mem {reg : List Source} {src : Source} (h : src ∈ reg) :
    hasHandle reg src.handle = true :=
  hasHandle_iff.mpr (List.mem_map_of_mem _ h)

theorem appliedTo_handle (cfg : Config) (u : Update) (now : Nat) (s : Source) :
    (appliedTo cfg u now s).handle = s.handle := by
  simp only [appliedTo]
  exact appliedPap_handle _ _ _

/-- Closed form of `ingest`: what it answers and what it commits in each case. -/
theorem ingest_eq (s : Session) (cid : Nat) (name : String) (u : Update) (now : Nat) :
    ingest s cid name u now =
      match findByCid s.registry cid with
      | none =>
        if atCapacity s.cfg.source_count_max s.registry = true then
          reject s Reason.capacity_exceeded [Event.source_limit_exceeded]
        else if updateValid s.cfg u = true then
          commit s (modify (s.registry ++ [newSource s.next_handle cid name u.seq now])
            s.next_handle (appliedTo s.cfg u now)) (s.next_handle + 1) []
        else reject s Reason.out_of_range []
      | some src =>
        if seqAhead s.cfg.seq_modulus src.seq u.seq = true then
          if updateValid s.cfg u = true then
            commit s (modify s.registry src.handle (appliedTo s.cfg u now)) s.next_handle []
          else reject s Reason.out_of_range []
        else reject s Reason.out_of_sequence [] := by
  unfold ingest
  cases hf : findByCid s.registry cid with
  | none =>
    dsimp only
    unfold add_source
    by_cases hcap : atCapacity s.cfg.source_count_max s.registry = true
    · rw [if_pos hcap, if_pos hcap]
    · rw [if_neg hcap, if_neg hcap]
      dsimp only
      have hh : hasHandle (s.registry ++ [newSource s.next_handle cid name u.seq now])
          s.next_handle = true := by
        simp [hasHandle, newSource]
      rw [applyUpdate_eq, if_pos hh]
      by_cases hv : updateValid s.cfg u = true
      · rw [if_pos hv, if_pos hv]
      · rw [if_neg hv, if_neg hv]
  | some src =>
    dsimp only
    by_cases ha : seqAhead s.cfg.seq_modulus src.seq u.seq = true
    · rw [if_pos ha, if_pos ha, applyUpdate_eq, if_pos (hasHandle_of_mem (findByCid_some hf).1)]
      by_cases hv : updateValid s.cfg u = true
      · rw [if_pos hv, if_pos hv]
      · rw [if_neg hv, if_neg hv]
    · rw [if_neg ha, if_neg ha]

theorem wellFormed_create {cfg : Config} {now : Nat} {s : Session} {evs : List Event}
    (h : create cfg now = some (s, evs)) : WellFormed s := by
  unfold create at h
  split at h
  · simp only [Option.some.injEq, Prod.mk.injEq] at h
    obtain ⟨rfl, _⟩ := h
    exact ⟨rfl, List.nodup_nil, fun x hx => absurd hx (List.not_mem_nil x),
      fun m _ => Nat.zero_le m⟩
  · exact absurd h (by simp)

theorem wellFormed_commit_sublist {s : Session} (hwf : WellFormed s) {reg : List Source}
    (next : Nat) (evs : List Event)
    (hsub : (reg.map Source.handle).Sublist (s.registry.map Source.handle))
    (hn : s.next_handle ≤ next) : WellFormed (commit s reg next evs).session := by
  refine ⟨rfl, hwf.handles_nodup.sublist hsub, ?_, ?_⟩
  · intro x hx
    have hmem : x.handle ∈ s.registry.map Source.handle :=
      hsub.subset (List.mem_map_of_mem _ hx)
    obtain ⟨y, hy, hxy⟩ := List.mem_map.mp hmem
    have := hwf.handles_fresh y hy
    simp only [commit]
    omega
  · intro m hm
    have h1 := hwf.within_capacity m hm
    have h2 := hsub.length_le
    simp only [List.length_map] at h2
    simp only [commit]
    omega

theorem map_handle_filter_sublist (reg : List Source) (p : Source → Bool) :
    ((reg.filter p).map Source.handle).Sublist (reg.map Source.handle) :=
  (List.filter_sublist reg).map _

theorem markStale_handle (cfg : Config) (t : Nat) (x : Source) :
    (markStale cfg t x).handle = x.handle := by
  unfold markStale
  split <;> rfl

theorem map_handle_markStale (cfg : Config) (t : Nat) (reg : List Source) :
    (reg.map (markStale cfg t)).map Source.handle = reg.map Source.handle := by
  rw [List.map_map]
  apply List.map_congr_left
  intro x _
  exact markStale_handle cfg t x

theorem wellFormed_ingest {s : Session} (hwf : WellFormed s) (cid : Nat) (name : String)
    (u : Update) (now : Nat) : WellFormed (ingest s cid name u now).session := by
  rw [ingest_eq]
  cases hf : findByCid s.registry cid with
  | none =>
    dsimp only
    split
    · exact hwf
    · rename_i hcap
      split
      · have hmap : (modify (s.registry ++ [newSource s.next_handle cid name u.seq now])
            s.next_handle (appliedTo s.cfg u now)).map Source.handle
            = s.registry.map Source.handle ++ [s.next_handle] := by
          rw [map_handle_modify _ _ _ (appliedTo_handle _ _ _)]
          simp [newSource]
        refine ⟨rfl, ?_, ?_, ?_⟩
        · show (List.map Source.handle (modify _ _ _)).Nodup
          rw [hmap]
          refine List.Nodup.append hwf.handles_nodup (List.nodup_singleton _) ?_
          intro a ha hb
          obtain ⟨y, hy, rfl⟩ := List.mem_map.mp ha
          have := hwf.handles_fresh y hy
          simp only [List.mem_singleton] at hb
          omega
        · intro x hx
          have hmem : x.handle ∈ s.registry.map Source.handle ++ [s.next_handle] := by
            rw [← hmap]
            exact List.mem_map_of_mem _ hx
          simp only [commit]
          rcases List.mem_append.mp hmem with h1 | h1
          · obtain ⟨y, hy, hxy⟩ := List.mem_map.mp h1
            have := hwf.handles_fresh y hy
            omega
          · simp only [List.mem_singleton] at h1
            omega
        · intro m hm
          simp only [commit] at hm ⊢
          rw [length_modify]
          simp only [atCapacity, hm, decide_eq_true_eq] at hcap
          simp only [List.length_append, List.length_singleton]
          omega
      · exact hwf
  | some src =>
    dsimp only
    split
    · split
      · exact wellFormed_commit_sublist hwf _ _
          (by rw [map_handle_modify _ _ _ (appliedTo_handle _ _ _)]) (Nat.le_refl _)
      · exact hwf
    · exact hwf

theorem wellFormed_removeSource {s : Session} (hwf : WellFormed s) (h : Nat) :
    WellFormed (removeSource s h).session := by
  unfold removeSource remove_source
  by_cases hh : hasHandle s.registry h = true
  · rw [if_pos hh]
    exact wellFormed_commit_sublist hwf _ _ (map_handle_filter_sublist _ _) (Nat.le_refl _)
  · rw [if_neg hh]
    exact hwf

theorem wellFormed_markTerminated {s : Session} (hwf : WellFormed s) (h : Nat) :
    WellFormed (markTerminated s h).session := by
  unfold markTerminated mark_terminated
  by_cases hh : hasHandle s.registry h = true
  · rw [if_pos hh]
    exact wellFormed_commit_sublist hwf _ _
      (by rw [map_handle_modify _ _ _ (by intro _; rfl)]) (Nat.le_refl _)
  · rw [if_neg hh]
    exact hwf

theorem wellFormed_changeFootprint {s : Session} (hwf : WellFormed s) (fp : Footprint)
    (now : Nat) : WellFormed (changeFootprint s fp now).session := by
  unfold changeFootprint
  split
  · exact ⟨rfl, List.nodup_nil, fun x hx => absurd hx (List.not_mem_nil x),
      fun m _ => Nat.zero_le _⟩
  · exact hwf

theorem sweep_registry_sublist (s : Session) (t : Nat) :
    ((sweep s t).session.registry.map Source.handle).Sublist
      (s.registry.map Source.handle) := by
  simp only [sweep]
  rw [map_handle_markStale]
  split
  · exact List.Sublist.refl _
  · exact map_handle_filter_sublist _ _

theorem wellFormed_sweep {s : Session} (hwf : WellFormed s) (t : Nat) :
    WellFormed (sweep s t).session := by
  have hsub := sweep_registry_sublist s t
  refine ⟨rfl, hwf.handles_nodup.sublist hsub, ?_, ?_⟩
  · intro x hx
    obtain ⟨y, hy, hxy⟩ := List.mem_map.mp (hsub.subset (List.mem_map_of_mem _ hx))
    have := hwf.handles_fresh y hy
    have hn : (sweep s t).session.next_handle = s.next_handle := rfl
    omega
  · intro m hm
    have h1 := hwf.within_capacity m hm
    have h2 := hsub.length_le
    simp only [List.length_map] at h2
    omega

theorem wellFormed_step {s : Session} (hwf : WellFormed s) (op : Op) :
    WellFormed (step s op).session := by
  cases op with
  | ingest cid name u now => exact wellFormed_ingest hwf cid name u now
  | remove_source h => exact wellFormed_removeSource hwf h
  | mark_terminated h => exact wellFormed_markTerminated hwf h
  | sweep t => exact wellFormed_sweep hwf t
  | change_footprint fp now => exact wellFormed_changeFootprint hwf fp now

theorem wellFormed_run {s : Session} (hwf : WellFormed s) (ops : List Op) :
    WellFormed (run s ops).1 := by
  induction ops generalizing s with
  | nil => exact hwf
  | cons op ops ih => exact ih (wellFormed_step hwf op)

theorem wellFormed_of_reachable {s : Session} (h : Reachable s) : WellFormed s := by
  obtain ⟨cfg, now, s0, evs, ops, hc, rfl⟩ := h
  exact wellFormed_run (wellFormed_create hc) ops

/-! ## Session invariants -/

theorem owner_contributes {cfg : Config} {reg : List Source} {r : SlotResult}
    (hr : r ∈ (recompute cfg reg).slots) :
    r.owner = none ∨ ∃ src ∈ reg, r.owner = some src.handle ∧ contributes src = true := by
  obtain ⟨_, hrm⟩ := mem_recompute.mp hr
  rcases mergeSlot_cases cfg reg r.slot with ⟨_, hm⟩ | ⟨w, hw, l, hcon, _, hm, _⟩
  · left
    rw [hrm, hm]
  · right
    obtain ⟨h1, h2, _⟩ := (isCandidate_iff w r.slot).mp hcon
    exact ⟨w, hw, by rw [hrm, hm], (contributes_iff w).mpr ⟨h1, h2⟩⟩

/-- C4: in every state reachable from a created session by any sequence of operations
(ingest, remove_source, sweep, and also mark_terminated and change_footprint), every
slot's owner in the merged snapshot is either none or the handle of a source that is
present in the registry and not terminated. -/
theorem snapshot_owner_registered (s : Session) (hs : Reachable s) (r : SlotResult)
    (hr : r ∈ s.snapshot.slots) :
    r.owner = none ∨ ∃ src ∈ s.registry, r.owner = some src.handle ∧ src.terminated = false := by
  rw [(wellFormed_of_reachable hs).snapshot_eq] at hr
  rcases owner_contributes hr with h | ⟨src, hsrc, ho, hc⟩
  · exact Or.inl h
  · exact Or.inr ⟨src, hsrc, ho, ((contributes_iff src).mp hc).1⟩

/-- Witness for C4: `staleScenario` is reachable (two ingests and a sweep); the owner of
its slot 1 is a registered, non-terminated source and slot 2 has no owner. -/
theorem snapshot_owner_registered_witness :
    staleScenario.snapshot.slots = [⟨1, 10, some 1⟩, ⟨2, 0, none⟩] ∧
    ((some 1 : Option Nat) = none ∨
      ∃ src ∈ staleScenario.registry, (some 1 : Option Nat) = some src.handle ∧
        src.terminated = false) :=
  ⟨by decide,
   snapshot_owner_registered staleScenario
     ⟨scenarioConfig, 0, scenarioSession, [Event.sampling_started], _, rfl, rfl⟩
     ⟨1, 10, some 1⟩ (by decide)⟩

/-- C5: when the registry holds the configured maximum of sources, a further `add_source`
is rejected with CapacityExceeded; the `ingest` that attempted it raises exactly one
limit-exceeded signal and leaves the session, hence the source count and every
accepted source's data, unchanged (whether the sampling period is closed or open); and
in every reachable state the source count is at most the configured maximum. -/
theorem add_source_beyond_capacity_rejected (s : Session) (m : Nat)
    (hmax : s.cfg.source_count_max = some m) (hfull : s.registry.length = m)
    (cid : Nat) (name : String) (u : Update) (now : Nat)
    (hnew : findByCid s.registry cid = none) :
    (add_source s.cfg.source_count_max s.registry s.next_handle cid name u.seq now
        = Except.error Reason.capacity_exceeded ∧
      (ingest s cid name u now).result = Result.rejected Reason.capacity_exceeded ∧
      (ingest s cid name u now).events = [Event.source_limit_exceeded] ∧
      (ingest s cid name u now).session = s) ∧
    ∀ s' m', Reachable s' → s'.cfg.source_count_max = some m' → s'.registry.length ≤ m' := by
  have hcap : atCapacity s.cfg.source_count_max s.registry = true := by
    simp [atCapacity, hmax, hfull]
  refine ⟨⟨?_, ?_, ?_, ?_⟩, ?_⟩
  · unfold add_source
    rw [if_pos hcap]
  · rw [ingest_eq, hnew]
    dsimp only
    rw [if_pos hcap]
    rfl
  · rw [ingest_eq, hnew]
    dsimp only
    rw [if_pos hcap]
    rfl
  · rw [ingest_eq, hnew]
    dsimp only
    rw [if_pos hcap]
    rfl
  · intro s' m' hs' hm'
    exact (wellFormed_of_reachable hs').within_capacity m' hm'

/-- Witness for C5, scenario C: with at most one source and the sampling period closed,
the `add_source` for a second source Y is rejected with CapacityExceeded, one
limit-exceeded event is raised, and the session, with X's data, is unchanged. -/
theorem add_source_beyond_capacity_rejected_witness :
    scenarioC.sampling_open = false ∧ scenarioC.registry.length = 1 ∧
    (add_source scenarioC.cfg.source_count_max scenarioC.registry scenarioC.next_handle 2 "Y"
        (slotOneUpdate 0 150 10).seq 1600 = Except.error Reason.capacity_exceeded ∧
      (ingest scenarioC 2 "Y" (slotOneUpdate 0 150 10) 1600).result
        = Result.rejected Reason.capacity_exceeded ∧
      (ingest scenarioC 2 "Y" (slotOneUpdate 0 150 10) 1600).events
        = [Event.source_limit_exceeded] ∧
      (ingest scenarioC 2 "Y" (slotOneUpdate 0 150 10) 1600).session = scenarioC) ∧
    ∀ s' m', Reachable s' → s'.cfg.source_count_max = some m' → s'.registry.length ≤ m' :=
  ⟨by decide, by decide,
   add_source_beyond_capacity_rejected scenarioC 1 rfl (by decide) 2 "Y"
     (slotOneUpdate 0 150 10) 1600 rfl⟩

theorem appliedPap_cid (cfg : Config) (u : Update) (s : Source) :
    (appliedPap cfg u s).cid = s.cid := by
  unfold appliedPap
  split
  · split <;> rfl
  · rfl

theorem appliedTo_cid (cfg : Config) (u : Update) (now : Nat) (s : Source) :
    (appliedTo cfg u now s).cid = s.cid := by
  simp only [appliedTo]
  exact appliedPap_cid _ _ _

theorem markStale_cid (cfg : Config) (t : Nat) (x : Source) :
    (markStale cfg t x).cid = x.cid := by
  unfold markStale
  split <;> rfl

theorem markStale_stale {cfg : Config} {t : Nat} {x : Source} (h : x.stale = true) :
    (markStale cfg t x).stale = true := by
  unfold markStale
  split
  · rfl
  · exact h

theorem mem_sweep_registry {s : Session} {t : Nat} {y : Source}
    (hy : y ∈ (sweep s t).session.registry) :
    ∃ x ∈ s.registry, y = markStale s.cfg t x := by
  simp only [sweep, List.mem_map] at hy
  obtain ⟨x, hx, rfl⟩ := hy
  refine ⟨x, ?_, rfl⟩
  split at hx
  · exact hx
  · exact List.mem_of_mem_filter hx

/-- A stale source that sends no update stays stale, under its handle and identity,
through any single operation, for as long as it is registered. -/
theorem stale_kept_step {s : Session} {h c : Nat} (hfresh : h < s.next_handle)
    (hst : ∀ x ∈ s.registry, x.handle = h → x.stale = true ∧ x.cid = c) (op : Op)
    (hop : updatesSource c op = false) :
    h < (step s op).session.next_handle ∧
      ∀ x ∈ (step s op).session.registry, x.handle = h → x.stale = true ∧ x.cid = c := by
  cases op with
  | ingest cid name u now =>
    have hne : cid ≠ c := by simpa [updatesSource] using hop
    simp only [step]
    rw [ingest_eq]
    cases hf : findByCid s.registry cid with
    | none =>
      dsimp only
      split
      · exact ⟨hfresh, hst⟩
      · split
        · refine ⟨Nat.lt_succ_of_lt hfresh, ?_⟩
          intro y hy hyh
          simp only [commit] at hy
          obtain ⟨x, hx, rfl⟩ := mem_modify.mp hy
          have hxh : x.handle = h := by
            split at hyh
            · rw [appliedTo_handle] at hyh; exact hyh
            · exact hyh
          rcases List.mem_append.mp hx with hx | hx
          · rw [if_neg (by omega)]
            exact hst x hx hxh
          · simp only [List.mem_singleton] at hx
            subst hx
            simp only [newSource] at hxh
            omega
        · exact ⟨hfresh, hst⟩
    | some src =>
      dsimp only
      obtain ⟨hsrc, hcid⟩ := findByCid_some hf
      split
      · split
        · refine ⟨hfresh, ?_⟩
          intro y hy hyh
          simp only [commit] at hy
          obtain ⟨x, hx, rfl⟩ := mem_modify.mp hy
          have hxh : x.handle = h := by
            split at hyh
            · rw [appliedTo_handle] at hyh; exact hyh
            · exact hyh
          have hxs : x.handle ≠ src.handle := by
            intro heq
            have := (hst src hsrc (by rw [← heq, hxh])).2
            exact hne (by rw [← hcid, this])
          rw [if_neg hxs]
          exact hst x hx hxh
        · exact ⟨hfresh, hst⟩
      · exact ⟨hfresh, hst⟩
  | remove_source h' =>
    simp only [step, removeSource, remove_source]
    by_cases hh : hasHandle s.registry h' = true
    · rw [if_pos hh]
      exact ⟨hfresh, fun x hx hxh => hst x (List.mem_of_mem_filter hx) hxh⟩
    · rw [if_neg hh]
      exact ⟨hfresh, hst⟩
  | mark_terminated h' =>
    simp only [step, markTerminated, mark_terminated]
    by_cases hh : hasHandle s.registry h' = true
    · rw [if_pos hh]
      refine ⟨hfresh, ?_⟩
      intro y hy hyh
      simp only [commit] at hy
      obtain ⟨x, hx, rfl⟩ := mem_modify.mp hy
      split at hyh
      · rename_i hxx
        rw [if_pos hxx]
        exact hst x hx hyh
      · rename_i hxx
        rw [if_neg hxx]
        exact hst x hx hyh
    · rw [if_neg hh]
      exact ⟨hfresh, hst⟩
  | sweep t =>
    refine ⟨hfresh, ?_⟩
    intro y hy hyh
    simp only [step] at hy
    obtain ⟨x, hx, rfl⟩ := mem_sweep_registry hy
    rw [markStale_handle] at hyh
    obtain ⟨h1, h2⟩ := hst x hx hyh
    exact ⟨markStale_stale h1, by rw [markStale_cid]; exact h2⟩
  | change_footprint fp now =>
    simp only [step, changeFootprint]
    split
    · exact ⟨hfresh, fun x hx => absurd hx (List.not_mem_nil x)⟩
    · exact ⟨hfresh, hst⟩

theorem stale_kept_run {s : Session} {h c : Nat} (hfresh : h < s.next_handle)
    (hst : ∀ x ∈ s.registry, x.handle = h → x.stale = true ∧ x.cid = c) (ops : List Op)
    (hops : ∀ op ∈ ops, updatesSource c op = false) :
    ∀ x ∈ (run s ops).1.registry, x.handle = h → x.stale = true := by
  induction ops generalizing s with
  | nil => exact fun x hx hxh => (hst x hx hxh).1
  | cons op ops ih =>
    obtain ⟨h1, h2⟩ := stale_kept_step hfresh hst op (hops op (List.mem_cons_self _ _))
    exact ih h1 h2 (fun o ho => hops o (List.mem_cons_of_mem _ ho))

/-- C8: a source that the liveness sweep has flagged stale owns no slot in the snapshot of
the state in which it is stale, nor in the snapshot after any further operations
(sweeps, removals, terminations, footprint changes, updates of other sources) in which
it sends no update, whether its loss has been notified (and it has been evicted) or
not. -/
theorem stale_source_owns_no_slot (s : Session) (hs : Reachable s) (src : Source)
    (hsrc : src ∈ s.registry) (hstale : src.stale = true) (ops : List Op)
    (hops : ∀ op ∈ ops, updatesSource src.cid op = false) (r : SlotResult)
    (hr : r ∈ (run s ops).1.snapshot.slots) : r.owner ≠ some src.handle := by
  have hwf := wellFormed_of_reachable hs
  have hst : ∀ x ∈ s.registry, x.handle = src.handle → x.stale = true ∧ x.cid = src.cid := by
    intro x hx hxh
    have : x = src := eq_of_handle_eq hwf.handles_nodup hx hsrc hxh
    subst this
    exact ⟨hstale, rfl⟩
  have hkept := stale_kept_run (hwf.handles_fresh src hsrc) hst ops hops
  rw [(wellFormed_run hwf ops).snapshot_eq] at hr
  intro ho
  rcases owner_contributes hr with h | ⟨w, hw, how, hc⟩
  · rw [h] at ho
    exact absurd ho (by simp)
  · rw [how] at ho
    have := hkept w hw (Option.some.inj ho)
    rw [(contributes_iff w).mp hc |>.2] at this
    exact absurd this (by decide)

/-- Witness for C8: in `staleScenario` source X (handle 0, priority 200) is stale; it owns
no slot after a further sweep at time 2700 and an update from Y at time 2800, before its
loss is due at time 3500. -/
theorem stale_source_owns_no_slot_witness :
    staleX.handle = 0 ∧ staleX.stale = true ∧
    (⟨1, 60, some 1⟩ : SlotResult) ∈
      (run staleScenario [Op.sweep 2700, Op.ingest 2 "Y" (slotOneUpdate 1 100 60) 2800]).1.snapshot.slots ∧
    (some 1 : Option Nat) ≠ some staleX.handle :=
  ⟨by decide, by decide, by decide,
   stale_source_owns_no_slot staleScenario
     ⟨scenarioConfig, 0, scenarioSession, [Event.sampling_started], _, rfl, rfl⟩ staleX
     (List.mem_of_mem_head? (rfl : staleScenario.registry.head? = some staleX)) (by decide)
     [Op.sweep 2700, Op.ingest 2 "Y" (slotOneUpdate 1 100 60) 2800] (by decide)
     ⟨1, 60, some 1⟩ (by decide)⟩

/-! ## Lemmas on the liveness sweeper -/

theorem isLost_markStale (cfg cfg' : Config) (t t' : Nat) (x : Source) :
    isLost cfg t (markStale cfg' t' x) = isLost cfg t x := by
  unfold markStale
  split <;> rfl

theorem markStale_idem (cfg : Config) (t : Nat) (x : Source) :
    markStale cfg t (markStale cfg t x) = markStale cfg t x := by
  by_cases h : isStale cfg t x = true
  · have h1 : markStale cfg t x = { x with stale := true } := by
      unfold markStale; rw [if_pos h]
    have h2 : isStale cfg t { x with stale := true } = true := h
    rw [h1]
    unfold markStale
    rw [if_pos h2]
  · have h1 : markStale cfg t x = x := by
      unfold markStale; rw [if_neg h]
    rw [h1, h1]

theorem sweep_registry_open {s : Session} {t : Nat}
    (h : (s.sampling_open && !samplingExpires s t) = true) :
    (sweep s t).session.registry = s.registry.map (markStale s.cfg t) := by
  simp only [sweep, h, if_true]

theorem sweep_registry_closed {s : Session} {t : Nat}
    (h : (s.sampling_open && !samplingExpires s t) = false) :
    (sweep s t).session.registry
      = (s.registry.filter (fun x => !isLost s.cfg t x)).map (markStale s.cfg t) := by
  simp only [sweep, h, Bool.false_eq_true, if_false]

theorem sweep_events_open {s : Session} {t : Nat}
    (h : (s.sampling_open && !samplingExpires s t) = true) : (sweep s t).events = [] := by
  have he : samplingExpires s t = false := by
    cases hx : samplingExpires s t
    · rfl
    · rw [hx] at h
      simp at h
  have hso : s.sampling_open = true := by
    rw [he] at h
    simpa using h
  simp [sweep, he, hso]

theorem sweep_events_closed {s : Session} {t : Nat}
    (h : (s.sampling_open && !samplingExpires s t) = false) :
    (sweep s t).events =
      (if samplingExpires s t = true then [Event.sampling_ended] else [])
        ++ (s.registry.filter (isLost s.cfg t)).map lostEvent := by
  simp only [sweep, h, Bool.false_eq_true, if_false]

theorem samplingExpires_sweep (s : Session) (t : Nat) :
    samplingExpires (sweep s t).session t = false := by
  simp only [samplingExpires, sweep]
  cases s.sampling_open <;> cases decide (s.sampling_start + s.cfg.sampling_duration ≤ t) <;> rfl

theorem sweep_sweep_registry (s : Session) (t : Nat) :
    (sweep (sweep s t).session t).session.registry = (sweep s t).session.registry := by
  have hmap : ∀ l : List Source,
      (l.map (markStale s.cfg t)).map (markStale s.cfg t) = l.map (markStale s.cfg t) := by
    intro l
    rw [List.map_map]
    apply List.map_congr_left
    intro x _
    exact markStale_idem _ _ _
  have hexp := samplingExpires_sweep s t
  cases ho : (s.sampling_open && !samplingExpires s t)
  · have ho2 : ((sweep s t).session.sampling_open &&
        !samplingExpires (sweep s t).session t) = false := by
      rw [hexp]
      show ((s.sampling_open && !samplingExpires s t) && !false) = false
      rw [ho]
      rfl
    rw [sweep_registry_closed ho2, sweep_registry_closed ho]
    show List.map (markStale s.cfg t) (List.filter (fun x => !isLost s.cfg t x) _) = _
    rw [List.filter_eq_self.mpr, hmap]
    intro y hy
    obtain ⟨x, hx, rfl⟩ := List.mem_map.mp hy
    rw [isLost_markStale]
    exact (List.mem_filter.mp hx).2
  · have ho2 : ((sweep s t).session.sampling_open &&
        !samplingExpires (sweep s t).session t) = true := by
      rw [hexp]
      show ((s.sampling_open && !samplingExpires s t) && !false) = true
      rw [ho]
      rfl
    rw [sweep_registry_open ho2, sweep_registry_open ho]
    exact hmap _

theorem sweep_sweep_events (s : Session) (t : Nat) :
    (sweep (sweep s t).session t).events = [] := by
  have hexp := samplingExpires_sweep s t
  cases ho : (s.sampling_open && !samplingExpires s t)
  · have ho2 : ((sweep s t).session.sampling_open &&
        !samplingExpires (sweep s t).session t) = false := by
      rw [hexp]
      show ((s.sampling_open && !samplingExpires s t) && !false) = false
      rw [ho]
      rfl
    rw [sweep_events_closed ho2, hexp, sweep_registry_closed ho]
    show [] ++ List.map lostEvent (List.filter (isLost s.cfg t) _) = []
    rw [List.filter_eq_nil_iff.mpr]
    · rfl
    · intro y hy
      obtain ⟨x, hx, rfl⟩ := List.mem_map.mp hy
      rw [isLost_markStale]
      simpa using (List.mem_filter.mp hx).2
  · have ho2 : ((sweep s t).session.sampling_open &&
        !samplingExpires (sweep s t).session t) = true := by
      rw [hexp]
      show ((s.sampling_open && !samplingExpires s t) && !false) = true
      rw [ho]
      rfl
    exact sweep_events_open ho2

theorem sweep_sweep_session (s : Session) (t : Nat) :
    (sweep (sweep s t).session t).session = (sweep s t).session := by
  have hreg := sweep_sweep_registry s t
  have hopen : (sweep (sweep s t).session t).session.sampling_open
      = (sweep s t).session.sampling_open := by
    show ((sweep s t).session.sampling_open && !samplingExpires (sweep s t).session t) = _
    rw [samplingExpires_sweep]
    simp
  have hsnap : (sweep (sweep s t).session t).session.snapshot
      = (sweep s t).session.snapshot := by
    show recompute s.cfg (sweep (sweep s t).session t).session.registry
      = recompute s.cfg (sweep s t).session.registry
    rw [hreg]
  have hcfg : (sweep (sweep s t).session t).session.cfg = (sweep s t).session.cfg := rfl
  have hstart : (sweep (sweep s t).session t).session.sampling_start
      = (sweep s t).session.sampling_start := rfl
  have hnext : (sweep (sweep s t).session t).session.next_handle
      = (sweep s t).session.next_handle := rfl
  cases h1 : (sweep (sweep s t).session t).session
  cases h2 : (sweep s t).session
  rw [h1, h2] at hreg hopen hsnap hcfg hstart hnext
  simp only at hreg hopen hsnap hcfg hstart hnext
  simp only [Session.mk.injEq]
  exact ⟨hcfg, hreg, hsnap, hopen, hstart, hnext⟩

/-! ## Counting loss notifications -/

theorem ingest_events_no_loss (s : Session) (cid : Nat) (name : String) (u : Update)
    (now h : Nat) : List.countP (isLossOf h) (ingest s cid name u now).events = 0 := by
  rw [ingest_eq]
  cases findByCid s.registry cid with
  | none =>
    dsimp only
    split
    · rfl
    · split <;> rfl
  | some src =>
    dsimp only
    split
    · split <;> rfl
    · rfl

theorem step_events_no_loss_of_not_sweep (s : Session) (op : Op) (h : Nat)
    (hop : ∀ t, op ≠ Op.sweep t) : List.countP (isLossOf h) (step s op).events = 0 := by
  cases op with
  | ingest cid name u now => exact ingest_events_no_loss s cid name u now h
  | remove_source h' =>
    simp only [step, removeSource]
    cases remove_source s.registry h' <;> rfl
  | mark_terminated h' =>
    simp only [step, markTerminated]
    cases mark_terminated s.registry h' <;> rfl
  | sweep t => exact absurd rfl (hop t)
  | change_footprint fp now =>
    simp only [step, changeFootprint]
    split <;> rfl

theorem sweep_loss_count (s : Session) (t h : Nat) :
    List.countP (isLossOf h) (sweep s t).events =
      if (s.sampling_open && !samplingExpires s t) = true then 0
      else List.countP (fun x => decide (x.handle = h) && isLost s.cfg t x) s.registry := by
  cases ho : (s.sampling_open && !samplingExpires s t)
  · rw [sweep_events_closed ho, List.countP_append, List.countP_map, List.countP_filter]
    have h0 : List.countP (isLossOf h)
        (if samplingExpires s t = true then [Event.sampling_ended] else []) = 0 := by
      split <;> rfl
    rw [h0, Nat.zero_add, if_neg (by simp)]
    apply List.countP_congr
    intro x _
    exact Iff.rfl
  · rw [sweep_events_open ho, if_pos rfl]
    rfl

theorem countP_handle_le_one {reg : List Source} (hnd : (reg.map Source.handle).Nodup)
    (h : Nat) : List.countP (fun x => decide (x.handle = h)) reg ≤ 1 := by
  have h1 : List.countP (fun x => decide (x.handle = h)) reg
      = List.count h (reg.map Source.handle) := by
    rw [List.count, List.countP_map]
    apply List.countP_congr
    intro x _
    simp only [Function.comp, beq_iff_eq, decide_eq_true_eq]
  rw [h1]
  exact List.nodup_iff_count_le_one.mp hnd h

theorem sweep_loss_count_le_one {s : Session} (hwf : WellFormed s) (t h : Nat) :
    List.countP (isLossOf h) (sweep s t).events ≤ 1 := by
  rw [sweep_loss_count]
  split
  · exact Nat.zero_le _
  · refine Nat.le_trans ?_ (countP_handle_le_one hwf.handles_nodup h)
    apply List.countP_mono_left
    intro x _ hx
    simp only [Bool.and_eq_true] at hx
    exact hx.1

theorem step_loss_count_le_one {s : Session} (hwf : WellFormed s) (op : Op) (h : Nat) :
    List.countP (isLossOf h) (step s op).events ≤ 1 := by
  by_cases hop : ∃ t, op = Op.sweep t
  · obtain ⟨t, rfl⟩ := hop
    exact sweep_loss_count_le_one hwf t h
  · rw [step_events_no_loss_of_not_sweep s op h (fun t ht => hop ⟨t, ht⟩)]
    exact Nat.zero_le _

/-- Handles of the registry after an operation were in the registry before, or are the
handle just issued; the next handle never decreases. -/
theorem step_handles (s : Session) (op : Op) :
    s.next_handle ≤ (step s op).session.next_handle ∧
      ∀ y ∈ (step s op).session.registry,
        (∃ x ∈ s.registry, x.handle = y.handle) ∨ y.handle = s.next_handle := by
  have keep : ∀ y ∈ s.registry,
      (∃ x ∈ s.registry, x.handle = y.handle) ∨ y.handle = s.next_handle :=
    fun y hy => Or.inl ⟨y, hy, rfl⟩
  cases op with
  | ingest cid name u now =>
    simp only [step]
    rw [ingest_eq]
    cases findByCid s.registry cid with
    | none =>
      dsimp only
      split
      · exact ⟨Nat.le_refl _, keep⟩
      · split
        · refine ⟨Nat.le_succ _, ?_⟩
          intro y hy
          simp only [commit] at hy
          obtain ⟨x, hx, rfl⟩ := mem_modify.mp hy
          have hxh : (if x.handle = s.next_handle then appliedTo s.cfg u now x else x).handle
              = x.handle := by
            split
            · exact appliedTo_handle _ _ _ _
            · rfl
          rw [hxh]
          rcases List.mem_append.mp hx with hx | hx
          · exact Or.inl ⟨x, hx, rfl⟩
          · simp only [List.mem_singleton] at hx
            subst hx
            exact Or.inr rfl
        · exact ⟨Nat.le_refl _, keep⟩
    | some src =>
      dsimp only
      split
      · split
        · refine ⟨Nat.le_refl _, ?_⟩
          intro y hy
          simp only [commit] at hy
          obtain ⟨x, hx, rfl⟩ := mem_modify.mp hy
          have hxh : (if x.handle = src.handle then appliedTo s.cfg u now x else x).handle
              = x.handle := by
            split
            · exact appliedTo_handle _ _ _ _
            · rfl
          rw [hxh]
          exact Or.inl ⟨x, hx, rfl⟩
        · exact ⟨Nat.le_refl _, keep⟩
      · exact ⟨Nat.le_refl _, keep⟩
  | remove_source h' =>
    simp only [step, removeSource, remove_source]
    by_cases hh : hasHandle s.registry h' = true
    · rw [if_pos hh]
      exact ⟨Nat.le_refl _, fun y hy => Or.inl ⟨y, List.mem_of_mem_filter hy, rfl⟩⟩
    · rw [if_neg hh]
      exact ⟨Nat.le_refl _, keep⟩
  | mark_terminated h' =>
    simp only [step, markTerminated, mark_terminated]
    by_cases hh : hasHandle s.registry h' = true
    · rw [if_pos hh]
      refine ⟨Nat.le_refl _, ?_⟩
      intro y hy
      simp only [commit] at hy
      obtain ⟨x, hx, rfl⟩ := mem_modify.mp hy
      refine Or.inl ⟨x, hx, ?_⟩
      split <;> rfl
    · rw [if_neg hh]
      exact ⟨Nat.le_refl _, keep⟩
  | sweep t =>
    refine ⟨Nat.le_refl _, ?_⟩
    intro y hy
    obtain ⟨x, hx, rfl⟩ := mem_sweep_registry hy
    exact Or.inl ⟨x, hx, (markStale_handle _ _ _).symm⟩
  | change_footprint fp now =>
    simp only [step, changeFootprint]
    split
    · exact ⟨Nat.le_refl _, fun y hy => absurd hy (List.not_mem_nil y)⟩
    · exact ⟨Nat.le_refl _, keep⟩

/-- A loss notification for a handle is only emitted while the handle is registered. -/
theorem step_loss_registered {s : Session} {op : Op} {h : Nat}
    (hpos : 0 < List.countP (isLossOf h) (step s op).events) :
    ∃ x ∈ s.registry, x.handle = h := by
  by_cases hop : ∃ t, op = Op.sweep t
  · obtain ⟨t, rfl⟩ := hop
    simp only [step] at hpos
    rw [sweep_loss_count] at hpos
    split at hpos
    · exact absurd hpos (Nat.lt_irrefl 0)
    · obtain ⟨x, hx, hp⟩ := List.countP_pos_iff.mp hpos
      simp only [Bool.and_eq_true, decide_eq_true_eq] at hp
      exact ⟨x, hx, hp.1⟩
  · rw [step_events_no_loss_of_not_sweep s op h (fun t ht => hop ⟨t, ht⟩)] at hpos
    exact absurd hpos (Nat.lt_irrefl 0)

/-- Once its loss has been notified, a source is no longer registered. -/
theorem step_loss_evicts {s : Session} (hwf : WellFormed s) {op : Op} {h : Nat}
    (hpos : 0 < List.countP (isLossOf h) (step s op).events) :
    ∀ y ∈ (step s op).session.registry, y.handle ≠ h := by
  by_cases hop : ∃ t, op = Op.sweep t
  · obtain ⟨t, rfl⟩ := hop
    simp only [step] at hpos ⊢
    rw [sweep_loss_count] at hpos
    by_cases ho : (s.sampling_open && !samplingExpires s t) = true
    · rw [if_pos ho] at hpos
      exact absurd hpos (Nat.lt_irrefl 0)
    · rw [if_neg ho] at hpos
      obtain ⟨x, hx, hp⟩ := List.countP_pos_iff.mp hpos
      simp only [Bool.and_eq_true, decide_eq_true_eq] at hp
      intro y hy hyh
      rw [sweep_registry_closed (by simpa using ho)] at hy
      obtain ⟨z, hz, rfl⟩ := List.mem_map.mp hy
      rw [markStale_handle] at hyh
      obtain ⟨hzreg, hzl⟩ := List.mem_filter.mp hz
      have : z = x := eq_of_handle_eq hwf.handles_nodup hzreg hx (by rw [hyh, hp.1])
      subst this
      rw [hp.2] at hzl
      exact absurd hzl (by decide)
  · rw [step_events_no_loss_of_not_sweep s op h (fun t ht => hop ⟨t, ht⟩)] at hpos
    exact absurd hpos (Nat.lt_irrefl 0)

/-- A handle that was issued and is no longer registered never comes back and is never
reported lost again. -/
theorem run_loss_count_gone (s : Session) (h : Nat) (hfresh : h < s.next_handle)
    (hgone : ∀ y ∈ s.registry, y.handle ≠ h) (ops : List Op) :
    List.countP (isLossOf h) (run s ops).2 = 0 := by
  induction ops generalizing s with
  | nil => rfl
  | cons op ops ih =>
    simp only [run, List.countP_append]
    obtain ⟨hn, hh⟩ := step_handles s op
    have h1 : List.countP (isLossOf h) (step s op).events = 0 := by
      by_contra hne
      obtain ⟨x, hx, hxh⟩ := step_loss_registered (Nat.pos_of_ne_zero hne)
      exact hgone x hx hxh
    have h2 := ih (step s op).session (Nat.lt_of_lt_of_le hfresh hn) (by
      intro y hy hyh
      rcases hh y hy with ⟨x, hx, hxy⟩ | hnew
      · exact hgone x hx (by rw [hxy, hyh])
      · omega)
    rw [h1, h2]

/-- At most one loss notification per source handle over any run. -/
theorem run_loss_count_le_one {s : Session} (hwf : WellFormed s) (h : Nat) (ops : List Op) :
    List.countP (isLossOf h) (run s ops).2 ≤ 1 := by
  induction ops generalizing s with
  | nil => exact Nat.zero_le _
  | cons op ops ih =>
    simp only [run, List.countP_append]
    have hle := step_loss_count_le_one hwf op h
    by_cases h0 : List.countP (isLossOf h) (step s op).events = 0
    · rw [h0, Nat.zero_add]
      exact ih (wellFormed_step hwf op)
    · have hpos := Nat.pos_of_ne_zero h0
      obtain ⟨x, hx, hxh⟩ := step_loss_registered hpos
      have hfresh : h < s.next_handle := by
        rw [← hxh]
        exact hwf.handles_fresh x hx
      have hgone := run_loss_count_gone (step s op).session h
        (Nat.lt_of_lt_of_le hfresh (step_handles s op).1) (step_loss_evicts hwf hpos) ops
      rw [hgone]
      omega

theorem isLost_congr {cfg : Config} {t : Nat} {x y : Source}
    (h1 : y.last_update = x.last_update) (h2 : y.terminated = x.terminated) :
    isLost cfg t y = isLost cfg t x := by
  simp only [isLost, h1, h2]

theorem markStale_last_update (cfg : Config) (t : Nat) (x : Source) :
    (markStale cfg t x).last_update = x.last_update := by
  unfold markStale
  split <;> rfl

theorem markStale_terminated (cfg : Config) (t : Nat) (x : Source) :
    (markStale cfg t x).terminated = x.terminated := by
  unfold markStale
  split <;> rfl

/-- An operation that leaves a registered source alone, and does not report it lost,
keeps its entry with the same handle, identity, liveness timestamp and termination
flag, keeps the configuration, and does not reopen the sampling period. -/
theorem leavesAlone_step {s : Session} (hwf : WellFormed s) {src : Source}
    (hsrc : src ∈ s.registry) {op : Op} (hop : leavesAlone src.handle src.cid op = true)
    (h0 : List.countP (isLossOf src.handle) (step s op).events = 0) :
    (∃ src' ∈ (step s op).session.registry, src'.handle = src.handle ∧ src'.cid = src.cid ∧
        src'.last_update = src.last_update ∧ src'.terminated = src.terminated) ∧
      (step s op).session.cfg = s.cfg ∧
      (step s op).session.sampling_start = s.sampling_start ∧
      (s.sampling_open = false → (step s op).session.sampling_open = false) := by
  have same : (∃ src' ∈ s.registry, src'.handle = src.handle ∧ src'.cid = src.cid ∧
      src'.last_update = src.last_update ∧ src'.terminated = src.terminated) :=
    ⟨src, hsrc, rfl, rfl, rfl, rfl⟩
  cases op with
  | ingest cid name u now =>
    have hne : cid ≠ src.cid := by simpa [leavesAlone] using hop
    simp only [step]
    rw [ingest_eq]
    cases hf : findByCid s.registry cid with
    | none =>
      dsimp only
      split
      · exact ⟨same, rfl, rfl, fun h => h⟩
      · split
        · refine ⟨⟨src, ?_, rfl, rfl, rfl, rfl⟩, rfl, rfl, fun h => h⟩
          simp only [commit]
          refine mem_modify.mpr ⟨src, List.mem_append_left _ hsrc, ?_⟩
          rw [if_neg (Nat.ne_of_lt (hwf.handles_fresh src hsrc))]
        · exact ⟨same, rfl, rfl, fun h => h⟩
    | some src2 =>
      dsimp only
      obtain ⟨hsrc2, hcid2⟩ := findByCid_some hf
      split
      · split
        · refine ⟨⟨src, ?_, rfl, rfl, rfl, rfl⟩, rfl, rfl, fun h => h⟩
          simp only [commit]
          refine mem_modify.mpr ⟨src, hsrc, ?_⟩
          rw [if_neg]
          intro heq
          have : src = src2 := eq_of_handle_eq hwf.handles_nodup hsrc hsrc2 heq
          exact hne (by rw [← hcid2, this])
        · exact ⟨same, rfl, rfl, fun h => h⟩
      · exact ⟨same, rfl, rfl, fun h => h⟩
  | remove_source h' =>
    have hne : h' ≠ src.handle := by simpa [leavesAlone] using hop
    simp only [step, removeSource, remove_source]
    by_cases hh : hasHandle s.registry h' = true
    · rw [if_pos hh]
      refine ⟨⟨src, ?_, rfl, rfl, rfl, rfl⟩, rfl, rfl, fun h => h⟩
      simp only [commit]
      exact List.mem_filter.mpr ⟨hsrc, by simpa using fun h => hne h.symm⟩
    · rw [if_neg hh]
      exact ⟨same, rfl, rfl, fun h => h⟩
  | mark_terminated h' =>
    have hne : h' ≠ src.handle := by simpa [leavesAlone] using hop
    simp only [step, markTerminated, mark_terminated]
    by_cases hh : hasHandle s.registry h' = true
    · rw [if_pos hh]
      refine ⟨⟨src, ?_, rfl, rfl, rfl, rfl⟩, rfl, rfl, fun h => h⟩
      simp only [commit]
      refine mem_modify.mpr ⟨src, hsrc, ?_⟩
      rw [if_neg (fun h => hne h.symm)]
    · rw [if_neg hh]
      exact ⟨same, rfl, rfl, fun h => h⟩
  | sweep t =>
    simp only [step] at h0 ⊢
    refine ⟨⟨markStale s.cfg t src, ?_, markStale_handle _ _ _, markStale_cid _ _ _,
      markStale_last_update _ _ _, markStale_terminated _ _ _⟩, rfl, rfl, ?_⟩
    · rw [sweep_loss_count] at h0
      by_cases ho : (s.sampling_open && !samplingExpires s t) = true
      · rw [sweep_registry_open ho]
        exact List.mem_map_of_mem _ hsrc
      · rw [if_neg ho] at h0
        rw [sweep_registry_closed (by simpa using ho)]
        refine List.mem_map_of_mem _ (List.mem_filter.mpr ⟨hsrc, ?_⟩)
        have := List.countP_eq_zero.mp h0 src hsrc
        simpa using this
    · intro hclosed
      show (s.sampling_open && !samplingExpires s t) = false
      rw [hclosed]
      rfl
  | change_footprint fp now =>
    simp [leavesAlone] at hop

/-- Exactly one loss notification for a registered source over a run that leaves it
alone and contains a sweep at a time when its loss is due and the sampling period is
over. -/
theorem run_loss_count_eq_one {s : Session} (hwf : WellFormed s) (src : Source)
    (hsrc : src ∈ s.registry) (ops : List Op)
    (hquiet : ∀ op ∈ ops, leavesAlone src.handle src.cid op = true)
    (hdue : ∃ t, Op.sweep t ∈ ops ∧ isLost s.cfg t src = true ∧
      (s.sampling_open = false ∨ s.sampling_start + s.cfg.sampling_duration ≤ t)) :
    List.countP (isLossOf src.handle) (run s ops).2 = 1 := by
  induction ops generalizing s src with
  | nil =>
    obtain ⟨t, ht, _⟩ := hdue
    exact absurd ht (List.not_mem_nil _)
  | cons op ops ih =>
    simp only [run, List.countP_append]
    have hle := step_loss_count_le_one hwf op src.handle
    by_cases h0 : List.countP (isLossOf src.handle) (step s op).events = 0
    · rw [h0, Nat.zero_add]
      obtain ⟨⟨src', hsrc', hh, hc, hlu, htm⟩, hcfg, hstart, hopen⟩ :=
        leavesAlone_step hwf hsrc (hquiet op (List.mem_cons_self _ _)) h0
      rw [← hh]
      apply ih (wellFormed_step hwf op) src' hsrc'
      · intro o ho
        rw [hh, hc]
        exact hquiet o (List.mem_cons_of_mem _ ho)
      · obtain ⟨t, ht, hlost, hgate⟩ := hdue
        rcases List.mem_cons.mp ht with heq | ht
        · exfalso
          subst heq
          simp only [step] at h0
          rw [sweep_loss_count] at h0
          have hclosed : (s.sampling_open && !samplingExpires s t) = false := by
            rcases hgate with hg | hg
            · rw [hg]; rfl
            · simp only [samplingExpires, decide_eq_true hg, Bool.and_true]
              cases s.sampling_open <;> rfl
          rw [if_neg (by simp [hclosed])] at h0
          have := List.countP_eq_zero.mp h0 src hsrc
          simp [hlost] at this
        · refine ⟨t, ht, ?_, ?_⟩
          · rw [hcfg, isLost_congr hlu htm]
            exact hlost
          · rw [hcfg, hstart]
            rcases hgate with hg | hg
            · exact Or.inl (hopen hg)
            · exact Or.inr hg
    · have hpos := Nat.pos_of_ne_zero h0
      have hfresh : src.handle < s.next_handle := hwf.handles_fresh src hsrc
      have hgone := run_loss_count_gone (step s op).session src.handle
        (Nat.lt_of_lt_of_le hfresh (step_handles s op).1) (step_loss_evicts hwf hpos) ops
      rw [hgone]
      omega

/-- C7: the liveness sweep is idempotent: a second sweep at the same time emits no event
and leaves the state of the first sweep; over any run from a reachable state at most
one loss notification is emitted per source, and exactly one over a run in which the
source is left alone (it has stopped updating and is not removed by hand) and a sweep
takes place once its loss is due and the sampling period is over. -/
theorem sweep_idempotent_single_loss (s : Session) (t : Nat) :
    ((sweep (sweep s t).session t).session = (sweep s t).session ∧
      (sweep (sweep s t).session t).events = [] ∧
      run s [Op.sweep t, Op.sweep t] = ((sweep s t).session, (sweep s t).events)) ∧
    (Reachable s →
      (∀ ops h, List.countP (isLossOf h) (run s ops).2 ≤ 1) ∧
      ∀ src ∈ s.registry, ∀ ops, (∀ op ∈ ops, leavesAlone src.handle src.cid op = true) →
        (∃ t', Op.sweep t' ∈ ops ∧ isLost s.cfg t' src = true ∧
          (s.sampling_open = false ∨ s.sampling_start + s.cfg.sampling_duration ≤ t')) →
        List.countP (isLossOf src.handle) (run s ops).2 = 1) := by
  refine ⟨⟨sweep_sweep_session s t, sweep_sweep_events s t, ?_⟩, ?_⟩
  · simp only [run, step, sweep_sweep_session, sweep_sweep_events, List.append_nil]
  · intro hs
    have hwf := wellFormed_of_reachable hs
    exact ⟨fun ops h => run_loss_count_le_one hwf h ops,
      fun src hsrc ops hq hd => run_loss_count_eq_one hwf src hsrc ops hq hd⟩

/-- C7 witness: in `staleScenario` (sampling period over, X last heard at time 0) a sweep
at time 3600 reports X lost once, a second sweep at 3600 emits nothing, and a run of
four sweeps reports X lost exactly once. -/
theorem sweep_idempotent_single_loss_witness :
    (sweep staleScenario 3600).events = [Event.source_lost 0 1 "X" false] ∧
    ((sweep (sweep staleScenario 3600).session 3600).session = (sweep staleScenario 3600).session ∧
      (sweep (sweep staleScenario 3600).session 3600).events = [] ∧
      run staleScenario [Op.sweep 3600, Op.sweep 3600]
        = ((sweep staleScenario 3600).session, (sweep staleScenario 3600).events)) ∧
    List.countP (isLossOf 0)
      (run staleScenario [Op.sweep 3000, Op.sweep 3600, Op.sweep 3600, Op.sweep 4800]).2 = 1 :=
  ⟨by decide,
   (sweep_idempotent_single_loss staleScenario 3600).1,
   ((sweep_idempotent_single_loss staleScenario 3600).2
     ⟨scenarioConfig, 0, scenarioSession, [Event.sampling_started], _, rfl, rfl⟩).2
     staleX (List.mem_of_mem_head? (rfl : staleScenario.registry.head? = some staleX))
     [Op.sweep 3000, Op.sweep 3600, Op.sweep 3600, Op.sweep 4800] (by decide)
     ⟨3600, by decide, by decide, Or.inl (by decide)⟩⟩

theorem step_no_loss_while_open (s : Session) (op : Op) (h : Nat)
    (hopen : (step s op).session.sampling_open = true) :
    List.countP (isLossOf h) (step s op).events = 0 := by
  by_cases hop : ∃ t, op = Op.sweep t
  · obtain ⟨t, rfl⟩ := hop
    simp only [step] at hopen ⊢
    have hopen' : (s.sampling_open && !samplingExpires s t) = true := hopen
    rw [sweep_loss_count, if_pos hopen']
  · exact step_events_no_loss_of_not_sweep s op h (fun t ht => hop ⟨t, ht⟩)

/-- C9: over a run throughout which the sampling period stays open, no source-lost
notification is emitted, for any source; in particular none for a source that was
admitted during the period and then sent no further update. -/
theorem no_loss_notification_while_sampling (s : Session) (ops : List Op)
    (hopen : ∀ k, (run s (ops.take k)).1.sampling_open = true) (h : Nat) :
    List.countP (isLossOf h) (run s ops).2 = 0 := by
  induction ops generalizing s with
  | nil => rfl
  | cons op ops ih =>
    simp only [run, List.countP_append]
    have h1 : (step s op).session.sampling_open = true := by
      have := hopen 1
      simpa [run] using this
    rw [step_no_loss_while_open s op h h1, Nat.zero_add]
    apply ih
    intro k
    have := hopen (k + 1)
    simpa [run] using this

/-- Witness for C9: X joins at time 0 during the sampling period (open until 1500) and goes
silent; its loss is due from time 200 on, yet the sweeps at 500 and 1000 emit nothing;
the sweep at 1500 closes the period and only then reports X lost. -/
theorem no_loss_notification_while_sampling_witness :
    (run samplingSession silentRun).2 = [] ∧
    (run samplingSession (silentRun ++ [Op.sweep 1500])).2
      = [Event.sampling_ended, Event.source_lost 0 1 "X" false] ∧
    List.countP (isLossOf 0) (run samplingSession silentRun).2 = 0 :=
  ⟨by decide, by decide,
   no_loss_notification_while_sampling samplingSession silentRun (by
     intro k
     by_cases hk : k < 3
     · interval_cases k <;> rfl
     · rw [List.take_of_length_le (by simp [silentRun]; omega)]
       rfl) 0⟩

/-! ## Sequence numbers -/

theorem findByCid_modify (reg : List Source) (h cid : Nat) (f : Source → Source)
    (hf : ∀ s, (f s).cid = s.cid) :
    findByCid (modify reg h f) cid
      = (findByCid reg cid).map (fun x => if x.handle = h then f x else x) := by
  induction reg with
  | nil => rfl
  | cons y ys ih =>
    unfold findByCid modify at ih ⊢
    simp only [List.map_cons, List.find?_cons]
    have hc : (if y.handle = h then f y else y).cid = y.cid := by
      split
      · exact hf y
      · rfl
    rw [hc]
    by_cases hy : y.cid = cid
    · simp [hy]
    · simp only [hy, decide_False]
      exact ih

theorem findByCid_append_new {reg : List Source} {cid : Nat} (hnone : findByCid reg cid = none)
    (x : Source) (hx : x.cid = cid) : findByCid (reg ++ [x]) cid = some x := by
  unfold findByCid at hnone ⊢
  rw [List.find?_append, hnone]
  simp [hx]

theorem appliedPap_levels (cfg : Config) (u : Update) (s : Source) :
    (appliedPap cfg u s).levels = s.levels := by
  unfold appliedPap
  split
  · split <;> rfl
  · rfl

theorem appliedPap_priority (cfg : Config) (u : Update) (s : Source) :
    (appliedPap cfg u s).universe_priority = s.universe_priority := by
  unfold appliedPap
  split
  · split <;> rfl
  · rfl

theorem writeRange_written {α : Type} (old : Nat → α) (start : Nat) (vals : List α) (i : Nat)
    (hi : i < vals.length) : writeRange old start vals (start + i) = vals.get ⟨i, hi⟩ := by
  unfold writeRange
  rw [if_pos (Nat.le_add_right _ _), Nat.add_sub_cancel_left, List.get?_eq_get hi]

/-- What an acknowledged `ingest` leaves behind: the entry of the sending identity is the
updated entry, and the configuration is unchanged. -/
theorem ingest_ack {s : Session} {cid : Nat} {name : String} {u : Update} {now : Nat}
    (h : (ingest s cid name u now).result = Result.ack) :
    (∃ x, findByCid (ingest s cid name u now).session.registry cid
        = some (appliedTo s.cfg u now x)) ∧
      (ingest s cid name u now).session.cfg = s.cfg ∧ updateValid s.cfg u = true := by
  rw [ingest_eq] at h ⊢
  cases hf : findByCid s.registry cid with
  | none =>
    rw [hf] at h
    dsimp only at h ⊢
    by_cases hcap : atCapacity s.cfg.source_count_max s.registry = true
    · rw [if_pos hcap] at h
      exact absurd h (by simp [reject])
    · rw [if_neg hcap] at h ⊢
      by_cases hv : updateValid s.cfg u = true
      · rw [if_pos hv]
        refine ⟨⟨newSource s.next_handle cid name u.seq now, ?_⟩, rfl, hv⟩
        simp only [commit]
        rw [findByCid_modify _ _ _ _ (appliedTo_cid _ _ _),
          findByCid_append_new hf _ rfl]
        simp [newSource]
      · rw [if_neg hv] at h
        exact absurd h (by simp [reject])
  | some src =>
    rw [hf] at h
    dsimp only at h ⊢
    by_cases ha : seqAhead s.cfg.seq_modulus src.seq u.seq = true
    · rw [if_pos ha] at h ⊢
      by_cases hv : updateValid s.cfg u = true
      · rw [if_pos hv]
        refine ⟨⟨src, ?_⟩, rfl, hv⟩
        simp only [commit]
        rw [findByCid_modify _ _ _ _ (appliedTo_cid _ _ _), hf]
        simp
      · rw [if_neg hv] at h
        exact absurd h (by simp [reject])
    · rw [if_neg ha] at h
      exact absurd h (by simp [reject])

theorem ingest_known {s : Session} {cid : Nat} {src : Source}
    (hf : findByCid s.registry cid = some src) (name : String) (u : Update) (now : Nat) :
    ingest s cid name u now =
      if seqAhead s.cfg.seq_modulus src.seq u.seq = true then
        if updateValid s.cfg u = true then
          commit s (modify s.registry src.handle (appliedTo s.cfg u now)) s.next_handle []
        else reject s Reason.out_of_range []
      else reject s Reason.out_of_sequence [] := by
  rw [ingest_eq, hf]

theorem seqAhead_self (m a : Nat) : seqAhead m a a = false := by
  unfold seqAhead
  by_cases hm : m = 0
  · subst hm
    simp
  · have : (a % m + m - a % m) % m = 0 := by
      rw [Nat.add_sub_cancel_left, Nat.mod_self]
    rw [this]
    rfl

/-- The rollover-aware comparison on raw sequence numbers below `m`: `b` is ahead of `a`
when it is a short step forward, or when it looks far behind (a rollover). -/
theorem seqAhead_iff (m a b : Nat) (ha : a < m) (hb : b < m) :
    seqAhead m a b = true ↔ (a < b ∧ 2 * (b - a) < m) ∨ (b < a ∧ m < 2 * (a - b)) := by
  unfold seqAhead
  rw [Nat.mod_eq_of_lt ha, Nat.mod_eq_of_lt hb]
  simp only [Bool.and_eq_true, decide_eq_true_eq]
  by_cases hab : a ≤ b
  · have h1 : (b + m - a) % m = b - a := by
      have : b + m - a = (b - a) + m := by omega
      rw [this, Nat.add_mod_right, Nat.mod_eq_of_lt (by omega)]
    rw [h1]
    omega
  · have h1 : (b + m - a) % m = b + m - a := Nat.mod_eq_of_lt (by omega)
    rw [h1]
    omega

/-- C10: for a source whose update with raw sequence number `a` has just been applied, the
next update with raw sequence number `b` (a valid update otherwise) is applied exactly
when `b` is ahead of `a` under the rollover-aware comparison, and is then the source's
stored data; when `b` equals `a` or is behind it the update is discarded and the state
is unchanged.  In any state an update of a known source is applied only if its sequence
number is ahead of the source's last applied one.  On raw numbers below the modulus,
ahead means a short step forward or a large negative-looking difference (rollover). -/
theorem ingest_applies_in_sequence_order (s : Session) (cid : Nat) (name : String)
    (u1 u2 : Update) (t1 t2 : Nat) (h1 : (ingest s cid name u1 t1).result = Result.ack)
    (hv : updateValid s.cfg u2 = true) :
    ((ingest (ingest s cid name u1 t1).session cid name u2 t2).result = Result.ack ↔
        seqAhead s.cfg.seq_modulus u1.seq u2.seq = true) ∧
    (seqAhead s.cfg.seq_modulus u1.seq u2.seq = true →
      ∃ src, findByCid (ingest (ingest s cid name u1 t1).session cid name u2 t2).session.registry
          cid = some src ∧
        src.seq = u2.seq ∧ src.last_update = t2 ∧ src.universe_priority = u2.priority ∧
        ∀ i (hi : i < u2.levels.length),
          src.levels (u2.start_address + i) = some (u2.levels.get ⟨i, hi⟩)) ∧
    (seqAhead s.cfg.seq_modulus u1.seq u2.seq = false →
      (ingest (ingest s cid name u1 t1).session cid name u2 t2).result
          = Result.rejected Reason.out_of_sequence ∧
        (ingest (ingest s cid name u1 t1).session cid name u2 t2).session
          = (ingest s cid name u1 t1).session ∧
        (ingest (ingest s cid name u1 t1).session cid name u2 t2).events = []) ∧
    (∀ src, findByCid s.registry cid = some src →
      (ingest s cid name u2 t2).result = Result.ack →
      seqAhead s.cfg.seq_modulus src.seq u2.seq = true) ∧
    seqAhead s.cfg.seq_modulus u1.seq u1.seq = false ∧
    ∀ a b, a < s.cfg.seq_modulus → b < s.cfg.seq_modulus →
      (seqAhead s.cfg.seq_modulus a b = true ↔
        (a < b ∧ 2 * (b - a) < s.cfg.seq_modulus) ∨ (b < a ∧ s.cfg.seq_modulus < 2 * (a - b))) := by
  obtain ⟨⟨x, hx⟩, hcfg, _⟩ := ingest_ack h1
  have hseq : (appliedTo s.cfg u1 t1 x).seq = u1.seq := rfl
  have hk := ingest_known hx name u2 t2
  rw [hcfg, hseq, if_pos hv] at hk
  refine ⟨?_, ?_, ?_, ?_, seqAhead_self _ _, fun a b ha hb => seqAhead_iff _ a b ha hb⟩
  rotate_left 3
  · intro src hf hack
    rw [ingest_known hf] at hack
    by_contra hna
    rw [if_neg hna] at hack
    exact absurd hack (by simp [reject])
  · rw [hk]
    by_cases ha : seqAhead s.cfg.seq_modulus u1.seq u2.seq = true
    · rw [if_pos ha]
      simp [commit, ha]
    · rw [if_neg ha]
      simp [reject, ha]
  · intro ha
    have h2 : (ingest (ingest s cid name u1 t1).session cid name u2 t2).result = Result.ack := by
      rw [hk, if_pos ha]
      rfl
    obtain ⟨⟨y, hy⟩, _, _⟩ := ingest_ack h2
    refine ⟨_, hy, rfl, rfl, ?_, ?_⟩
    · simp only [appliedTo]
      rw [appliedPap_priority]
    · intro i hi
      simp only [appliedTo]
      rw [appliedPap_levels]
      have hi' : i < (u2.levels.map some).length := by simpa using hi
      show writeRange y.levels u2.start_address (u2.levels.map some) (u2.start_address + i) = _
      rw [writeRange_written _ _ _ i hi']
      simp
  · intro ha
    rw [hk, if_neg (by simp [ha])]
    exact ⟨rfl, rfl, rfl⟩

/-- Witness for C10: after X's update with sequence number 250, the update with sequence
number 3 (raw difference -247, a rollover) is applied and sets slot 1 to level 60,
while an update with sequence number 245 is discarded. -/
theorem ingest_applies_in_sequence_order_witness :
    (ingest (ingest scenarioSession 1 "X" (slotOneUpdate 250 100 50) 0).session 1 "X"
        (slotOneUpdate 3 100 60) 10).session.snapshot.slots
      = [⟨1, 60, some 0⟩, ⟨2, 0, none⟩] ∧
    (ingest (ingest scenarioSession 1 "X" (slotOneUpdate 250 100 50) 0).session 1 "X"
        (slotOneUpdate 245 100 60) 10).result = Result.rejected Reason.out_of_sequence ∧
    ((ingest (ingest scenarioSession 1 "X" (slotOneUpdate 250 100 50) 0).session 1 "X"
        (slotOneUpdate 3 100 60) 10).result = Result.ack ↔ seqAhead 256 250 3 = true) :=
  ⟨by decide, by decide,
   (ingest_applies_in_sequence_order scenarioSession 1 "X" (slotOneUpdate 250 100 50)
     (slotOneUpdate 3 100 60) 0 10 (by decide) (by decide)).1⟩

/-! ## Rejected updates -/

theorem updateValid_false_of_malformed {cfg : Config} {u : Update}
    (h : rangeInFootprint cfg.footprint u.start_address u.levels.length = false ∨
      priorityValid u.priority = false ∨
      (cfg.use_pap = true ∧
        ∃ vals, u.pap = some vals ∧
          rangeInFootprint cfg.footprint u.start_address vals.length = false)) :
    updateValid cfg u = false := by
  unfold updateValid
  rcases h with h | h | ⟨hp, vals, hv, hr⟩
  · simp [h]
  · simp [h]
  · simp [hp, hv, hr]

/-- C11: an update whose slot range lies outside the universe's active footprint (for its
levels, or for its per-address priorities when PAP is honoured) or whose priority is
outside the valid range is rejected by `ingest`, and the session is left as it was: the
registry, with the data of every source, and the previously merged snapshot are
unchanged.  The rejection is out-of-range unless the capacity check or the sequence
check has already rejected the update. -/
theorem ingest_rejects_malformed_update (s : Session) (cid : Nat) (name : String)
    (u : Update) (now : Nat)
    (h : rangeInFootprint s.cfg.footprint u.start_address u.levels.length = false ∨
      priorityValid u.priority = false ∨
      (s.cfg.use_pap = true ∧
        ∃ vals, u.pap = some vals ∧
          rangeInFootprint s.cfg.footprint u.start_address vals.length = false)) :
    (∃ r, (ingest s cid name u now).result = Result.rejected r) ∧
    (ingest s cid name u now).session = s ∧
    (ingest s cid name u now).session.registry = s.registry ∧
    (ingest s cid name u now).session.snapshot = s.snapshot ∧
    ((findByCid s.registry cid = none ∧
        atCapacity s.cfg.source_count_max s.registry = false) ∨
      (∃ src, findByCid s.registry cid = some src ∧
        seqAhead s.cfg.seq_modulus src.seq u.seq = true) →
      (ingest s cid name u now).result = Result.rejected Reason.out_of_range) := by
  have hv : ¬ updateValid s.cfg u = true := by
    rw [updateValid_false_of_malformed h]
    decide
  rw [ingest_eq]
  cases hf : findByCid s.registry cid with
  | none =>
    dsimp only
    by_cases hcap : atCapacity s.cfg.source_count_max s.registry = true
    · rw [if_pos hcap]
      refine ⟨⟨_, rfl⟩, rfl, rfl, rfl, ?_⟩
      rintro (⟨_, hc⟩ | ⟨src, hsrc, _⟩)
      · rw [hcap] at hc
        exact absurd hc (by decide)
      · exact absurd hsrc (by simp)
    · rw [if_neg hcap, if_neg hv]
      exact ⟨⟨_, rfl⟩, rfl, rfl, rfl, fun _ => rfl⟩
  | some src =>
    dsimp only
    by_cases ha : seqAhead s.cfg.seq_modulus src.seq u.seq = true
    · rw [if_pos ha, if_neg hv]
      exact ⟨⟨_, rfl⟩, rfl, rfl, rfl, fun _ => rfl⟩
    · rw [if_neg ha]
      refine ⟨⟨_, rfl⟩, rfl, rfl, rfl, ?_⟩
      rintro (⟨hc, _⟩ | ⟨src', hsrc, ha'⟩)
      · exact absurd hc (by simp)
      · simp only [Option.some.injEq] at hsrc
        subst hsrc
        exact absurd ha' ha

/-- Witness for C11: in scenario A (footprint slots 1 and 2) an update from Y for slots 2
and 3 is rejected as out of range, and so is an update with priority 201; the session
is unchanged. -/
theorem ingest_rejects_malformed_update_witness :
    (ingest scenarioA 2 "Y" offFootprintUpdate 5).result
      = Result.rejected Reason.out_of_range ∧
    (ingest scenarioA 2 "Y" (slotOneUpdate 1 201 10) 5).result
      = Result.rejected Reason.out_of_range ∧
    (ingest scenarioA 2 "Y" offFootprintUpdate 5).session = scenarioA :=
  ⟨by decide, by decide,
   (ingest_rejects_malformed_update scenarioA 2 "Y" offFootprintUpdate 5
     (Or.inl (by decide))).2.1⟩

/-! ## The documented API surface -/

/-- C12 (as stated) fails for the two earlier versions: the callback set of 2.0.1 and the
notification handler of 2.0.2 have four members each, none of which is for the start or
the end of a sampling period or for lost sources. -/
theorem early_notification_sets_lack_members :
    membersOf v2_0_1.group__sacn__merge__receiver "SacnMergeReceiverCallbacks"
      = ["callback_context", "source_limit_exceeded", "universe_data", "universe_non_dmx"] ∧
    membersOf v2_0_2.group__sacn__merge__receiver__cpp "NotifyHandler"
      = ["~NotifyHandler", "HandleMergedData", "HandleNonDmxData",
          "HandleSourceLimitExceeded"] ∧
    (∀ m ∈ membersOf v2_0_1.group__sacn__merge__receiver "SacnMergeReceiverCallbacks",
      mentions m "sampling" = false ∧ mentions m "lost" = false) ∧
    (∀ m ∈ membersOf v2_0_2.group__sacn__merge__receiver__cpp "NotifyHandler",
      mentions m "Sampling" = false ∧ mentions m "Lost" = false) ∧
    ¬ (∀ m ∈ ["sampling_period_started", "sampling_period_ended", "source_limit_exceeded",
          "sources_lost", "universe_data"],
        m ∈ membersOf v2_0_1.group__sacn__merge__receiver "SacnMergeReceiverCallbacks") ∧
    ¬ (∀ m ∈ ["HandleSamplingPeriodStarted", "HandleSamplingPeriodEnded",
          "HandleSourceLimitExceeded", "HandleSourcesLost", "HandleMergedData"],
        m ∈ membersOf v2_0_2.group__sacn__merge__receiver__cpp "NotifyHandler") := by
  decide

/-- C12 (as amended): the later versions of the merge-receiver notification set
(`SacnMergeReceiverCallbacks` of head, `NotifyHandler` of 3.0.0) have a member for each
of the five events: sampling-period started, sampling-period ended,
source-limit-exceeded, sources-lost and merged-data-ready; the earlier versions (2.0.1,
2.0.2) have a member for source-limit-exceeded and for merged-data-ready. -/
theorem notification_set_members :
    (∀ m ∈ ["sampling_period_started", "sampling_period_ended", "source_limit_exceeded",
        "sources_lost", "universe_data"],
      m ∈ membersOf head.group__sacn__merge__receiver "SacnMergeReceiverCallbacks") ∧
    (∀ m ∈ ["HandleSamplingPeriodStarted", "HandleSamplingPeriodEnded",
        "HandleSourceLimitExceeded", "HandleSourcesLost", "HandleMergedData"],
      m ∈ membersOf v3_0_0.group__sacn__merge__receiver__cpp "NotifyHandler") ∧
    (∀ m ∈ ["source_limit_exceeded", "universe_data"],
      m ∈ membersOf v2_0_1.group__sacn__merge__receiver "SacnMergeReceiverCallbacks") ∧
    (∀ m ∈ ["HandleSourceLimitExceeded", "HandleMergedData"],
      m ∈ membersOf v2_0_2.group__sacn__merge__receiver__cpp "NotifyHandler") := by
  decide

/-- C13: both documented versions of the merged-data record `SacnRecvMergedData` (2.0.1
and head) have the members `levels`, `owners` and `num_active_sources`, one for each
component of the merged snapshot. -/
theorem merged_data_record_members :
    (∀ m ∈ ["levels", "owners", "num_active_sources"],
      m ∈ membersOf v2_0_1.group__sacn__merge__receiver "SacnRecvMergedData") ∧
    (∀ m ∈ ["levels", "owners", "num_active_sources"],
      m ∈ membersOf head.group__sacn__merge__receiver "SacnRecvMergedData") := by
  decide

/-- C14: the record `SacnLostSource` has exactly the members `cid`, `handle`, `name` and
`terminated`: the source handle, the identity (cid and name) and the reason. -/
theorem lost_source_record_members :
    membersOf v2_0_2.group__sacn__receiver "SacnLostSource"
      = ["cid", "handle", "name", "terminated"] := by
  decide

/-- C15 (as stated) fails: the members of the two configuration records are `callbacks`,
`flags`, `footprint`, `ip_supported`, `source_count_max`, `universe_id` and `use_pap`;
none of them is a sampling-period duration or a stale or expired-wait duration. -/
theorem configuration_records_lack_durations :
    membersOf head.group__sacn__merge__receiver "SacnMergeReceiverConfig"
      = ["callbacks", "footprint", "ip_supported", "source_count_max", "universe_id",
          "use_pap"] ∧
    membersOf v2_0_2.group__sacn__receiver "SacnReceiverConfig"
      = ["callbacks", "flags", "footprint", "ip_supported", "source_count_max",
          "universe_id"] ∧
    ∀ m ∈ membersOf head.group__sacn__merge__receiver "SacnMergeReceiverConfig" ++
        membersOf v2_0_2.group__sacn__receiver "SacnReceiverConfig",
      ∀ w ∈ ["sampling", "period", "duration", "stale", "expired", "wait"],
        mentions m w = false := by
  decide

/-- C15 (as amended): the two configuration records have a member for the maximum number
of sources (`source_count_max`), for the initial footprint (`footprint`) and for the IP
family support (`ip_supported`), and `SacnMergeReceiverConfig` also for whether PAP is
honoured (`use_pap`); neither record has a member for the sampling-period duration or
for the stale or expired-wait durations.  The expired wait is documented in the 2.0.2
receiver group as a default constant, a getter and a setter, and nowhere in the head
merge-receiver group.  No entry of either group index, at any depth, has a name that
contains `stale`, `duration`, `interval`, `timeout` or `time`, and the only entries
that name the sampling period are the started and ended callbacks (members and
typedefs) and the member `is_sampling`, none of them a duration. -/
theorem configuration_record_members :
    (∀ m ∈ ["source_count_max", "use_pap", "footprint", "ip_supported"],
      m ∈ membersOf head.group__sacn__merge__receiver "SacnMergeReceiverConfig") ∧
    (∀ m ∈ ["source_count_max", "footprint", "ip_supported"],
      m ∈ membersOf v2_0_2.group__sacn__receiver "SacnReceiverConfig") ∧
    (∀ m ∈ membersOf head.group__sacn__merge__receiver "SacnMergeReceiverConfig" ++
        membersOf v2_0_2.group__sacn__receiver "SacnReceiverConfig",
      ∀ w ∈ ["sampl", "period", "duration", "stale", "expire", "wait", "interval",
          "timeout", "time"],
        mentionsAnyCase m w = false) ∧
    (allNames v2_0_2.group__sacn__receiver).filter
        (fun n => mentionsAnyCase n "expire" || mentionsAnyCase n "wait")
      = ["SACN_DEFAULT_EXPIRED_WAIT_MS", "sacn_receiver_get_expired_wait",
          "sacn_receiver_set_expired_wait"] ∧
    (∀ n ∈ allNames head.group__sacn__merge__receiver,
      mentionsAnyCase n "expire" = false ∧ mentionsAnyCase n "wait" = false) ∧
    (∀ idx ∈ [head.group__sacn__merge__receiver, v2_0_2.group__sacn__receiver],
      ∀ n ∈ allNames idx,
        ∀ w ∈ ["stale", "duration", "interval", "timeout", "time"],
          mentionsAnyCase n w = false) ∧
    (allNames head.group__sacn__merge__receiver).filter
        (fun n => mentionsAnyCase n "sampl" || mentionsAnyCase n "period")
      = ["sampling_period_ended", "sampling_period_started",
          "SacnMergeReceiverSamplingPeriodEndedCallback",
          "SacnMergeReceiverSamplingPeriodStartedCallback"] ∧
    (allNames v2_0_2.group__sacn__receiver).filter
        (fun n => mentionsAnyCase n "sampl" || mentionsAnyCase n "period")
      = ["is_sampling", "sampling_period_ended", "sampling_period_started",
          "SacnSamplingPeriodEndedCallback", "SacnSamplingPeriodStartedCallback"] := by
  decide

/-- C16 (as stated) fails: the DMX merger group documents nine functions, and none of
them marks a source terminated or touches its liveness timestamp. -/
theorem dmx_merger_lacks_liveness_functions :
    functionsOf v3_0_0.group__sacn__dmx__merger "sacn_dmx_merger_"
      = ["sacn_dmx_merger_add_source", "sacn_dmx_merger_create", "sacn_dmx_merger_destroy",
          "sacn_dmx_merger_get_source", "sacn_dmx_merger_remove_pap",
          "sacn_dmx_merger_remove_source", "sacn_dmx_merger_update_levels",
          "sacn_dmx_merger_update_pap", "sacn_dmx_merger_update_universe_priority"] ∧
    ∀ f ∈ topNames v3_0_0.group__sacn__dmx__merger,
      ∀ w ∈ ["terminat", "touch", "TERMINAT", "TOUCH"], mentions f w = false := by
  decide

/-- C16 (as amended): the operations `add_source`, `remove_source`, `update_levels`,
`update_priority` and `update_pap`, in its set and its clear form, have a documented
function in the DMX merger group: `sacn_dmx_merger_add_source`,
`sacn_dmx_merger_remove_source`, `sacn_dmx_merger_update_levels`,
`sacn_dmx_merger_update_universe_priority`, `sacn_dmx_merger_update_pap` and
`sacn_dmx_merger_remove_pap`.  The other documented functions of the group are
`sacn_dmx_merger_create`, `sacn_dmx_merger_destroy` and `sacn_dmx_merger_get_source`. -/
theorem dmx_merger_registry_functions :
    (∀ f ∈ ["sacn_dmx_merger_add_source", "sacn_dmx_merger_remove_source",
        "sacn_dmx_merger_update_levels", "sacn_dmx_merger_update_universe_priority",
        "sacn_dmx_merger_update_pap", "sacn_dmx_merger_remove_pap"],
      f ∈ functionsOf v3_0_0.group__sacn__dmx__merger "sacn_dmx_merger_") ∧
    (functionsOf v3_0_0.group__sacn__dmx__merger "sacn_dmx_merger_").filter
        (fun f => decide (f ∉ ["sacn_dmx_merger_add_source", "sacn_dmx_merger_remove_source",
          "sacn_dmx_merger_update_levels", "sacn_dmx_merger_update_universe_priority",
          "sacn_dmx_merger_update_pap", "sacn_dmx_merger_remove_pap"]))
      = ["sacn_dmx_merger_create", "sacn_dmx_merger_destroy",
          "sacn_dmx_merger_get_source"] := by
  decide

/-- C17: the record `SacnDmxMergerSource` has a member for the handle (`id`), for the
per-slot level array (`levels`), for the per-slot priority array (`address_priority`),
for the universe-level priority (`universe_priority`) and for the flag that tells
whether the source uses PAP (`using_universe_priority`, documented in the opposite
sense); its only other member is `valid_level_count`. -/
theorem dmx_merger_source_record_members :
    (∀ m ∈ ["id", "levels", "address_priority", "universe_priority",
        "using_universe_priority"],
      m ∈ membersOf v3_0_0.group__sacn__dmx__merger "SacnDmxMergerSource") ∧
    membersOf v3_0_0.group__sacn__dmx__merger "SacnDmxMergerSource"
      = ["address_priority", "id", "levels", "universe_priority", "using_universe_priority",
          "valid_level_count"] := by
  decide

/-- C18: in every group index, every handle typedef `sacn_X_t` comes with the sentinel
`SACN_X_INVALID` documented in the same group; the handle typedefs are those of the DMX
merger, the DMX merger source, the merge receiver, the receiver and the remote source;
and every `OpaqueId` instantiation of the class search indexes has three arguments, the
second a handle type `sacn_X_t` and the third the sentinel `SACN_X_INVALID` of the same
stem. -/
theorem handle_types_have_invalid_sentinel :
    (∀ idx ∈ groupIndexes, ∀ e ∈ idx, e.isLeaf = true →
      ∀ stem ∈ handleStem e.name, sentinelFor stem ∈ topNames idx) ∧
    groupIndexes.flatMap handleTypedefs
      = ["sacn_merge_receiver_t", "sacn_receiver_t", "sacn_remote_source_t",
          "sacn_dmx_merger_source_t", "sacn_dmx_merger_t", "sacn_merge_receiver_t"] ∧
    (∀ S ∈ classSearchIndexes, ∀ e ∈ S, ∀ args ∈ opaqueIdArgs e.name,
      args.length = 3 ∧
        (args.get? 1).bind (fun h => (handleStem h).map sentinelFor) = args.get? 2) ∧
    classSearchIndexes.flatMap
        (fun S => S.filterMap (fun e => (opaqueIdArgs e.name).bind (fun args => args.get? 1)))
      = ["sacn_dmx_merger_t", "sacn_merge_receiver_t", "sacn_receiver_t", "sacn_source_t",
          "sacn_dmx_merger_t", "sacn_merge_receiver_t", "sacn_receiver_t", "sacn_source_t",
          "sacn_dmx_merger_t", "sacn_merge_receiver_t", "sacn_receiver_t",
          "sacn_source_t"] := by
  decide

/-- C19: the enumerator list of `sacn_ip_support_t` is `kSacnIpV4Only`, `kSacnIpV6Only`
and `kSacnIpV4AndIpV6`, and nothing else. -/
theorem ip_support_enumerators :
    membersOf v3_0_0.group__s_a_c_n "sacn_ip_support_t"
      = ["kSacnIpV4Only", "kSacnIpV6Only", "kSacnIpV4AndIpV6"] := by
  decide

/-- C20: the footprint record `SacnRecvUniverseSubrange` has exactly the two members
`start_address` and `address_count`, and the group index of the library documents the
constant `DMX_ADDRESS_COUNT`. -/
theorem footprint_record_members :
    membersOf v2_0_2.group__sacn__receiver "SacnRecvUniverseSubrange"
      = ["address_count", "start_address"] ∧
    "DMX_ADDRESS_COUNT" ∈ topNames v3_0_0.group__s_a_c_n := by
  decide

/-! ## The shape of the documentation indexes -/

set_option maxRecDepth 1000000

theorem count_le_of_mem_count_le {l l' : List String}
    (h : ∀ m ∈ l, l.count m ≤ l'.count m) (a : String) : l.count a ≤ l'.count a := by
  by_cases ha : a ∈ l
  · exact h a ha
  · rw [List.count_eq_zero_of_not_mem ha]
    exact Nat.zero_le _

theorem bytesLe_trans : ∀ a b c : List Char,
    bytesLe a b = true → bytesLe b c = true → bytesLe a c = true
  | [], _, _, _, _ => by simp [bytesLe]
  | _ :: _, [], _, h, _ => by simp [bytesLe] at h
  | _ :: _, _ :: _, [], _, h => by simp [bytesLe] at h
  | x :: a, y :: b, z :: c, h1, h2 => by
    simp only [bytesLe, Bool.or_eq_true, Bool.and_eq_true, decide_eq_true_eq] at h1 h2 ⊢
    rcases h1 with h1 | ⟨e1, h1⟩ <;> rcases h2 with h2 | ⟨e2, h2⟩
    · exact Or.inl (by omega)
    · exact Or.inl (by omega)
    · exact Or.inl (by omega)
    · exact Or.inr ⟨by omega, bytesLe_trans a b c h1 h2⟩

theorem chain_of_ascending : ∀ l : List (List Char),
    ascending l = true → l.Chain' (fun a b => bytesLe a b = true)
  | [], _ => List.chain'_nil
  | [_], _ => List.chain'_singleton _
  | a :: b :: rest, h => by
    simp only [ascending, Bool.and_eq_true] at h
    exact List.chain'_cons.2 ⟨h.1, chain_of_ascending (b :: rest) h.2⟩

theorem pairwise_of_ascending (l : List (List Char)) (h : ascending l = true) :
    l.Pairwise (fun a b => bytesLe a b = true) := by
  haveI : IsTrans (List Char) (fun a b => bytesLe a b = true) := ⟨bytesLe_trans⟩
  exact List.chain'_iff_pairwise.1 (chain_of_ascending l h)

theorem chain_of_consecutive : ∀ l : List Nat,
    consecutive l = true → l.Chain' (fun a b => b = a + 1)
  | [], _ => List.chain'_nil
  | [_], _ => List.chain'_singleton _
  | a :: b :: rest, h => by
    simp only [consecutive, Bool.and_eq_true, decide_eq_true_eq] at h
    exact List.chain'_cons.2 ⟨h.1, chain_of_consecutive (b :: rest) h.2⟩

/-- C21: the head merge-receiver C index extends the 2.0.1 one: every entry of the 2.0.1
array, at the top level or a struct member, occurs in the head array under the same
chain of parents with the same name and the same url, and as the same kind of entry.
The 2.0.1 array has 43 entries, the head array 63. -/
theorem head_merge_receiver_extends_2_0_1 :
    (∀ r ∈ walkAll [] v2_0_1.group__sacn__merge__receiver,
      ∃ r' ∈ walkAll [] head.group__sacn__merge__receiver,
        r'.1 = r.1 ∧ r'.2.name = r.2.name ∧ r'.2.url = r.2.url ∧
          r'.2.isNode = r.2.isNode) ∧
    (walkAll [] v2_0_1.group__sacn__merge__receiver).length = 43 ∧
    (walkAll [] head.group__sacn__merge__receiver).length = 63 := by
  decide

/-- C22: the 2.0.2 C++ merge-receiver index lists the classes and structs
`MergeReceiver`, `NotifyHandler`, `Settings`, `NetintList` and `Source`, and for each
of them the multiset of its member names is included in the multiset of the member
names of the same class in the 3.0.0 index. -/
theorem merge_receiver_cpp_members_kept :
    recordsOf v2_0_2.group__sacn__merge__receiver__cpp
      = ["MergeReceiver", "NotifyHandler", "Settings", "NetintList", "Source"] ∧
    ∀ c ∈ recordsOf v2_0_2.group__sacn__merge__receiver__cpp,
      ((membersOf v2_0_2.group__sacn__merge__receiver__cpp c : List String) :
          Multiset String)
        ≤ ((membersOf v3_0_0.group__sacn__merge__receiver__cpp c : List String) :
          Multiset String) := by
  refine ⟨by decide, ?_⟩
  intro c hc
  have h : ∀ c ∈ recordsOf v2_0_2.group__sacn__merge__receiver__cpp,
      ∀ m ∈ membersOf v2_0_2.group__sacn__merge__receiver__cpp c,
        (membersOf v2_0_2.group__sacn__merge__receiver__cpp c).count m
          ≤ (membersOf v3_0_0.group__sacn__merge__receiver__cpp c).count m := by
    decide
  rw [Multiset.le_iff_count]
  intro a
  rw [Multiset.coe_count, Multiset.coe_count]
  exact count_le_of_mem_count_le (h c hc) a

/-- C23: in the 2.0.2 receiver API the map that sends a callback name `c` to `Handle`
followed by `c` in PascalCase is a bijection from the members of
`SacnReceiverCallbacks` other than `context` onto the members of the C++
`NotifyHandler` other than the destructor; there are six of each. -/
theorem receiver_callbacks_biject_handlers :
    Set.BijOn handlerName {c | c ∈ receiverCallbacks} {h | h ∈ receiverHandlers} ∧
    receiverCallbacks
      = ["sampling_period_ended", "sampling_period_started", "source_limit_exceeded",
          "source_pap_lost", "sources_lost", "universe_data"] ∧
    receiverHandlers
      = ["HandleSamplingPeriodEnded", "HandleSamplingPeriodStarted",
          "HandleSourceLimitExceeded", "HandleSourcePapLost", "HandleSourcesLost",
          "HandleUniverseData"] := by
  have hmaps : ∀ c ∈ receiverCallbacks, handlerName c ∈ receiverHandlers := by decide
  have hinj : ∀ a ∈ receiverCallbacks, ∀ b ∈ receiverCallbacks,
      handlerName a = handlerName b → a = b := by decide
  have hsurj : ∀ h ∈ receiverHandlers, ∃ c ∈ receiverCallbacks, handlerName c = h := by
    decide
  refine ⟨⟨?_, ?_, ?_⟩, by decide, by decide⟩
  · intro c hc
    exact hmaps c hc
  · intro a ha b hb hab
    exact hinj a ha b hb hab
  · intro h hh
    obtain ⟨c, hc, e⟩ := hsurj h hh
    exact ⟨c, hc, e⟩

/-- C24: in every navigation index array (`annotated_dup` and the `group__*` arrays), at
any depth, an entry whose third component is a string has a url that is that string
followed by `.html`; there are 26 such entries in `annotated_dup` and 6 in
`group__s_a_c_n`.  Each of the ten `group__*` files declares the variable named like
the file without `.js`. -/
theorem child_index_named_after_url :
    (∀ f ∈ navFiles, ∀ r ∈ walkAll [] f.entries, ∀ i ∈ r.2.index,
      r.2.url.bind (fun u => dropEnd ".html".toList u.toList) = some i.toList) ∧
    navFiles.map (fun f => ((walkAll [] f.entries).filter (fun r => r.2.index.isSome)).length)
      = [0, 0, 0, 0, 26, 6, 0, 0, 0, 0, 0] ∧
    (∀ f ∈ navFiles, (dropStart "group__".toList (baseName f.path)).isSome = true →
      dropEnd ".js".toList (baseName f.path) = some f.varName.toList) ∧
    (navFiles.filter
      (fun f => (dropStart "group__".toList (baseName f.path)).isSome)).length = 10 := by
  decide

/-- C25: in every `group__*` navigation array, for every entry with a list of children, at
any depth, the url of every child has the same page part (the text before `#`) as the
url of the entry and a non-empty anchor after `#`.  The arrays have 283 child entries
in all. -/
theorem child_urls_on_parent_page :
    (∀ idx ∈ groupIndexes, ∀ r ∈ walkAll [] idx, ∀ p ∈ r.1.head?,
      ∃ pu ∈ p.2, ∃ cu ∈ r.2.url,
        pagePart cu = pagePart pu ∧ ∃ a ∈ anchorPart cu, a ≠ []) ∧
    groupIndexes.map (fun idx => ((walkAll [] idx).filter (fun r => !r.1.isEmpty)).length)
      = [18, 37, 32, 35, 8, 12, 45, 57, 8, 31] := by
  decide

/-- C26: every search index file is a single first-letter bucket: all keys of its
`searchData` array begin with the same character, `r`, `o`, `w`, `e`, `o`, `o`, `n`
and `f` for the eight files in the order of their paths; no array is empty. -/
theorem search_index_single_bucket :
    searchIndexes.map List.length = [45, 17, 32, 41, 17, 17, 49, 97] ∧
    ∀ p ∈ searchIndexes.zip ['r', 'o', 'w', 'e', 'o', 'o', 'n', 'f'],
      ∀ e ∈ p.1, e.key.toList.head? = some p.2 := by
  decide

/-- C27: in every `searchData` array the entries are sorted by key stem: every key ends
in `_<number>`, and the stems, the keys with that ending removed, are in non-decreasing
byte order from the first entry to the last (the keys are ASCII, one byte a
character). -/
theorem search_keys_sorted_by_stem :
    (∀ S ∈ searchIndexes, ∀ e ∈ S, (keyStem e.key).isSome = true) ∧
    (∀ S ∈ searchIndexes, ∀ e ∈ S, ∀ c ∈ e.key.toList, c.toNat < 128) ∧
    ∀ S ∈ searchIndexes,
      (S.filterMap (fun e => keyStem e.key)).Pairwise (fun a b => bytesLe a b = true) := by
  have h : ∀ S ∈ searchIndexes, ascending (S.filterMap (fun e => keyStem e.key)) = true := by
    decide
  exact ⟨by decide, by decide, fun S hS => pairwise_of_ascending _ (h S hS)⟩

/-- C28: for every entry of every `searchData` array the key is
`esc (lower (unhtml name))` followed by `_` and a non-empty run of decimal digits,
where `unhtml` decodes `&lt;`, `&gt;` and `&amp;`, `lower` puts ASCII letters in
lower case, and `esc` keeps the characters in `[a-z0-9]` and replaces any other by `_`
and its two-digit lower-case hexadecimal code (`_` becomes `_5f`, `:` becomes
`_3a`). -/
theorem search_key_is_escaped_name :
    (∀ S ∈ searchIndexes, ∀ e ∈ S, ∃ p ∈ splitKey e.key,
      p.2 ≠ [] ∧ (∀ c ∈ p.2, c.isDigit = true) ∧
        e.key.toList = stemOfName e.name ++ '_' :: p.2) ∧
    esc ['_'] = "_5f".toList ∧ esc [':'] = "_3a".toList ∧
    unhtml "a&lt;b&gt;&amp;".toList = "a<b>&".toList := by
  decide

/-- C29: in every `searchData` array every key ends in a number, the number of each key
is one greater than that of the entry before it, and so the keys of an array are
pairwise distinct, also for two entries with the same stem: `now` and `Now` in
`functions_e` both have the stem `now`, with the numbers 4230 and 4231. -/
theorem search_key_numbers_consecutive :
    (∀ S ∈ searchIndexes, ∀ e ∈ S, (keyNumber e.key).isSome = true) ∧
    (∀ S ∈ searchIndexes,
      (S.filterMap (fun e => keyNumber e.key)).Chain' (fun a b => b = a + 1)) ∧
    (∀ S ∈ searchIndexes, (S.map SearchEntry.key).Nodup) ∧
    ∃ a ∈ v3_0_0.search.functions_e.searchData,
      ∃ b ∈ v3_0_0.search.functions_e.searchData,
        a.name = "now" ∧ b.name = "Now" ∧ keyStem a.key = keyStem b.key ∧
          keyNumber a.key = some 4230 ∧ keyNumber b.key = some 4231 ∧ a.key ≠ b.key := by
  have h : ∀ S ∈ searchIndexes,
      consecutive (S.filterMap (fun e => keyNumber e.key)) = true := by
    decide
  exact ⟨by decide, fun S hS => chain_of_consecutive _ (h S hS), by decide, by decide⟩

end Sacn
